import Mathlib

/-!
# Verification of the moltworker gateway supervision layer

Shallow embedding of the repository's startup script (`start-openclaw.sh`,
given as `src/unnamed/part_000`), the orchestrator reconciliation logic
(`src/gateway/process.ts`) and the environment-bundle builder
(`src/gateway/env.ts`), together with proofs of the specification claims.
-/

namespace Moltworker

/-! ## Generic association-list operations

JavaScript objects (and `Record<string, string>`) are embedded as ordered
association lists.  Property read is first-match lookup; property write
replaces the first binding in place when the key is present and appends
otherwise — exactly the insertion-order semantics of JS string-keyed
properties. -/

/-- Write a key in an association list: replace the first binding in place,
or append at the end when the key is absent (JS property-write order). -/
def setKV {β : Type} : List (String × β) → String → β → List (String × β)
  | [], k, v => [(k, v)]
  | (k', v') :: rest, k, v =>
    if k' = k then (k, v) :: rest else (k', v') :: setKV rest k v

/-- First-match lookup (JS property read). -/
def getKV {β : Type} : List (String × β) → String → Option β
  | [], _ => none
  | (k', v') :: rest, k => if k' = k then some v' else getKV rest k

/-- JS truthiness of an environment variable (`process.env.X`): absent or
empty string is falsy, any other string is truthy. -/
def envTruthy : Option String → Bool
  | none => false
  | some s => s ≠ ""

/-- `a || b` on an environment variable with a string default
(e.g. `process.env.X || 'pairing'`). -/
def envOr (x : Option String) (dflt : String) : String :=
  if envTruthy x then x.getD "" else dflt

/-- JS `String.prototype.includes`: does `pat` occur as a contiguous
substring of `s`? -/
def strIncludes (s pat : String) : Bool :=
  decide (pat.data <:+: s.data)

/-! ## Startup script (`start-openclaw.sh`, src/unnamed/part_000)

The script is embedded as a function from an abstract boot environment to the
sequence of setup steps it performs plus its terminal behaviour.  The
oracles `restoreProducesConfig` / `bootstrapDirNonempty` stand for the
outcomes of the external-world operations (R2 restore, bootstrap dir). -/

/-- Observable setup steps of the cold path (in script order). -/
inductive Ev where
  | restore        -- R2 restore block (lines 144–198)
  | onboard        -- `openclaw onboard` (lines 203–230)
  | patchCfg       -- node config-patch heredoc (lines 235–359)
  | bootstrap      -- workspace bootstrap copy loop (lines 364–378)
  | syncLoop       -- background R2 sync loop start (lines 383–423)
  | doctor         -- `openclaw doctor --fix` (lines 428–436)
  | writeMarker    -- `touch "$SETUP_MARKER"` (line 463)
  deriving DecidableEq, Repr

/-- Terminal behaviour of the entrypoint: guard exit with code 0, or entry
into the infinite supervisor loop (which never returns). -/
inductive Outcome where
  | exit0
  | supervisor
  deriving DecidableEq, Repr

/-- Abstract state of the world when the entrypoint starts. -/
structure BootEnv where
  /-- `pgrep -f "openclaw gateway"` finds a process (line 14). -/
  gatewayRunning : Bool
  /-- `[ -f "$SETUP_MARKER" ]`: /tmp/.openclaw-setup-done exists (line 104). -/
  marker : Bool
  /-- `[ -f "$CONFIG_FILE" ]`: /root/.openclaw/openclaw.json exists (line 104). -/
  config : Bool
  /-- `r2_configured` (line 116): all three R2 credential vars non-empty. -/
  r2 : Bool
  /-- Oracle: when the R2 restore runs, does it leave a config file behind? -/
  restoreProducesConfig : Bool
  /-- Oracle: `[ -d "$BOOTSTRAP_DIR" ]` (line 365). -/
  bootstrapDirNonempty : Bool
  deriving DecidableEq, Repr

/-- Does the config file exist after the (possible) restore step?  On entry it
may exist already; the restore can recreate it (lines 144–198). -/
def configAfterRestore (w : BootEnv) : Bool :=
  w.config || (w.r2 && w.restoreProducesConfig)

/-- The ordered list of cold-path setup steps (lines 144–464): restore (if R2
configured), onboard (if no config afterwards), config patch, workspace
bootstrap (if the bootstrap dir exists), background sync start (if R2
configured), doctor, and finally the setup marker write. -/
def coldEvents (w : BootEnv) : List Ev :=
  (if w.r2 then [Ev.restore] else []) ++
  (if configAfterRestore w then [] else [Ev.onboard]) ++
  [Ev.patchCfg] ++
  (if w.bootstrapDirNonempty then [Ev.bootstrap] else []) ++
  (if w.r2 then [Ev.syncLoop] else []) ++
  [Ev.doctor, Ev.writeMarker]

/-- The whole entrypoint (lines 14–466): already-running guard, then the
warm-restart check `[ -f "$SETUP_MARKER" ] && [ -f "$CONFIG_FILE" ]`
(line 104) selecting the fast path, else the full cold path. -/
def startup (w : BootEnv) : List Ev × Outcome :=
  if w.gatewayRunning then ([], Outcome.exit0)
  else if w.marker && w.config then ([], Outcome.supervisor)
  else (coldEvents w, Outcome.supervisor)

/-! ## Supervisor loop (`run_supervisor`, lines 41–92) -/

/-- `MAX_RAPID_CRASHES` (line 50). -/
def MAX_RAPID_CRASHES : Nat := 5

/-- `RAPID_CRASH_WINDOW` in seconds (line 51). -/
def RAPID_CRASH_WINDOW : Nat := 30

/-- One supervisor iteration after the gateway exits, given the previous
rapid-crash counter and the elapsed run time in seconds: returns the new
counter and the sleep before the next start (lines 71–90). -/
def superviseStep (count elapsed : Nat) : Nat × Nat :=
  let count' := if elapsed < RAPID_CRASH_WINDOW then count + 1 else 0
  let sleep :=
    if MAX_RAPID_CRASHES ≤ count' then min (count' * 10) 120 else 3
  (count', sleep)

/-- Trace of the supervisor over a sequence of run durations: for each run,
the counter after classification and the sleep applied before the restart. -/
def superviseTrace (count : Nat) : List Nat → List (Nat × Nat)
  | [] => []
  | e :: es =>
    let s := superviseStep count e
    s :: superviseTrace s.1 es

/-! ## Orchestrator reconciliation (`src/gateway/process.ts`)

Errors raised by the sandbox runtime are embedded as their message strings;
the sandbox operations themselves (listProcesses, waitForPort, kill,
startProcess, getLogs) are oracles supplied as explicit inputs. -/

/-- `isDurableObjectReset` (process.ts lines 32–35). -/
def isDurableObjectReset (msg : String) : Bool :=
  strIncludes msg "Durable Object reset" || strIncludes msg "Network connection lost"

/-- `DO_RESET_RETRY_DELAY_MS` (line 13). -/
def DO_RESET_RETRY_DELAY_MS : Nat := 5000

/-- `DO_RESET_MAX_RETRIES` (line 16). -/
def DO_RESET_MAX_RETRIES : Nat := 3

/-- Outcome of one `_ensureMoltbotGatewayOnce` attempt, as seen by the retry
loop: a process handle, or a thrown error (its message). -/
inductive Att where
  | ok (handle : Nat)
  | fail (msg : String)
  deriving DecidableEq, Repr

/-- The retry loop of `ensureMoltbotGateway` (lines 104–123): attempts are
indexed 0..`DO_RESET_MAX_RETRIES`; a Durable-Object-reset failure before the
last attempt sleeps `DO_RESET_RETRY_DELAY_MS` and retries, anything else
propagates.  Returns the final result together with the list of sleeps. -/
def ensureLoop (o : Nat → Att) (attempt : Nat) (delays : List Nat) :
    Except String Nat × List Nat :=
  match o attempt with
  | .ok h => (.ok h, delays)
  | .fail m =>
    if _hc : isDurableObjectReset m = true ∧ attempt < DO_RESET_MAX_RETRIES then
      ensureLoop o (attempt + 1) (delays ++ [DO_RESET_RETRY_DELAY_MS])
    else (.error m, delays)
termination_by DO_RESET_MAX_RETRIES + 1 - attempt
decreasing_by exact Nat.sub_lt_sub_left (by omega) (by omega)

/-- `ensureMoltbotGateway` (line 104): the loop started at attempt 0. -/
def ensureMoltbotGateway (o : Nat → Att) : Except String Nat × List Nat :=
  ensureLoop o 0 []

/-! ### Process discovery and its cache (`findExistingMoltbotProcess`) -/

/-- A process-table entry as reported by `sandbox.listProcesses()`. -/
structure ProcEntry where
  id : Nat
  command : String
  status : String
  deriving DecidableEq, Repr

/-- Gateway-invocation match (process.ts lines 58–63). -/
def isGatewayProcess (cmd : String) : Bool :=
  strIncludes cmd "start-openclaw.sh" || strIncludes cmd "openclaw gateway" ||
  strIncludes cmd "start-moltbot.sh" || strIncludes cmd "clawdbot gateway"

/-- CLI-subcommand exclusion (lines 64–69). -/
def isCliCommand (cmd : String) : Bool :=
  strIncludes cmd "openclaw devices" || strIncludes cmd "openclaw --version" ||
  strIncludes cmd "openclaw onboard" || strIncludes cmd "clawdbot devices" ||
  strIncludes cmd "clawdbot --version"

/-- The module-level cache (lines 19–21), made an explicit value. -/
structure CacheState where
  cachedProcess : Option ProcEntry
  cacheTimestamp : Nat
  deriving DecidableEq, Repr

/-- `PROCESS_CACHE_TTL_MS` (line 21). -/
def PROCESS_CACHE_TTL_MS : Nat := 2000

/-- The enumeration-and-scan part of `findExistingMoltbotProcess`
(lines 53–88): scan the process table for a gateway process in status
starting/running, excluding CLI subcommands; on enumeration failure re-throw
Durable Object resets and otherwise fall through to caching `null`.  The
final cache state is always written with the scan result. -/
def scanProcesses (listRes : Except String (List ProcEntry)) (now2 : Nat) :
    Except String (Option ProcEntry × CacheState) :=
  match listRes with
  | .ok procs =>
    match procs.find? (fun p => isGatewayProcess p.command && !isCliCommand p.command
        && (p.status = "starting" || p.status = "running")) with
    | some p => .ok (some p, ⟨some p, now2⟩)
    | none => .ok (none, ⟨none, now2⟩)
  | .error e =>
    if isDurableObjectReset e then .error e
    else .ok (none, ⟨none, now2⟩)

/-- `findExistingMoltbotProcess` (lines 43–89): serve a fresh cached
descriptor when its status is still starting/running, otherwise enumerate.
`now` is `Date.now()` at the cache check, `now2` at the cache write. -/
def findExistingMoltbotProcess (st : CacheState) (now now2 : Nat)
    (listRes : Except String (List ProcEntry)) :
    Except String (Option ProcEntry × CacheState) :=
  match st.cachedProcess with
  | some p =>
    if now - st.cacheTimestamp < PROCESS_CACHE_TTL_MS then
      if p.status = "running" || p.status = "starting" then .ok (some p, st)
      else scanProcesses listRes now2
    else scanProcesses listRes now2
  | none => scanProcesses listRes now2

/-! ### One reconciliation attempt (`_ensureMoltbotGatewayOnce`) -/

/-- The gateway's well-known port, imported from `../config` (not under
`src/`); the startup script and spec fix it at 18789. -/
def MOLTBOT_PORT : Nat := 18789

/-- Modelled from the spec: `STARTUP_TIMEOUT_MS` is imported from
`../config`, which is not among the sources; the spec sizes it for a full
cold start and process.ts's comment contrasts the short probe with "hanging
for 3 minutes", so 180 000 ms. -/
def STARTUP_TIMEOUT_MS : Nat := 180000

/-- `EXISTING_PROCESS_TIMEOUT_MS` (process.ts line 10). -/
def EXISTING_PROCESS_TIMEOUT_MS : Nat := 15000

/-- Sandbox operations performed by one reconciliation attempt, in order. -/
inductive GwEv where
  | ensureRclone                       -- ensureRcloneConfig (line 128)
  | probeExisting (port timeoutMs : Nat) -- existingProcess.waitForPort (150)
  | killExisting                       -- existingProcess.kill() (162)
  | startEntrypoint                    -- sandbox.startProcess(start-openclaw.sh) (181)
  | waitFreshPort (port timeoutMs : Nat) -- process.waitForPort (206)
  | getLogs                            -- process.getLogs()
  deriving DecidableEq, Repr

/-- Errors surfaced by one attempt: a re-thrown runtime error (its message),
or the wrapping Error built at line 220 whose message embeds the captured
stderr and whose `cause` is the original failure (that wrapper escapes the
inner catch at line 223 only when its own message matches the reset
signature). -/
inductive GwErr where
  | raw (msg : String)
  | startupFailed (msg : String) (cause : String)
  deriving DecidableEq, Repr

/-- Does an error value mention a given string (in its message or its
attached cause)? -/
def GwErr.carries : GwErr → String → Bool
  | .raw m, s => strIncludes m s
  | .startupFailed m c, s => strIncludes m s || strIncludes c s

/-- Oracle for the sandbox operations inside one reconciliation attempt.
A `none` error slot means the operation succeeded. -/
structure GwWorld where
  /-- Result of `findExistingMoltbotProcess` (line 131). -/
  existing : Option ProcEntry
  /-- `existingProcess.waitForPort` outcome (line 150): `none` = responded. -/
  probeErr : Option String
  /-- `existingProcess.kill()` outcome (line 162). -/
  killErr : Option String
  /-- `sandbox.startProcess` outcome (line 181). -/
  startErr : Option String
  /-- Id of the freshly started process. -/
  freshId : Nat
  /-- `process.waitForPort` outcome on the fresh process (line 206). -/
  freshPortErr : Option String
  /-- `process.getLogs()` outcome. -/
  logsErr : Option String
  /-- Captured stdout of the fresh process. -/
  logsStdout : String
  /-- Captured stderr of the fresh process. -/
  logsStderr : String
  deriving DecidableEq, Repr

/-- The catch block at lines 213–228: re-throw Durable Object resets (line
215); else fetch the logs and build a wrapping error whose message embeds
`logs.stderr || '(empty)'` with the original failure as cause (line 220).
That throw sits inside the `try` opened at line 216, so the inner
`catch (logErr)` at line 223 receives it: the wrapper escapes only when its
own message — and hence the embedded stderr — matches the reset signature
(line 224); otherwise line 226 re-throws the bare original error.  When
`getLogs()` itself fails, its error is re-thrown if it is a reset, else the
bare original error is. -/
def handleStartupFailure (w : GwWorld) (e : String) (evs : List GwEv) :
    List GwEv × Except GwErr Nat :=
  if isDurableObjectReset e then (evs, .error (.raw e))
  else
    match w.logsErr with
    | none =>
      let wrapMsg := "OpenClaw gateway failed to start. Stderr: " ++
        (if w.logsStderr = "" then "(empty)" else w.logsStderr)
      if isDurableObjectReset wrapMsg then
        (evs ++ [GwEv.getLogs], .error (.startupFailed wrapMsg e))
      else (evs ++ [GwEv.getLogs], .error (.raw e))
    | some le =>
      if isDurableObjectReset le then (evs ++ [GwEv.getLogs], .error (.raw le))
      else (evs ++ [GwEv.getLogs], .error (.raw e))

/-- Fresh-start path (lines 171–233): start the entrypoint with the prepared
environment bundle, wait for the port with the long cold-start timeout, fetch
the logs; failures inside the try block go to `handleStartupFailure`. -/
def freshStart (w : GwWorld) : List GwEv × Except GwErr Nat :=
  match w.startErr with
  | some se => ([GwEv.startEntrypoint], .error (.raw se))
  | none =>
    match w.freshPortErr with
    | none =>
      match w.logsErr with
      | none =>
        ([GwEv.startEntrypoint, GwEv.waitFreshPort MOLTBOT_PORT STARTUP_TIMEOUT_MS,
          GwEv.getLogs], .ok w.freshId)
      | some le =>
        handleStartupFailure w le
          [GwEv.startEntrypoint, GwEv.waitFreshPort MOLTBOT_PORT STARTUP_TIMEOUT_MS,
            GwEv.getLogs]
    | some pe =>
      handleStartupFailure w pe
        [GwEv.startEntrypoint, GwEv.waitFreshPort MOLTBOT_PORT STARTUP_TIMEOUT_MS]

/-- `_ensureMoltbotGatewayOnce` (lines 125–234): configure rclone, look for
an existing gateway process; probe it with the short timeout and reuse on
response; on probe failure kill it (re-throwing only Durable Object resets
from the kill) and fall through to the fresh-start path. -/
def ensureMoltbotGatewayOnce (w : GwWorld) : List GwEv × Except GwErr Nat :=
  let pre := [GwEv.ensureRclone]
  match w.existing with
  | none =>
    let r := freshStart w
    (pre ++ r.1, r.2)
  | some p =>
    let evs := pre ++ [GwEv.probeExisting MOLTBOT_PORT EXISTING_PROCESS_TIMEOUT_MS]
    match w.probeErr with
    | none => (evs, .ok p.id)
    | some _pe =>
      let evs := evs ++ [GwEv.killExisting]
      match w.killErr with
      | some ke =>
        if isDurableObjectReset ke then (evs, .error (.raw ke))
        else
          let r := freshStart w
          (evs ++ r.1, r.2)
      | none =>
        let r := freshStart w
        (evs ++ r.1, r.2)

/-! ## Environment bundle (`src/gateway/env.ts`)

`buildEnvVars` builds the `Record<string, string>` passed to the spawned
gateway process; each `if (env.X) envVars.K = env.X` guard is one
`envStep`. -/

/-- Worker environment bindings read by `buildEnvVars` (src/types is not in
the sources; the fields are exactly those `env.ts` reads, each an optional
string). -/
structure MoltbotEnv where
  CLOUDFLARE_AI_GATEWAY_API_KEY : Option String := none
  CF_AI_GATEWAY_ACCOUNT_ID : Option String := none
  CF_AI_GATEWAY_GATEWAY_ID : Option String := none
  ANTHROPIC_API_KEY : Option String := none
  OPENAI_API_KEY : Option String := none
  AI_GATEWAY_API_KEY : Option String := none
  AI_GATEWAY_BASE_URL : Option String := none
  ANTHROPIC_BASE_URL : Option String := none
  MOLTBOT_GATEWAY_TOKEN : Option String := none
  DEV_MODE : Option String := none
  TELEGRAM_BOT_TOKEN : Option String := none
  TELEGRAM_DM_POLICY : Option String := none
  TELEGRAM_DM_ALLOW_FROM : Option String := none
  DISCORD_BOT_TOKEN : Option String := none
  DISCORD_DM_POLICY : Option String := none
  SLACK_BOT_TOKEN : Option String := none
  SLACK_APP_TOKEN : Option String := none
  CF_AI_GATEWAY_MODEL : Option String := none
  CF_ACCOUNT_ID : Option String := none
  CDP_SECRET : Option String := none
  WORKER_URL : Option String := none
  GOOGLE_CLIENT_ID : Option String := none
  GOOGLE_CLIENT_SECRET : Option String := none
  GOOGLE_REFRESH_TOKEN : Option String := none
  GOOGLE_CALENDAR_REFRESH_TOKEN : Option String := none
  SUPERMEMORY_API_KEY : Option String := none
  TWILIO_ACCOUNT_SID : Option String := none
  TWILIO_AUTH_TOKEN : Option String := none
  TWILIO_PHONE_NUMBER : Option String := none
  R2_ACCESS_KEY_ID : Option String := none
  R2_SECRET_ACCESS_KEY : Option String := none
  R2_BUCKET_NAME : Option String := none
  deriving DecidableEq, Repr

/-- `.replace(/\/+$/, '')` (env.ts line 30): strip all trailing slashes. -/
def stripTrailingSlashes (s : String) : String :=
  String.mk (s.data.reverse.dropWhile (fun c => c = '/')).reverse

/-- One guarded copy `if (env.X) envVars.K = env.X`. -/
def envStep (k : String) (x : Option String) (l : List (String × String)) :
    List (String × String) :=
  if envTruthy x then setKV l k (x.getD "") else l

/-- The legacy AI Gateway branch (env.ts lines 29–37): when both legacy
variables are truthy, set `AI_GATEWAY_BASE_URL` and `ANTHROPIC_BASE_URL` to
the normalized base URL and override `ANTHROPIC_API_KEY` with the gateway
key; otherwise pass a truthy `ANTHROPIC_BASE_URL` through. -/
def legacyBaseUrlStep (env : MoltbotEnv) (l : List (String × String)) :
    List (String × String) :=
  if envTruthy env.AI_GATEWAY_API_KEY && envTruthy env.AI_GATEWAY_BASE_URL then
    let normalizedBaseUrl := stripTrailingSlashes (env.AI_GATEWAY_BASE_URL.getD "")
    setKV (setKV (setKV l "AI_GATEWAY_BASE_URL" normalizedBaseUrl)
        "ANTHROPIC_BASE_URL" normalizedBaseUrl)
      "ANTHROPIC_API_KEY" (env.AI_GATEWAY_API_KEY.getD "")
  else if envTruthy env.ANTHROPIC_BASE_URL then
    setKV l "ANTHROPIC_BASE_URL" (env.ANTHROPIC_BASE_URL.getD "")
  else l

/-- `buildEnvVars` (env.ts lines 9–78), with the guarded copies in source
order. -/
def buildEnvVars (env : MoltbotEnv) : List (String × String) :=
  ([] : List (String × String))
  |> envStep "CLOUDFLARE_AI_GATEWAY_API_KEY" env.CLOUDFLARE_AI_GATEWAY_API_KEY
  |> envStep "CF_AI_GATEWAY_ACCOUNT_ID" env.CF_AI_GATEWAY_ACCOUNT_ID
  |> envStep "CF_AI_GATEWAY_GATEWAY_ID" env.CF_AI_GATEWAY_GATEWAY_ID
  |> envStep "ANTHROPIC_API_KEY" env.ANTHROPIC_API_KEY
  |> envStep "OPENAI_API_KEY" env.OPENAI_API_KEY
  |> legacyBaseUrlStep env
  |> envStep "SANDBOX_GATEWAY_TOKEN" env.MOLTBOT_GATEWAY_TOKEN
  |> envStep "OPENCLAW_DEV_MODE" env.DEV_MODE
  |> envStep "TELEGRAM_BOT_TOKEN" env.TELEGRAM_BOT_TOKEN
  |> envStep "TELEGRAM_DM_POLICY" env.TELEGRAM_DM_POLICY
  |> envStep "TELEGRAM_DM_ALLOW_FROM" env.TELEGRAM_DM_ALLOW_FROM
  |> envStep "DISCORD_BOT_TOKEN" env.DISCORD_BOT_TOKEN
  |> envStep "DISCORD_DM_POLICY" env.DISCORD_DM_POLICY
  |> envStep "SLACK_BOT_TOKEN" env.SLACK_BOT_TOKEN
  |> envStep "SLACK_APP_TOKEN" env.SLACK_APP_TOKEN
  |> envStep "CF_AI_GATEWAY_MODEL" env.CF_AI_GATEWAY_MODEL
  |> envStep "CF_ACCOUNT_ID" env.CF_ACCOUNT_ID
  |> envStep "CDP_SECRET" env.CDP_SECRET
  |> envStep "WORKER_URL" env.WORKER_URL
  |> envStep "GOOGLE_CLIENT_ID" env.GOOGLE_CLIENT_ID
  |> envStep "GOOGLE_CLIENT_SECRET" env.GOOGLE_CLIENT_SECRET
  |> envStep "GOOGLE_REFRESH_TOKEN" env.GOOGLE_REFRESH_TOKEN
  |> envStep "GOOGLE_CALENDAR_REFRESH_TOKEN" env.GOOGLE_CALENDAR_REFRESH_TOKEN
  |> envStep "SUPERMEMORY_API_KEY" env.SUPERMEMORY_API_KEY
  |> envStep "TWILIO_ACCOUNT_SID" env.TWILIO_ACCOUNT_SID
  |> envStep "TWILIO_AUTH_TOKEN" env.TWILIO_AUTH_TOKEN
  |> envStep "TWILIO_PHONE_NUMBER" env.TWILIO_PHONE_NUMBER
  |> envStep "R2_ACCESS_KEY_ID" env.R2_ACCESS_KEY_ID
  |> envStep "R2_SECRET_ACCESS_KEY" env.R2_SECRET_ACCESS_KEY
  |> envStep "R2_BUCKET_NAME" env.R2_BUCKET_NAME

/-! ## Config patch (node heredoc `EOFPATCH`, part_000 lines 235–359)

The patch is a transform over the parsed JSON document.  The embedding
follows the non-strict JS semantics the heredoc runs under:

* object property read is first-match lookup, property write replaces in
  place or appends (insertion order);
* arrays are objects too: named properties can be written to and read from a
  running array value, but `JSON.stringify` drops them (`MJson.jarr` carries
  such props next to its elements);
* writing a property on a primitive string/number/boolean is silently
  ignored; reading one yields `undefined`;
* writing or reading a property of `undefined` or `null` throws a
  `TypeError` — embedded as `Option.none`, in which case the heredoc exits
  nonzero, the trailing `|| echo WARNING` swallows it, and the config file on
  disk is left unchanged. -/

/-- JSON-ish values as the running script sees them. -/
inductive MJson where
  | jnull
  | jbool (b : Bool)
  | jnum (n : Int)
  | jstr (s : String)
  | jarr (elems : List MJson) (props : List (String × MJson))
  | jobj (fields : List (String × MJson))

namespace MJson

/-- Property read (`x.k`): `none` is JS `undefined`. -/
def jget : MJson → String → Option MJson
  | jobj fs, k => getKV fs k
  | jarr _ pr, k => getKV pr k
  | _, _ => none

/-- Property write (`x.k = v`): on objects and arrays write the binding, on
primitives the write is silently ignored. -/
def jset : MJson → String → MJson → MJson
  | jobj fs, k, v => jobj (setKV fs k v)
  | jarr el pr, k, v => jarr el (setKV pr k v)
  | x, _, _ => x

/-- JS truthiness of a value. -/
def truthy : MJson → Bool
  | jnull => false
  | jbool b => b
  | jnum n => n != 0
  | jstr s => s != ""
  | jarr _ _ => true
  | jobj _ => true

end MJson

open MJson in
/-- `x || dflt` on a property read. -/
def jsOr (x : Option MJson) (dflt : MJson) : MJson :=
  match x with
  | some v => if v.truthy then v else dflt
  | none => dflt

namespace MJson

/-- `c.a.b = v`: throws when `c.a` is `undefined` or `null`; ignored when
`c.a` is a primitive. -/
def jset2 (c : MJson) (a b : String) (v : MJson) : Option MJson :=
  match c.jget a with
  | none => none
  | some jnull => none
  | some t => some (c.jset a (t.jset b v))

/-- `c.a.b = c.a.b || \x7b\x7d`: throws when `c.a` is `undefined`/`null`. -/
def jsetDefault2 (c : MJson) (a b : String) : Option MJson :=
  match c.jget a with
  | none => none
  | some jnull => none
  | some t => some (c.jset a (t.jset b (jsOr (t.jget b) (jobj []))))

/-- `c.a.b.k = v`: throws when `c.a` is `undefined`/`null`, or when `c.a.b`
is `undefined` (in particular when `c.a` is a primitive) or `null`; ignored
when `c.a.b` is a primitive. -/
def jset3 (c : MJson) (a b k : String) (v : MJson) : Option MJson :=
  match c.jget a with
  | none => none
  | some jnull => none
  | some t =>
    match t.jget b with
    | none => none
    | some jnull => none
    | some u => some (c.jset a (t.jset b (u.jset k v)))

/-- `JSON.stringify ∘ JSON.parse` as a value normalizer: drops the named
props of every array in the tree. -/
def stringify : MJson → MJson
  | jnull => jnull
  | jbool b => jbool b
  | jnum n => jnum n
  | jstr s => jstr s
  | jarr el _ => jarr (el.attach.map (fun x => stringify x.1)) []
  | jobj fs => jobj (fs.attach.map (fun x => (x.1.1, stringify x.1.2)))
decreasing_by
  · obtain ⟨v, hv⟩ := x
    have h := List.sizeOf_lt_of_mem hv
    simp at h ⊢
    omega
  · obtain ⟨⟨a, b⟩, hab⟩ := x
    have h := List.sizeOf_lt_of_mem hab
    simp at h ⊢
    omega

end MJson

open MJson

/-- Environment variables read by the config-patch heredoc. -/
structure PatchEnv where
  SANDBOX_GATEWAY_TOKEN : Option String := none
  CF_AI_GATEWAY_MODEL : Option String := none
  CF_AI_GATEWAY_ACCOUNT_ID : Option String := none
  CF_AI_GATEWAY_GATEWAY_ID : Option String := none
  CLOUDFLARE_AI_GATEWAY_API_KEY : Option String := none
  CF_ACCOUNT_ID : Option String := none
  TELEGRAM_BOT_TOKEN : Option String := none
  TELEGRAM_DM_POLICY : Option String := none
  TELEGRAM_DM_ALLOW_FROM : Option String := none
  DISCORD_BOT_TOKEN : Option String := none
  DISCORD_DM_POLICY : Option String := none
  SLACK_BOT_TOKEN : Option String := none
  SLACK_APP_TOKEN : Option String := none
  deriving DecidableEq, Repr

/-- `raw.substring(0, raw.indexOf('/'))` (line 278): the characters before
the first slash, or `""` when there is none (`substring(0, -1)` clamps). -/
def gwProviderOf (raw : String) : String :=
  if raw.data.contains '/' then String.mk (raw.data.takeWhile (fun c => c ≠ '/'))
  else ""

/-- `raw.substring(raw.indexOf('/') + 1)` (line 279): the characters after
the first slash, or the whole string when there is none. -/
def modelIdOf (raw : String) : String :=
  if raw.data.contains '/' then
    String.mk ((raw.data.dropWhile (fun c => c ≠ '/')).drop 1)
  else raw

/-- The `baseUrl` computation of the model override (lines 285–291). -/
def modelOverrideBaseUrl (e : PatchEnv) (gwProvider : String) : Option String :=
  if envTruthy e.CF_AI_GATEWAY_ACCOUNT_ID && envTruthy e.CF_AI_GATEWAY_GATEWAY_ID then
    some ("https://gateway.ai.cloudflare.com/v1/" ++ e.CF_AI_GATEWAY_ACCOUNT_ID.getD ""
      ++ "/" ++ e.CF_AI_GATEWAY_GATEWAY_ID.getD "" ++ "/" ++ gwProvider
      ++ (if gwProvider = "workers-ai" then "/v1" else ""))
  else if gwProvider = "workers-ai" && envTruthy e.CF_ACCOUNT_ID then
    some ("https://api.cloudflare.com/client/v4/accounts/" ++ e.CF_ACCOUNT_ID.getD ""
      ++ "/ai/v1")
  else none

/-- The provider entry written at lines 299–304. -/
def providerBlock (baseUrl apiKey api modelId : String) : MJson :=
  jobj [("baseUrl", jstr baseUrl), ("apiKey", jstr apiKey), ("api", jstr api),
    ("models", jarr [jobj [("id", jstr modelId), ("name", jstr modelId),
      ("contextWindow", jnum 131072), ("maxTokens", jnum 8192)]] [])]

/-- The Telegram `allowFrom` list (lines 322–331): the comma-split allow
list, with `*` appended for an open DM policy when missing; `['*']` for an
open policy without a list; nothing otherwise. -/
def telegramAllowFrom (e : PatchEnv) : Option (List String) :=
  let dmPolicy := envOr e.TELEGRAM_DM_POLICY "pairing"
  if envTruthy e.TELEGRAM_DM_ALLOW_FROM then
    let ids := (e.TELEGRAM_DM_ALLOW_FROM.getD "").splitOn ","
    some (if dmPolicy = "open" && !ids.contains "*" then ids ++ ["*"] else ids)
  else if dmPolicy = "open" then some ["*"] else none

/-- `config.gateway.auth` as written at lines 263–266. -/
def authValue (e : PatchEnv) : MJson :=
  jobj [("mode", jstr "token"),
    ("token", jstr (envOr e.SANDBOX_GATEWAY_TOKEN "sandbox-internal-fallback"))]

/-- The Telegram channel object literal at lines 317–321. -/
def telegramBase (e : PatchEnv) : MJson :=
  jobj [("botToken", jstr (e.TELEGRAM_BOT_TOKEN.getD "")),
    ("enabled", jbool true),
    ("dmPolicy", jstr (envOr e.TELEGRAM_DM_POLICY "pairing"))]

/-- The Discord channel object (lines 336–345). -/
def discordValue (e : PatchEnv) : MJson :=
  let dmPolicy := envOr e.DISCORD_DM_POLICY "pairing"
  jobj [("token", jstr (e.DISCORD_BOT_TOKEN.getD "")),
    ("enabled", jbool true),
    ("dm", jobj (("policy", jstr dmPolicy) ::
      (if dmPolicy = "open" then [("allowFrom", jarr [jstr "*"] [])] else [])))]

/-- The Slack channel object (lines 350–354). -/
def slackValue (e : PatchEnv) : MJson :=
  jobj [("botToken", jstr (e.SLACK_BOT_TOKEN.getD "")),
    ("appToken", jstr (e.SLACK_APP_TOKEN.getD "")),
    ("enabled", jbool true)]

/-- The raw `CF_AI_GATEWAY_MODEL` value. -/
def modelRaw (e : PatchEnv) : String := e.CF_AI_GATEWAY_MODEL.getD ""

/-- `providerName` (line 295). -/
def providerNameOf (e : PatchEnv) : String :=
  "cf-ai-gw-" ++ gwProviderOf (modelRaw e)

/-- `api` (line 294). -/
def apiOf (e : PatchEnv) : String :=
  if gwProviderOf (modelRaw e) = "anthropic" then "anthropic-messages"
  else "openai-completions"

/-- The `agents.defaults.model` value the override writes (line 307). -/
def modelValue (e : PatchEnv) : MJson :=
  jobj [("primary", jstr (providerNameOf e ++ "/" ++ modelIdOf (modelRaw e)))]

/-- Lines 253–254: `config.agents.defaults` default and workspace fix. -/
def agentsOps (c0 : MJson) : Option MJson := do
  let c ← c0.jsetDefault2 "agents" "defaults"
  c.jset3 "agents" "defaults" "workspace" (jstr "/root/clawd")

/-- Lines 257–272: the gateway settings. -/
def gwOps (e : PatchEnv) (c0 : MJson) : Option MJson := do
  let c ← c0.jset2 "gateway" "port" (jnum 18789)
  let c ← c.jset2 "gateway" "mode" (jstr "local")
  let c ← c.jset2 "gateway" "trustedProxies" (jarr [jstr "10.1.0.0"] [])
  let c ← c.jset2 "gateway" "auth" (authValue e)
  let c ← c.jsetDefault2 "gateway" "controlUi"
  let c ← c.jset3 "gateway" "controlUi" "allowInsecureAuth" (jbool true)
  c.jset3 "gateway" "controlUi" "dangerouslyDisableDeviceAuth" (jbool true)

/-- Lines 248–272: the unconditional defaults, agents fix, and gateway
settings, in source order. -/
def baseSteps (e : PatchEnv) (c0 : MJson) : Option MJson :=
  let c := c0.jset "gateway" (jsOr (c0.jget "gateway") (jobj []))
  let c := c.jset "channels" (jsOr (c.jget "channels") (jobj []))
  let c := c.jset "agents" (jsOr (c.jget "agents") (jobj []))
  agentsOps c >>= gwOps e

/-- Lines 297–304: the `models.providers` mutations of the override. -/
def modelModelsOps (e : PatchEnv) (baseUrl : String) (c0 : MJson) :
    Option MJson := do
  let c := c0.jset "models" (jsOr (c0.jget "models") (jobj []))
  let c ← c.jsetDefault2 "models" "providers"
  c.jset3 "models" "providers" (providerNameOf e)
    (providerBlock baseUrl (e.CLOUDFLARE_AI_GATEWAY_API_KEY.getD "")
      (apiOf e) (modelIdOf (modelRaw e)))

/-- Lines 305–307: the `agents.defaults.model` mutations of the override. -/
def modelAgentsOps (e : PatchEnv) (c0 : MJson) : Option MJson := do
  let c := c0.jset "agents" (jsOr (c0.jget "agents") (jobj []))
  let c ← c.jsetDefault2 "agents" "defaults"
  c.jset3 "agents" "defaults" "model" (modelValue e)

/-- Lines 275–312: the AI Gateway model override. -/
def modelOverrideStep (e : PatchEnv) (c0 : MJson) : Option MJson :=
  if envTruthy e.CF_AI_GATEWAY_MODEL then
    match modelOverrideBaseUrl e (gwProviderOf (modelRaw e)),
        envTruthy e.CLOUDFLARE_AI_GATEWAY_API_KEY with
    | some baseUrl, true => modelModelsOps e baseUrl c0 >>= modelAgentsOps e
    | _, _ => pure c0
  else pure c0

/-- Lines 315–332: the Telegram channel block. -/
def telegramStep (e : PatchEnv) (c0 : MJson) : Option MJson :=
  if envTruthy e.TELEGRAM_BOT_TOKEN then do
    let c ← c0.jset2 "channels" "telegram" (telegramBase e)
    match telegramAllowFrom e with
    | some ids => c.jset3 "channels" "telegram" "allowFrom" (jarr (ids.map jstr) [])
    | none => pure c
  else pure c0

/-- Lines 335–346: the Discord channel block. -/
def discordStep (e : PatchEnv) (c0 : MJson) : Option MJson :=
  if envTruthy e.DISCORD_BOT_TOKEN then
    c0.jset2 "channels" "discord" (discordValue e)
  else pure c0

/-- Lines 349–355: the Slack channel block. -/
def slackStep (e : PatchEnv) (c0 : MJson) : Option MJson :=
  if envTruthy e.SLACK_BOT_TOKEN && envTruthy e.SLACK_APP_TOKEN then
    c0.jset2 "channels" "slack" (slackValue e)
  else pure c0

/-- The whole heredoc body on the parsed document (lines 248–357, before the
final `JSON.stringify` write-out); `none` = the script threw. -/
def patchScript (e : PatchEnv) (doc : MJson) : Option MJson := do
  let c ← baseSteps e doc
  let c ← modelOverrideStep e c
  let c ← telegramStep e c
  let c ← discordStep e c
  slackStep e c

/-- Lines 242–246: a config file that fails to parse starts from the empty
document. -/
def loadedConfig : Option MJson → MJson
  | some d => d
  | none => jobj []

/-- The config file transform performed by the heredoc: on success the
stringified patched document is written; on a thrown `TypeError` the
`|| echo WARNING` guard swallows the failure and the file is unchanged. -/
def patchConfigDoc (e : PatchEnv) (d : MJson) : MJson :=
  match patchScript e d with
  | some c => stringify c
  | none => d

/-- Is a value a (non-null) primitive — a string, number or boolean? -/
def MJson.isPrim : MJson → Bool
  | MJson.jbool _ => true
  | MJson.jnum _ => true
  | MJson.jstr _ => true
  | _ => false

/-- The model-override mutations run: `CF_AI_GATEWAY_MODEL` truthy, a base
URL was derived, and the API key is truthy (lines 275, 293). -/
def ModelActive (e : PatchEnv) : Prop :=
  envTruthy e.CF_AI_GATEWAY_MODEL = true ∧
  (modelOverrideBaseUrl e (gwProviderOf (modelRaw e))).isSome = true ∧
  envTruthy e.CLOUDFLARE_AI_GATEWAY_API_KEY = true

instance (e : PatchEnv) : Decidable (ModelActive e) := by
  unfold ModelActive; infer_instance

/-- The provider entry the override writes (lines 299–304). -/
def providerValue (e : PatchEnv) : MJson :=
  providerBlock ((modelOverrideBaseUrl e (gwProviderOf (modelRaw e))).getD "")
    (e.CLOUDFLARE_AI_GATEWAY_API_KEY.getD "") (apiOf e) (modelIdOf (modelRaw e))

/-- The final Telegram channel object (lines 317–331). -/
def telegramValue (e : PatchEnv) : MJson :=
  match telegramAllowFrom e with
  | some ids => (telegramBase e).jset "allowFrom" (jarr (ids.map jstr) [])
  | none => telegramBase e

/-- `TELEGRAM_BOT_TOKEN` truthy (line 315). -/
def TgOn (e : PatchEnv) : Prop := envTruthy e.TELEGRAM_BOT_TOKEN = true

/-- `DISCORD_BOT_TOKEN` truthy (line 335). -/
def DcOn (e : PatchEnv) : Prop := envTruthy e.DISCORD_BOT_TOKEN = true

/-- Both Slack tokens truthy (line 349). -/
def SlOn (e : PatchEnv) : Prop :=
  (envTruthy e.SLACK_BOT_TOKEN && envTruthy e.SLACK_APP_TOKEN) = true

/-- Gateway-field invariant of a patched document. -/
def PGate (e : PatchEnv) (d : MJson) : Prop :=
  ∃ gv, d.jget "gateway" = some gv ∧
    ((∃ el, gv = jarr el []) ∨
     ((∃ fs, gv = jobj fs) ∧
       gv.jget "port" = some (jnum 18789) ∧
       gv.jget "mode" = some (jstr "local") ∧
       gv.jget "trustedProxies" = some (jarr [jstr "10.1.0.0"] []) ∧
       gv.jget "auth" = some (authValue e) ∧
       ∃ cu, gv.jget "controlUi" = some cu ∧
         ((cu.isPrim = true ∧ cu.truthy = true) ∨ (∃ el, cu = jarr el []) ∨
          ((∃ fs, cu = jobj fs) ∧
            cu.jget "allowInsecureAuth" = some (jbool true) ∧
            cu.jget "dangerouslyDisableDeviceAuth" = some (jbool true)))))

/-- Agents-field invariant of a patched document. -/
def PAgents (e : PatchEnv) (d : MJson) : Prop :=
  ∃ av, d.jget "agents" = some av ∧
    ((∃ el, av = jarr el []) ∨
     ((∃ fs, av = jobj fs) ∧
       ∃ df, av.jget "defaults" = some df ∧
         ((df.isPrim = true ∧ df.truthy = true) ∨ (∃ el, df = jarr el []) ∨
          ((∃ fs, df = jobj fs) ∧
            df.jget "workspace" = some (jstr "/root/clawd") ∧
            (ModelActive e → df.jget "model" = some (modelValue e))))))

/-- Models-field invariant of a patched document (only when the override is
active). -/
def PModels (e : PatchEnv) (d : MJson) : Prop :=
  ModelActive e →
    ∃ mv, d.jget "models" = some mv ∧
      ((∃ el, mv = jarr el []) ∨
       ((∃ fs, mv = jobj fs) ∧
         ∃ pv, mv.jget "providers" = some pv ∧
           ((pv.isPrim = true ∧ pv.truthy = true) ∨ (∃ el, pv = jarr el []) ∨
            ((∃ fs, pv = jobj fs) ∧
              pv.jget (providerNameOf e) = some (providerValue e)))))

/-- Channels-field invariant of a patched document. -/
def PChannels (e : PatchEnv) (d : MJson) : Prop :=
  ∃ cv, d.jget "channels" = some cv ∧
    ((cv.isPrim = true ∧ cv.truthy = true ∧
        ¬(TgOn e ∧ (telegramAllowFrom e).isSome = true)) ∨
     (∃ el, cv = jarr el []) ∨
     ((∃ fs, cv = jobj fs) ∧
       (TgOn e → cv.jget "telegram" = some (telegramValue e)) ∧
       (DcOn e → cv.jget "discord" = some (discordValue e)) ∧
       (SlOn e → cv.jget "slack" = some (slackValue e))))

/-- Shape invariant of every document the patch writes out: the written
document is a fixed point of re-running the patch. -/
def Patched (e : PatchEnv) (d : MJson) : Prop :=
  stringify d = d ∧
  ((∃ el, d = jarr el []) ∨
   ((∃ fs, d = jobj fs) ∧
     PGate e d ∧ PAgents e d ∧ PChannels e d ∧ PModels e d))

/-- State of the `agents` value after the base steps of a re-run on a patched
document `d`: the conditions the model-override's agents half relies on. -/
def AgSt (e : PatchEnv) (d av : MJson) : Prop :=
  av.truthy = true ∧
  ∃ df, av.jget "defaults" = some df ∧ df ≠ jnull ∧ df.truthy = true ∧
    (ModelActive e → ∀ (r : MJson) (fsr : List (String × MJson)), r = jobj fsr →
      r.jget "agents" = some av → stringify r = d →
      (r.jset "agents" (av.jset "defaults" (df.jset "model" (modelValue e))) = r ∨
       stringify (r.jset "agents"
         (av.jset "defaults" (df.jset "model" (modelValue e)))) = d))

/-- State of the `channels` value while the channel blocks of a re-run on a
patched document execute. -/
def ChSt (e : PatchEnv) (d s : MJson) : Prop :=
  (∃ fs, s = jobj fs) ∧ stringify s = d ∧
  ∃ cv, s.jget "channels" = some cv ∧ cv ≠ jnull ∧
    (cv.isPrim = true ∨
     (∃ el, (∃ P, cv = jarr el P) ∧
        ∀ P' : List (String × MJson),
          stringify (s.jset "channels" (jarr el P')) = d) ∨
     ((∃ cfs, cv = jobj cfs) ∧
       (DcOn e → cv.jget "discord" = some (discordValue e)) ∧
       (SlOn e → cv.jget "slack" = some (slackValue e))))

/-- Replace an object root by an array root carrying the same named props
(the script's behaviour on array documents mirrors its behaviour on object
documents, the elements riding along untouched). -/
def arrOf (el : List MJson) : MJson → MJson
  | jobj Q => jarr el Q
  | x => x

/-- A script step treats an array root exactly like an object root with the
same props. -/
def ArrSim (F : MJson → Option MJson) : Prop :=
  ∀ (el : List MJson) (P : List (String × MJson)),
    F (jarr el P) = Option.map (arrOf el) (F (jobj P))

/-- A script step sends object roots to object roots. -/
def ObjShape (F : MJson → Option MJson) : Prop :=
  ∀ (P : List (String × MJson)) (c : MJson),
    F (jobj P) = some c → ∃ Q, c = jobj Q

/-- The document the base steps produce from the empty document. -/
def emptyBase (e : PatchEnv) : MJson :=
  jobj [("gateway", jobj [("port", jnum 18789), ("mode", jstr "local"),
          ("trustedProxies", jarr [jstr "10.1.0.0"] []),
          ("auth", authValue e),
          ("controlUi", jobj [("allowInsecureAuth", jbool true),
            ("dangerouslyDisableDeviceAuth", jbool true)])]),
        ("channels", jobj []),
        ("agents", jobj [("defaults",
          jobj [("workspace", jstr "/root/clawd")])])]

/-- Running-state facts about the `controlUi` value after the gateway block. -/
def CuF (cu : MJson) : Prop :=
  (cu.isPrim = true ∧ cu.truthy = true) ∨ (∃ el pr, cu = jarr el pr) ∨
  ((∃ cfs, cu = jobj cfs) ∧ cu.jget "allowInsecureAuth" = some (jbool true) ∧
    cu.jget "dangerouslyDisableDeviceAuth" = some (jbool true))

/-- Running-state facts about the `gateway` value after the gateway block. -/
def GF (e : PatchEnv) (gv : MJson) : Prop :=
  (∃ el pr, gv = jarr el pr) ∨
  ((∃ gfs, gv = jobj gfs) ∧ gv.jget "port" = some (jnum 18789) ∧
    gv.jget "mode" = some (jstr "local") ∧
    gv.jget "trustedProxies" = some (jarr [jstr "10.1.0.0"] []) ∧
    gv.jget "auth" = some (authValue e) ∧
    ∃ cu, gv.jget "controlUi" = some cu ∧ CuF cu)

/-- Running-state facts about `agents.defaults` after the agents fix. -/
def DfF0 (df : MJson) : Prop :=
  (df.isPrim = true ∧ df.truthy = true) ∨ (∃ el pr, df = jarr el pr) ∨
  ((∃ dfs, df = jobj dfs) ∧ df.jget "workspace" = some (jstr "/root/clawd"))

/-- Running-state facts about the `agents` value after the agents fix. -/
def AF0 (av : MJson) : Prop :=
  (∃ el pr, av = jarr el pr) ∨
  ((∃ afs, av = jobj afs) ∧ ∃ df, av.jget "defaults" = some df ∧
    df.truthy = true ∧ DfF0 df)

/-- Running-state facts about `agents.defaults` after the model override. -/
def DfF1 (e : PatchEnv) (df : MJson) : Prop :=
  (df.isPrim = true ∧ df.truthy = true) ∨ (∃ el pr, df = jarr el pr) ∨
  ((∃ dfs, df = jobj dfs) ∧ df.jget "workspace" = some (jstr "/root/clawd") ∧
    (ModelActive e → df.jget "model" = some (modelValue e)))

/-- Running-state facts about the `agents` value after the model override. -/
def AF1 (e : PatchEnv) (av : MJson) : Prop :=
  (∃ el pr, av = jarr el pr) ∨
  ((∃ afs, av = jobj afs) ∧ ∃ df, av.jget "defaults" = some df ∧
    df.truthy = true ∧ DfF1 e df)

/-- Running-state facts about the `models` value after the model override. -/
def MF (e : PatchEnv) (mv : MJson) : Prop :=
  (∃ el pr, mv = jarr el pr) ∨
  ((∃ mfs, mv = jobj mfs) ∧ ∃ pv, mv.jget "providers" = some pv ∧
    ((pv.isPrim = true ∧ pv.truthy = true) ∨ (∃ el pr, pv = jarr el pr) ∨
     ((∃ pfs, pv = jobj pfs) ∧
       pv.jget (providerNameOf e) = some (providerValue e))))

/-- Running-state facts about the `channels` value after the Telegram
block. -/
def CF1 (e : PatchEnv) (cv : MJson) : Prop :=
  (cv.isPrim = true ∧ cv.truthy = true ∧
    ¬(TgOn e ∧ (telegramAllowFrom e).isSome = true)) ∨
  (∃ el pr, cv = jarr el pr) ∨
  ((∃ cfs, cv = jobj cfs) ∧
    (TgOn e → cv.jget "telegram" = some (telegramValue e)))

/-- … after the Discord block. -/
def CF2 (e : PatchEnv) (cv : MJson) : Prop :=
  (cv.isPrim = true ∧ cv.truthy = true ∧
    ¬(TgOn e ∧ (telegramAllowFrom e).isSome = true)) ∨
  (∃ el pr, cv = jarr el pr) ∨
  ((∃ cfs, cv = jobj cfs) ∧
    (TgOn e → cv.jget "telegram" = some (telegramValue e)) ∧
    (DcOn e → cv.jget "discord" = some (discordValue e)))

/-- … after the Slack block. -/
def CF3 (e : PatchEnv) (cv : MJson) : Prop :=
  (cv.isPrim = true ∧ cv.truthy = true ∧
    ¬(TgOn e ∧ (telegramAllowFrom e).isSome = true)) ∨
  (∃ el pr, cv = jarr el pr) ∨
  ((∃ cfs, cv = jobj cfs) ∧
    (TgOn e → cv.jget "telegram" = some (telegramValue e)) ∧
    (DcOn e → cv.jget "discord" = some (discordValue e)) ∧
    (SlOn e → cv.jget "slack" = some (slackValue e)))

open MJson


theorem getKV_setKV_self {β : Type} (l : List (String × β)) (k : String) (v : β) :
    getKV (setKV l k v) k = some v := by
  induction l with
  | nil => simp [setKV, getKV]
  | cons hd tl ih =>
    obtain ⟨k', v'⟩ := hd
    by_cases h : k' = k <;> simp [setKV, getKV, h, ih]

theorem getKV_setKV_ne {β : Type} (l : List (String × β)) {k k' : String} (v : β)
    (h : k ≠ k') : getKV (setKV l k v) k' = getKV l k' := by
  induction l with
  | nil => simp [setKV, getKV, h]
  | cons hd tl ih =>
    obtain ⟨k₀, v₀⟩ := hd
    by_cases h0 : k₀ = k
    · subst h0; simp [setKV, getKV, h]
    · simp [setKV, getKV, h0, ih]

theorem setKV_getKV_self {β : Type} (l : List (String × β)) (k : String) (v : β)
    (h : getKV l k = some v) : setKV l k v = l := by
  induction l with
  | nil => simp [getKV] at h
  | cons hd tl ih =>
    obtain ⟨k₀, v₀⟩ := hd
    by_cases h0 : k₀ = k
    · subst h0
      simp [getKV] at h
      simp [setKV, h]
    · simp [getKV, h0] at h
      simp [setKV, h0, ih h]

theorem setKV_setKV_self {β : Type} (l : List (String × β)) (k : String) (v w : β) :
    setKV (setKV l k v) k w = setKV l k w := by
  induction l with
  | nil => simp [setKV]
  | cons hd tl ih =>
    obtain ⟨k₀, v₀⟩ := hd
    by_cases h0 : k₀ = k <;> simp [setKV, h0, ih]

theorem mem_setKV {β : Type} {l : List (String × β)} {k : String} {v : β}
    {kv : String × β} (h : kv ∈ setKV l k v) : kv ∈ l ∨ kv = (k, v) := by
  induction l with
  | nil => simp [setKV] at h; simp [h]
  | cons hd tl ih =>
    obtain ⟨k₀, v₀⟩ := hd
    by_cases h0 : k₀ = k
    · subst h0; simp [setKV] at h
      rcases h with h | h
      · right; simp [h]
      · left; simp [h]
    · simp [setKV, h0] at h
      rcases h with h | h
      · left; simp [h]
      · rcases ih h with h' | h'
        · left; simp [h']
        · right; exact h'

theorem strIncludes_append_right (a b : String) : strIncludes (a ++ b) b = true := by
  simp only [strIncludes, decide_eq_true_eq]
  exact ⟨a.data, [], by simp⟩

theorem superviseTrace_length (count : Nat) (es : List Nat) :
    (superviseTrace count es).length = es.length := by
  induction es generalizing count with
  | nil => rfl
  | cons e es ih => simp [superviseTrace, ih]

/-- Over a sequence of runs that all crash inside the 30 s window, the counter
climbs by one per run and the sleep follows the threshold/backoff rule. -/
theorem superviseTrace_getElem (c : Nat) (es : List Nat) (h30 : ∀ e ∈ es, e < 30)
    (j : Nat) (hj : j < es.length) :
    (superviseTrace c es)[j]? =
      some (c + j + 1,
        if 5 ≤ c + j + 1 then min ((c + j + 1) * 10) 120 else 3) := by
  induction es generalizing c j with
  | nil => exact absurd hj (by simp)
  | cons e es ih =>
    have he : e < 30 := h30 e (by simp)
    have hstep : superviseStep c e =
        (c + 1, if 5 ≤ c + 1 then min ((c + 1) * 10) 120 else 3) := by
      simp [superviseStep, RAPID_CRASH_WINDOW, MAX_RAPID_CRASHES, he]
    cases j with
    | zero => simp [superviseTrace, hstep]
    | succ j =>
      have h30' : ∀ x ∈ es, x < 30 := fun x hx => h30 x (by simp [hx])
      have hj' : j < es.length := by simpa using hj
      have htail := ih (c + 1) h30' j hj'
      simp only [superviseTrace, hstep, List.getElem?_cons_succ]
      rw [htail]
      ring_nf

/-- **C1.** Entrypoint invocations that pass the already-running guard: when
both the setup marker and the config file exist, the warm path runs the
supervisor directly with no setup steps (and never returns); when either is
missing — including marker-present/config-lost — the cold path runs the full
setup sequence and writes the marker only after every setup step. -/
theorem claim_C1_cold_warm_gate (w : BootEnv) (hg : w.gatewayRunning = false) :
    (w.marker = true → w.config = true → startup w = ([], Outcome.supervisor)) ∧
    (¬(w.marker = true ∧ w.config = true) →
      startup w = (coldEvents w, Outcome.supervisor) ∧
      (startup w).1.getLast? = some Ev.writeMarker ∧
      Ev.writeMarker ∉ (startup w).1.dropLast ∧
      Ev.patchCfg ∈ (startup w).1 ∧
      Ev.doctor ∈ (startup w).1 ∧
      (w.r2 = true → Ev.restore ∈ (startup w).1) ∧
      (configAfterRestore w = false → Ev.onboard ∈ (startup w).1)) := by
  obtain ⟨g, m, c, r2, rp, bd⟩ := w
  cases hg
  cases m <;> cases c <;> cases r2 <;> cases rp <;> cases bd <;>
    simp [startup, coldEvents, configAfterRestore]

/-- Witness for C1 at concrete boot states: a warm state takes the fast path;
a state with the marker present but the config lost takes the cold path and
writes the marker last. -/
theorem claim_C1_cold_warm_gate_witness :
    startup ⟨false, true, true, false, false, false⟩ = ([], Outcome.supervisor) ∧
    startup ⟨false, true, false, true, true, false⟩ =
      ([Ev.restore, Ev.patchCfg, Ev.syncLoop, Ev.doctor, Ev.writeMarker],
        Outcome.supervisor) := by
  constructor
  · exact (claim_C1_cold_warm_gate ⟨false, true, true, false, false, false⟩ rfl).1
      rfl rfl
  · have h := (claim_C1_cold_warm_gate ⟨false, true, false, true, true, false⟩
      rfl).2 (by simp)
    exact h.1.trans rfl

/-- **C2.** Supervisor crash handling: a run of at least 30 s resets the
rapid-crash counter, a shorter run increments it; starting from counter 0, a
sequence of sub-30 s runs makes the (0-based) j-th restart sleep 3 s while the
counter is below the threshold 5 and `min((j+1)*10, 120)` s once it reaches
it; in particular after N consecutive rapid crashes (N ≥ 9) the (N−5)-th
restart sleeps `min((N−4)*10, 120)` s. -/
theorem claim_C2_crash_backoff :
    (∀ count elapsed, 30 ≤ elapsed → (superviseStep count elapsed).1 = 0) ∧
    (∀ count elapsed, elapsed < 30 → (superviseStep count elapsed).1 = count + 1) ∧
    (∀ es : List Nat, (∀ e ∈ es, e < 30) → ∀ j, j < es.length →
      (superviseTrace 0 es)[j]? =
        some (j + 1, if 5 ≤ j + 1 then min ((j + 1) * 10) 120 else 3)) ∧
    (∀ (N : Nat) (es : List Nat), 9 ≤ N → es.length = N →
      (∀ e ∈ es, e < 30) →
      (superviseTrace 0 es)[N - 5]? =
        some (N - 4, min ((N - 4) * 10) 120)) := by
  refine ⟨?_, ?_, ?_, ?_⟩
  · intro count elapsed h
    simp [superviseStep, RAPID_CRASH_WINDOW, Nat.not_lt.mpr h]
  · intro count elapsed h
    simp [superviseStep, RAPID_CRASH_WINDOW, h]
  · intro es h30 j hj
    simpa using superviseTrace_getElem 0 es h30 j hj
  · intro N es hN hlen h30
    have hj : N - 5 < es.length := by omega
    have h := superviseTrace_getElem 0 es h30 (N - 5) hj
    have h1 : 0 + (N - 5) + 1 = N - 4 := by omega
    have h5 : 5 ≤ N - 4 := by omega
    rw [h1] at h
    rw [h]
    simp [h5]

/-- Witness for C2 at concrete inputs: a 30 s run resets the counter, a 10 s
run increments it, and over nine consecutive 1 s crashes the 4th (0-based)
restart — the (9−5)-th — sleeps `min((9−4)*10, 120) = 50` s. -/
theorem claim_C2_crash_backoff_witness :
    (superviseStep 3 30).1 = 0 ∧ (superviseStep 3 10).1 = 4 ∧
    (superviseTrace 0 [1, 1, 1, 1, 1, 1, 1, 1, 1])[4]? = some (5, 50) := by
  obtain ⟨h1, h2, h3, _h4⟩ := claim_C2_crash_backoff
  refine ⟨h1 3 30 (by decide), h2 3 10 (by decide), ?_⟩
  have := h3 [1, 1, 1, 1, 1, 1, 1, 1, 1] (by decide) 4 (by decide)
  simpa using this

/-- **C8.** When a gateway process is already detected running by the pgrep
guard, the entrypoint exits with code 0 as a no-op: no setup step runs and the
supervisor loop is never entered. -/
theorem claim_C8_already_running_guard (w : BootEnv)
    (hg : w.gatewayRunning = true) :
    startup w = ([], Outcome.exit0) := by
  simp [startup, hg]

/-- Witness for C8 at a concrete boot state. -/
theorem claim_C8_already_running_guard_witness :
    startup ⟨true, true, true, true, true, true⟩ = ([], Outcome.exit0) :=
  claim_C8_already_running_guard ⟨true, true, true, true, true, true⟩ rfl

theorem ensureLoop_ok {o : Nat → Att} {attempt n : Nat} (delays : List Nat)
    (h : o attempt = .ok n) :
    ensureLoop o attempt delays = (.ok n, delays) := by
  rw [ensureLoop]; simp only [h]

theorem ensureLoop_retry {o : Nat → Att} {attempt : Nat} {m : String}
    (delays : List Nat) (h : o attempt = .fail m)
    (hr : isDurableObjectReset m = true) (ha : attempt < DO_RESET_MAX_RETRIES) :
    ensureLoop o attempt delays =
      ensureLoop o (attempt + 1) (delays ++ [DO_RESET_RETRY_DELAY_MS]) := by
  rw [ensureLoop]; simp only [h]; rw [dif_pos ⟨hr, ha⟩]

theorem ensureLoop_stop {o : Nat → Att} {attempt : Nat} {m : String}
    (delays : List Nat) (h : o attempt = .fail m)
    (hns : ¬(isDurableObjectReset m = true ∧ attempt < DO_RESET_MAX_RETRIES)) :
    ensureLoop o attempt delays = (.error m, delays) := by
  rw [ensureLoop]; simp only [h]; rw [dif_neg hns]

theorem ensureLoop_delays (o : Nat → Att) :
    ∀ k attempt delays, DO_RESET_MAX_RETRIES + 1 - attempt ≤ k →
      (∀ d ∈ delays, d = DO_RESET_RETRY_DELAY_MS) →
      ∀ d ∈ (ensureLoop o attempt delays).2, d = DO_RESET_RETRY_DELAY_MS := by
  intro k
  induction k with
  | zero =>
    intro attempt delays hk hd
    have hge : ¬ attempt < DO_RESET_MAX_RETRIES := by
      simp [DO_RESET_MAX_RETRIES] at hk ⊢; omega
    cases ho : o attempt with
    | ok h => rw [ensureLoop_ok delays ho]; simpa using hd
    | fail m =>
      rw [ensureLoop_stop delays ho (fun hc => hge hc.2)]
      simpa using hd
  | succ k ih =>
    intro attempt delays hk hd
    cases ho : o attempt with
    | ok h => rw [ensureLoop_ok delays ho]; simpa using hd
    | fail m =>
      by_cases hc : isDurableObjectReset m = true ∧ attempt < DO_RESET_MAX_RETRIES
      · rw [ensureLoop_retry delays ho hc.1 hc.2]
        refine ih (attempt + 1) _ (by omega) ?_
        intro d hdm
        rcases List.mem_append.mp hdm with h | h
        · exact hd d h
        · simpa using h
      · rw [ensureLoop_stop delays ho hc]
        simpa using hd

/-- **C3.** `ensureMoltbotGateway` retries only on the Durable Object reset
signature with a fixed 5 s delay between attempts, up to the retry ceiling: a
failure not matching the signature propagates immediately, at whatever
attempt it occurs — after `k` reset retries exactly the `k` delays already
slept are incurred and no further attempt is made; reset failures on the
first two attempts followed by success yield the process handle after two
5 s delays; four consecutive reset failures propagate the last error as
fatal; and every sleep the loop ever performs is 5 s. -/
theorem claim_C3_do_reset_retry :
    (∀ (o : Nat → Att) (k : Nat) m, k ≤ DO_RESET_MAX_RETRIES →
      (∀ i, i < k → ∃ mi, o i = .fail mi ∧ isDurableObjectReset mi = true) →
      o k = .fail m → isDurableObjectReset m = false →
      ensureMoltbotGateway o =
        (.error m, List.replicate k DO_RESET_RETRY_DELAY_MS)) ∧
    (∀ (o : Nat → Att) h m₁ m₂, o 0 = .fail m₁ → o 1 = .fail m₂ → o 2 = .ok h →
      isDurableObjectReset m₁ = true → isDurableObjectReset m₂ = true →
      ensureMoltbotGateway o = (.ok h, [5000, 5000])) ∧
    (∀ (o : Nat → Att) m₀ m₁ m₂ m₃,
      o 0 = .fail m₀ → o 1 = .fail m₁ → o 2 = .fail m₂ → o 3 = .fail m₃ →
      isDurableObjectReset m₀ = true → isDurableObjectReset m₁ = true →
      isDurableObjectReset m₂ = true → isDurableObjectReset m₃ = true →
      ensureMoltbotGateway o = (.error m₃, [5000, 5000, 5000])) ∧
    (∀ (o : Nat → Att), ∀ d ∈ (ensureMoltbotGateway o).2, d = 5000) := by
  refine ⟨?_, ?_, ?_, ?_⟩
  · intro o k m hk hres hok hm
    have key : ∀ (n j : Nat) (ds : List Nat), j + n = k →
        ensureLoop o j ds =
          (.error m, ds ++ List.replicate n DO_RESET_RETRY_DELAY_MS) := by
      intro n
      induction n with
      | zero =>
        intro j ds hj
        have hj' : j = k := by omega
        subst hj'
        rw [ensureLoop_stop ds hok (by simp [hm])]
        simp
      | succ n ih =>
        intro j ds hj
        obtain ⟨mj, hoj, hrj⟩ := hres j (by omega)
        rw [ensureLoop_retry ds hoj hrj (by omega),
          ih (j + 1) _ (by omega)]
        simp [List.replicate_succ]
    rw [ensureMoltbotGateway, key k 0 [] (by omega)]
    simp
  · intro o h m₁ m₂ h0 h1 h2 hm1 hm2
    rw [ensureMoltbotGateway,
      ensureLoop_retry [] h0 hm1 (by simp [DO_RESET_MAX_RETRIES]),
      ensureLoop_retry _ h1 hm2 (by simp [DO_RESET_MAX_RETRIES]),
      ensureLoop_ok _ h2]
    rfl
  · intro o m₀ m₁ m₂ m₃ h0 h1 h2 h3 hm0 hm1 hm2 hm3
    rw [ensureMoltbotGateway,
      ensureLoop_retry [] h0 hm0 (by simp [DO_RESET_MAX_RETRIES]),
      ensureLoop_retry _ h1 hm1 (by simp [DO_RESET_MAX_RETRIES]),
      ensureLoop_retry _ h2 hm2 (by simp [DO_RESET_MAX_RETRIES]),
      ensureLoop_stop _ h3 (by simp [DO_RESET_MAX_RETRIES])]
    rfl
  · intro o
    exact ensureLoop_delays o (DO_RESET_MAX_RETRIES + 1) 0 [] (by omega) (by simp)

/-- Witness for C3 at concrete oracles: reset failures on attempts 0 and 1
then success; a non-reset failure on the very first attempt propagating with
no delay; and a reset on attempt 0 followed by a non-reset failure on attempt
1 propagating immediately after the single 5 s retry sleep. -/
theorem claim_C3_do_reset_retry_witness :
    ensureMoltbotGateway
      (fun n => if n < 2 then Att.fail "Durable Object reset" else Att.ok 7) =
      (.ok 7, [5000, 5000]) ∧
    ensureMoltbotGateway (fun _ => Att.fail "gateway exploded") =
      (.error "gateway exploded", []) ∧
    ensureMoltbotGateway
      (fun n => if n = 0 then Att.fail "Durable Object reset"
        else Att.fail "disk full") =
      (.error "disk full", [5000]) := by
  obtain ⟨hprop, htwo, _hfour, _hd⟩ := claim_C3_do_reset_retry
  refine ⟨?_, ?_, ?_⟩
  · exact htwo _ 7 "Durable Object reset" "Durable Object reset"
      rfl rfl rfl (by decide) (by decide)
  · exact (hprop _ 0 "gateway exploded" (by decide)
      (by intro i hi; omega) rfl (by decide)).trans rfl
  · exact (hprop _ 1 "disk full" (by decide)
      (by
        intro i hi
        have hi0 : i = 0 := by omega
        subst hi0
        exact ⟨"Durable Object reset", rfl, by decide⟩)
      rfl (by decide)).trans rfl

/-- **C10.** When the process-table enumeration itself fails and the cache
cannot serve the request, `findExistingMoltbotProcess` swallows the error,
returns `null` and caches the `null` result — so the orchestrator proceeds as
if no gateway exists — except that a Durable Object reset error is
re-thrown. -/
theorem claim_C10_enumeration_failure (st : CacheState) (now now2 : Nat)
    (e : String)
    (hcache : st.cachedProcess = none ∨
      PROCESS_CACHE_TTL_MS ≤ now - st.cacheTimestamp) :
    (isDurableObjectReset e = false →
      findExistingMoltbotProcess st now now2 (.error e) =
        .ok (none, ⟨none, now2⟩)) ∧
    (isDurableObjectReset e = true →
      findExistingMoltbotProcess st now now2 (.error e) = .error e) := by
  have hscan : ∀ (h : Bool), isDurableObjectReset e = h →
      scanProcesses (.error e) now2 =
        (if h then .error e else .ok (none, ⟨none, now2⟩)) := by
    intro h hh
    cases h <;> simp [scanProcesses, hh]
  constructor <;> intro he
  · rcases hcache with hc | hc
    · rcases st with ⟨cp, ts⟩
      cases hc
      simpa [findExistingMoltbotProcess] using hscan false he
    · rcases st with ⟨cp, ts⟩
      cases cp with
      | none => simpa [findExistingMoltbotProcess] using hscan false he
      | some p =>
        simp only [findExistingMoltbotProcess]
        rw [if_neg (by simp at hc ⊢; omega)]
        simpa using hscan false he
  · rcases hcache with hc | hc
    · rcases st with ⟨cp, ts⟩
      cases hc
      simpa [findExistingMoltbotProcess] using hscan true he
    · rcases st with ⟨cp, ts⟩
      cases cp with
      | none => simpa [findExistingMoltbotProcess] using hscan true he
      | some p =>
        simp only [findExistingMoltbotProcess]
        rw [if_neg (by simp at hc ⊢; omega)]
        simpa using hscan true he

/-- Witness for C10 at concrete inputs: an empty cache with a non-reset
enumeration error yields a cached `null`; with a reset error the error is
re-thrown. -/
theorem claim_C10_enumeration_failure_witness :
    findExistingMoltbotProcess ⟨none, 0⟩ 10 11 (.error "permission denied") =
      .ok (none, ⟨none, 11⟩) ∧
    findExistingMoltbotProcess ⟨none, 0⟩ 10 11
        (.error "Network connection lost.") =
      .error "Network connection lost." := by
  constructor
  · exact (claim_C10_enumeration_failure ⟨none, 0⟩ 10 11 "permission denied"
      (Or.inl rfl)).1 (by decide)
  · exact (claim_C10_enumeration_failure ⟨none, 0⟩ 10 11
      "Network connection lost." (Or.inl rfl)).2 (by decide)

theorem freshStart_head (w : GwWorld) :
    GwEv.startEntrypoint ∈ (freshStart w).1 := by
  rcases w with ⟨ex, pe, ke, se, id, fpe, le, so, st⟩
  cases se <;> cases fpe <;> cases le <;>
    simp only [freshStart, handleStartupFailure] <;>
    first
      | (split_ifs <;> simp)
      | simp

/-- The fresh-start path reads none of the existing-process oracles: it is
determined by the start/port/logs slots alone. -/
theorem freshStart_irrel (ex ex' : Option ProcEntry)
    (pe pe' ke ke' se : Option String) (n : Nat) (fpe le : Option String)
    (so so' st : String) :
    freshStart ⟨ex, pe, ke, se, n, fpe, le, so, st⟩ =
      freshStart ⟨ex', pe', ke', se, n, fpe, le, so', st⟩ := by
  cases se <;> cases fpe <;> cases le <;> rfl

/-- **C4.** When an existing starting/running gateway process is found: if it
answers the 15 s liveness probe, that same process is returned and the
startup entrypoint is not invoked; if the probe fails, the process is killed
and a fresh one is started via the entrypoint — and the probe's own error
value never influences (and is never surfaced as) the caller's result. -/
theorem claim_C4_probe_reuse_or_replace (w : GwWorld) (p : ProcEntry)
    (hex : w.existing = some p)
    (_hstatus : p.status = "starting" ∨ p.status = "running") :
    (w.probeErr = none →
      ensureMoltbotGatewayOnce w =
        ([GwEv.ensureRclone,
          GwEv.probeExisting MOLTBOT_PORT EXISTING_PROCESS_TIMEOUT_MS], .ok p.id) ∧
      GwEv.startEntrypoint ∉ (ensureMoltbotGatewayOnce w).1) ∧
    (∀ pe, w.probeErr = some pe → w.killErr = none →
      ensureMoltbotGatewayOnce w =
        ([GwEv.ensureRclone,
          GwEv.probeExisting MOLTBOT_PORT EXISTING_PROCESS_TIMEOUT_MS,
          GwEv.killExisting] ++ (freshStart w).1, (freshStart w).2) ∧
      GwEv.killExisting ∈ (ensureMoltbotGatewayOnce w).1 ∧
      GwEv.startEntrypoint ∈ (ensureMoltbotGatewayOnce w).1 ∧
      (∀ pe', ensureMoltbotGatewayOnce {w with probeErr := some pe'} =
        ensureMoltbotGatewayOnce w)) := by
  obtain ⟨ex, pe0, ke, se, n, fpe, le, so, st⟩ := w
  simp only at hex
  subst hex
  constructor
  · intro hp
    simp only at hp
    subst hp
    refine ⟨by simp [ensureMoltbotGatewayOnce], ?_⟩
    simp [ensureMoltbotGatewayOnce]
  · intro pe hp hk
    simp only at hp hk
    subst hp; subst hk
    refine ⟨by simp [ensureMoltbotGatewayOnce], ?_, ?_, ?_⟩
    · simp [ensureMoltbotGatewayOnce]
    · have hh := freshStart_head ⟨some p, some pe, none, se, n, fpe, le, so, st⟩
      simp only [ensureMoltbotGatewayOnce]
      simp only [List.append_assoc, List.mem_append]
      exact Or.inr (Or.inr (Or.inr hh))
    · intro pe'
      have hfr := freshStart_irrel (some p) (some p) (some pe') (some pe)
        none none se n fpe le so so st
      simp [ensureMoltbotGatewayOnce, hfr]

/-- Witness for C4 at a concrete world: a responsive existing process is
reused without a fresh start; an unresponsive one is killed and replaced. -/
theorem claim_C4_probe_reuse_or_replace_witness :
    ensureMoltbotGatewayOnce
        ⟨some ⟨3, "openclaw gateway --port 18789", "running"⟩,
          none, none, none, 9, none, none, "", ""⟩ =
      ([GwEv.ensureRclone, GwEv.probeExisting 18789 15000], .ok 3) ∧
    ensureMoltbotGatewayOnce
        ⟨some ⟨3, "openclaw gateway --port 18789", "running"⟩,
          some "probe timed out", none, none, 9, none, none, "", ""⟩ =
      ([GwEv.ensureRclone, GwEv.probeExisting 18789 15000, GwEv.killExisting,
        GwEv.startEntrypoint, GwEv.waitFreshPort 18789 180000, GwEv.getLogs],
        .ok 9) := by
  constructor
  · have h := (claim_C4_probe_reuse_or_replace
      ⟨some ⟨3, "openclaw gateway --port 18789", "running"⟩,
        none, none, none, 9, none, none, "", ""⟩
      ⟨3, "openclaw gateway --port 18789", "running"⟩ rfl (Or.inr rfl)).1 rfl
    exact h.1.trans rfl
  · have h := ((claim_C4_probe_reuse_or_replace
      ⟨some ⟨3, "openclaw gateway --port 18789", "running"⟩,
        some "probe timed out", none, none, 9, none, none, "", ""⟩
      ⟨3, "openclaw gateway --port 18789", "running"⟩ rfl (Or.inr rfl)).2
      "probe timed out" rfl rfl).1
    exact h.trans rfl

/-- **C7 counterexample.** The claim states that the error surfaced when a
fresh gateway never becomes reachable carries the captured stdout/stderr
diagnostics with the original failure as cause.  At this concrete world the
logs are fetched (stderr `"bind failed"`, stdout `"STDOUT_DIAG_7"`), yet the
caller receives the bare original `waitForPort` error: the stderr-embedding
wrapper thrown at line 220 is caught by the inner catch at line 223 and,
since its message does not match the reset signature, line 226 re-throws the
original error, which carries neither stream nor any cause. -/
theorem claim_C7_counterexample :
    (ensureMoltbotGatewayOnce
        ⟨none, none, none, none, 9, some "waitForPort: timeout", none,
          "STDOUT_DIAG_7", "bind failed"⟩).2 =
      .error (.raw "waitForPort: timeout") ∧
    GwErr.carries (.raw "waitForPort: timeout") "bind failed" = false ∧
    GwErr.carries (.raw "waitForPort: timeout") "STDOUT_DIAG_7" = false := by
  refine ⟨rfl, by decide, by decide⟩

/-- **C7 (amended).** When a freshly started gateway never becomes reachable
within the startup timeout and the failure is not a Durable Object reset, and
fetching the logs succeeds: the captured stdout and stderr are written to the
operations log only, and the caller receives the bare original failure with
no diagnostics and no cause attached — except that when the captured stderr
itself matches the Durable-Object-reset signature, the stderr-embedding
wrapper error (with the original failure as cause) escapes the inner catch
and is the one surfaced. -/
theorem claim_C7_amended_diagnostics (w : GwWorld) (pe : String)
    (hex : w.existing = none) (hstart : w.startErr = none)
    (hpe : w.freshPortErr = some pe)
    (hreset : isDurableObjectReset pe = false)
    (hlogs : w.logsErr = none) :
    GwEv.getLogs ∈ (ensureMoltbotGatewayOnce w).1 ∧
    (isDurableObjectReset
        ("OpenClaw gateway failed to start. Stderr: " ++
          (if w.logsStderr = "" then "(empty)" else w.logsStderr)) = false →
      (ensureMoltbotGatewayOnce w).2 = .error (.raw pe)) ∧
    (isDurableObjectReset
        ("OpenClaw gateway failed to start. Stderr: " ++
          (if w.logsStderr = "" then "(empty)" else w.logsStderr)) = true →
      (ensureMoltbotGatewayOnce w).2 =
        .error (.startupFailed
          ("OpenClaw gateway failed to start. Stderr: " ++
            (if w.logsStderr = "" then "(empty)" else w.logsStderr)) pe)) := by
  obtain ⟨ex, pe0, ke, se, n, fpe, le, so, st⟩ := w
  simp only at hex hstart hpe hlogs ⊢
  subst hex; subst hstart; subst hpe; subst hlogs
  refine ⟨?_, ?_, ?_⟩
  · by_cases hw : isDurableObjectReset
        ("OpenClaw gateway failed to start. Stderr: " ++
          (if st = "" then "(empty)" else st)) = true <;>
      simp [ensureMoltbotGatewayOnce, freshStart, handleStartupFailure,
        hreset, hw]
  · intro hw
    simp [ensureMoltbotGatewayOnce, freshStart, handleStartupFailure,
      hreset, hw]
  · intro hw
    simp [ensureMoltbotGatewayOnce, freshStart, handleStartupFailure,
      hreset, hw]

/-- Witness for the amended C7 at a concrete world: the logs are fetched,
and the bare original error is what the caller sees. -/
theorem claim_C7_amended_diagnostics_witness :
    (ensureMoltbotGatewayOnce
        ⟨none, none, none, none, 9, some "waitForPort: timeout", none,
          "out", "bind failed"⟩).2 = .error (.raw "waitForPort: timeout") ∧
    GwEv.getLogs ∈ (ensureMoltbotGatewayOnce
        ⟨none, none, none, none, 9, some "waitForPort: timeout", none,
          "out", "bind failed"⟩).1 := by
  have h := claim_C7_amended_diagnostics
    ⟨none, none, none, none, 9, some "waitForPort: timeout", none,
      "out", "bind failed"⟩ "waitForPort: timeout" rfl rfl rfl (by decide) rfl
  exact ⟨h.2.1 (by decide), h.1⟩

theorem envTruthy_getD {x : Option String} (h : envTruthy x = true) :
    x.getD "" ≠ "" := by
  cases x with
  | none => simp [envTruthy] at h
  | some s => simpa [envTruthy] using h

theorem envStep_nonempty {k : String} {x : Option String}
    {l : List (String × String)} (hl : ∀ kv ∈ l, kv.2 ≠ "") :
    ∀ kv ∈ envStep k x l, kv.2 ≠ "" := by
  intro kv hkv
  unfold envStep at hkv
  by_cases hx : envTruthy x = true
  · rw [if_pos hx] at hkv
    rcases mem_setKV hkv with h | h
    · exact hl _ h
    · rw [h]; exact envTruthy_getD hx
  · rw [if_neg hx] at hkv
    exact hl _ hkv

theorem legacyBaseUrlStep_nonempty (env : MoltbotEnv)
    (hs : envTruthy env.AI_GATEWAY_API_KEY = true →
      envTruthy env.AI_GATEWAY_BASE_URL = true →
      stripTrailingSlashes (env.AI_GATEWAY_BASE_URL.getD "") ≠ "")
    {l : List (String × String)} (hl : ∀ kv ∈ l, kv.2 ≠ "") :
    ∀ kv ∈ legacyBaseUrlStep env l, kv.2 ≠ "" := by
  intro kv hkv
  unfold legacyBaseUrlStep at hkv
  by_cases hc : (envTruthy env.AI_GATEWAY_API_KEY &&
      envTruthy env.AI_GATEWAY_BASE_URL) = true
  · rw [if_pos hc] at hkv
    obtain ⟨h1, h2⟩ := Bool.and_eq_true_iff.mp hc
    have hurl := hs h1 h2
    rcases mem_setKV hkv with h | h
    · rcases mem_setKV h with h' | h'
      · rcases mem_setKV h' with h'' | h''
        · exact hl _ h''
        · rw [h'']; exact hurl
      · rw [h']; exact hurl
    · rw [h]; exact envTruthy_getD h1
  · rw [if_neg hc] at hkv
    by_cases hb : envTruthy env.ANTHROPIC_BASE_URL = true
    · rw [if_pos hb] at hkv
      rcases mem_setKV hkv with h | h
      · exact hl _ h
      · rw [h]; exact envTruthy_getD hb
    · rw [if_neg hb] at hkv
      exact hl _ hkv

/-- **C6 counterexample.** The claim states the bundle never contains an
empty-string value.  With the legacy gateway key set and a base URL
consisting only of a slash, the trailing-slash normalization produces an
empty string which is stored in the bundle under `AI_GATEWAY_BASE_URL` (and
`ANTHROPIC_BASE_URL`). -/
theorem claim_C6_counterexample :
    ("AI_GATEWAY_BASE_URL", "") ∈
      buildEnvVars
        { AI_GATEWAY_API_KEY := some "legacy-key",
          AI_GATEWAY_BASE_URL := some "/" } ∧
    ("ANTHROPIC_BASE_URL", "") ∈
      buildEnvVars
        { AI_GATEWAY_API_KEY := some "legacy-key",
          AI_GATEWAY_BASE_URL := some "/" } := by
  constructor <;> decide

/-- **C6 (amended).** Provided the legacy base URL, when the legacy branch is
active, does not normalize to the empty string (i.e. it contains a non-slash
character), every key in the bundle built by `buildEnvVars` carries a
non-empty value — unset or empty environment variables contribute no
empty-string placeholders. -/
theorem claim_C6_amended_no_empty_values (env : MoltbotEnv)
    (hs : envTruthy env.AI_GATEWAY_API_KEY = true →
      envTruthy env.AI_GATEWAY_BASE_URL = true →
      stripTrailingSlashes (env.AI_GATEWAY_BASE_URL.getD "") ≠ "") :
    ∀ kv ∈ buildEnvVars env, kv.2 ≠ "" := by
  unfold buildEnvVars
  repeat apply envStep_nonempty
  apply legacyBaseUrlStep_nonempty env hs
  repeat apply envStep_nonempty
  intro kv hkv
  simp at hkv

/-- Witness for the amended C6 at a concrete environment: no key of the
bundle carries the empty string. -/
theorem claim_C6_amended_no_empty_values_witness :
    ("ANTHROPIC_BASE_URL", "") ∉
      buildEnvVars
        { AI_GATEWAY_API_KEY := some "legacy-key",
          AI_GATEWAY_BASE_URL := some "https://gw.example/v1/",
          TELEGRAM_BOT_TOKEN := some "tg-token" } :=
  fun hmem =>
    claim_C6_amended_no_empty_values
      { AI_GATEWAY_API_KEY := some "legacy-key",
        AI_GATEWAY_BASE_URL := some "https://gw.example/v1/",
        TELEGRAM_BOT_TOKEN := some "tg-token" }
      (fun _ _ => by decide) _ hmem rfl

theorem getKV_envStep_ne {k k' : String} (x : Option String)
    (l : List (String × String)) (h : k ≠ k') :
    getKV (envStep k x l) k' = getKV l k' := by
  unfold envStep
  split
  · exact getKV_setKV_ne l _ h
  · rfl

/-- **C9.** When both legacy variables `AI_GATEWAY_API_KEY` and
`AI_GATEWAY_BASE_URL` are truthy, the bundle maps `ANTHROPIC_API_KEY` to the
gateway key (overriding a directly supplied one) and maps both
`AI_GATEWAY_BASE_URL` and `ANTHROPIC_BASE_URL` to the base URL with all
trailing slashes stripped; when the legacy pair is not (both) truthy, a
truthy `ANTHROPIC_BASE_URL` is passed through unchanged. -/
theorem claim_C9_legacy_gateway_override (env : MoltbotEnv) :
    (envTruthy env.AI_GATEWAY_API_KEY = true →
      envTruthy env.AI_GATEWAY_BASE_URL = true →
      getKV (buildEnvVars env) "ANTHROPIC_API_KEY" =
        some (env.AI_GATEWAY_API_KEY.getD "") ∧
      getKV (buildEnvVars env) "AI_GATEWAY_BASE_URL" =
        some (stripTrailingSlashes (env.AI_GATEWAY_BASE_URL.getD "")) ∧
      getKV (buildEnvVars env) "ANTHROPIC_BASE_URL" =
        some (stripTrailingSlashes (env.AI_GATEWAY_BASE_URL.getD ""))) ∧
    ((envTruthy env.AI_GATEWAY_API_KEY &&
        envTruthy env.AI_GATEWAY_BASE_URL) = false →
      envTruthy env.ANTHROPIC_BASE_URL = true →
      getKV (buildEnvVars env) "ANTHROPIC_BASE_URL" =
        some (env.ANTHROPIC_BASE_URL.getD "")) := by
  constructor
  · intro h1 h2
    have hc : (envTruthy env.AI_GATEWAY_API_KEY &&
        envTruthy env.AI_GATEWAY_BASE_URL) = true := by simp [h1, h2]
    refine ⟨?_, ?_, ?_⟩
    · unfold buildEnvVars
      repeat rw [getKV_envStep_ne _ _ (by decide)]
      simp only [legacyBaseUrlStep, hc, if_true]
      rw [getKV_setKV_self]
    · unfold buildEnvVars
      repeat rw [getKV_envStep_ne _ _ (by decide)]
      simp only [legacyBaseUrlStep, hc, if_true]
      rw [getKV_setKV_ne _ _ (by decide), getKV_setKV_ne _ _ (by decide),
        getKV_setKV_self]
    · unfold buildEnvVars
      repeat rw [getKV_envStep_ne _ _ (by decide)]
      simp only [legacyBaseUrlStep, hc, if_true]
      rw [getKV_setKV_ne _ _ (by decide), getKV_setKV_self]
  · intro hc hb
    unfold buildEnvVars
    repeat rw [getKV_envStep_ne _ _ (by decide)]
    simp only [legacyBaseUrlStep, hc, Bool.false_eq_true, if_false, hb, if_true]
    rw [getKV_setKV_self]

/-- Witness for C9 at concrete environments: the legacy pair overrides a
directly supplied Anthropic key and normalizes the base URL; without the
legacy pair a direct base URL passes through unchanged. -/
theorem claim_C9_legacy_gateway_override_witness :
    getKV (buildEnvVars
        { ANTHROPIC_API_KEY := some "direct-key",
          AI_GATEWAY_API_KEY := some "gw-key",
          AI_GATEWAY_BASE_URL := some "https://gw.example/v1//" })
      "ANTHROPIC_API_KEY" = some "gw-key" ∧
    getKV (buildEnvVars
        { ANTHROPIC_API_KEY := some "direct-key",
          AI_GATEWAY_API_KEY := some "gw-key",
          AI_GATEWAY_BASE_URL := some "https://gw.example/v1//" })
      "AI_GATEWAY_BASE_URL" = some "https://gw.example/v1" ∧
    getKV (buildEnvVars { ANTHROPIC_BASE_URL := some "https://direct.example/" })
      "ANTHROPIC_BASE_URL" = some "https://direct.example/" := by
  have h1 := (claim_C9_legacy_gateway_override
    { ANTHROPIC_API_KEY := some "direct-key",
      AI_GATEWAY_API_KEY := some "gw-key",
      AI_GATEWAY_BASE_URL := some "https://gw.example/v1//" }).1
    (by decide) (by decide)
  have h2 := (claim_C9_legacy_gateway_override
    { ANTHROPIC_BASE_URL := some "https://direct.example/" }).2
    (by decide) (by decide)
  refine ⟨h1.1.trans (by decide), h1.2.1.trans (by decide), h2.trans (by decide)⟩

theorem stringify_jnull : stringify jnull = jnull := by simp [stringify]

theorem stringify_jbool (b : Bool) : stringify (jbool b) = jbool b := by
  simp [stringify]

theorem stringify_jnum (n : Int) : stringify (jnum n) = jnum n := by
  simp [stringify]

theorem stringify_jstr (s : String) : stringify (jstr s) = jstr s := by
  simp [stringify]

theorem stringify_jarr (el : List MJson) (pr : List (String × MJson)) :
    stringify (jarr el pr) = jarr (el.map stringify) [] := by
  rw [stringify]
  congr 1
  exact List.attach_map_coe el stringify

theorem stringify_jobj (fs : List (String × MJson)) :
    stringify (jobj fs) =
      jobj (fs.map (fun kv => (kv.1, stringify kv.2))) := by
  rw [stringify]
  congr 1
  exact List.attach_map_coe fs (fun kv => (kv.1, stringify kv.2))

theorem stringify_stringify (d : MJson) :
    stringify (stringify d) = stringify d := by
  induction d using MJson.stringify.induct with
  | case1 => simp [stringify_jnull]
  | case2 => simp [stringify_jbool]
  | case3 => simp [stringify_jnum]
  | case4 => simp [stringify_jstr]
  | case5 el pr ih =>
    rw [stringify_jarr, stringify_jarr, List.map_map]
    congr 1
    refine List.map_congr_left ?_
    intro v hv
    exact ih ⟨v, hv⟩
  | case6 fs ih =>
    rw [stringify_jobj, stringify_jobj, List.map_map]
    congr 1
    refine List.map_congr_left ?_
    intro kv hkv
    simp only [Function.comp]
    exact congrArg _ (ih ⟨kv, hkv⟩)

theorem jset_jget_self {d : MJson} {k : String} {v : MJson}
    (h : d.jget k = some v) : d.jset k v = d := by
  cases d with
  | jobj fs => simp only [jget] at h; simp [jset, setKV_getKV_self _ _ _ h]
  | jarr el pr => simp only [jget] at h; simp [jset, setKV_getKV_self _ _ _ h]
  | jnull => rfl
  | jbool b => rfl
  | jnum n => rfl
  | jstr s => rfl

theorem jget_jset_same_jobj (fs : List (String × MJson)) (k : String) (v : MJson) :
    ((jobj fs).jset k v).jget k = some v := by
  simp [jset, jget, getKV_setKV_self]

theorem jget_jset_same_jarr (el : List MJson) (pr : List (String × MJson))
    (k : String) (v : MJson) :
    ((jarr el pr).jset k v).jget k = some v := by
  simp [jset, jget, getKV_setKV_self]

theorem jget_jset_ne (d : MJson) {k k' : String} (v : MJson) (h : k ≠ k') :
    (d.jset k v).jget k' = d.jget k' := by
  cases d <;> simp [jset, jget, getKV_setKV_ne _ _ h]

theorem jset_jset_same (d : MJson) (k : String) (v w : MJson) :
    ((d.jset k v).jset k w) = d.jset k w := by
  cases d <;> simp [jset, setKV_setKV_self]

theorem map_setKV {β : Type} (g : β → β) (l : List (String × β)) (k : String) (v : β) :
    (setKV l k v).map (fun kv => (kv.1, g kv.2)) =
      setKV (l.map (fun kv => (kv.1, g kv.2))) k (g v) := by
  induction l with
  | nil => simp [setKV]
  | cons hd tl ih =>
    obtain ⟨k₀, v₀⟩ := hd
    by_cases h : k₀ = k <;> simp [setKV, h, ih]

theorem stringify_jset_jobj (fs : List (String × MJson)) (k : String) (v : MJson) :
    stringify ((jobj fs).jset k v) =
      (stringify (jobj fs)).jset k (stringify v) := by
  simp [jset, stringify_jobj, map_setKV]

theorem stringify_jset_jarr (el : List MJson) (pr : List (String × MJson))
    (k : String) (v : MJson) :
    stringify ((jarr el pr).jset k v) = stringify (jarr el pr) := by
  simp [jset, stringify_jarr]

theorem getKV_map_fixed {β : Type} {g : β → β} {l : List (String × β)}
    (hf : l.map (fun kv => (kv.1, g kv.2)) = l) {k : String} {v : β}
    (h : getKV l k = some v) : g v = v := by
  induction l with
  | nil => simp [getKV] at h
  | cons hd tl ih =>
    obtain ⟨k₀, v₀⟩ := hd
    simp only [List.map_cons, List.cons.injEq, Prod.mk.injEq] at hf
    by_cases hk : k₀ = k
    · simp [getKV, hk] at h
      rw [← h]
      exact hf.1.2
    · simp [getKV, hk] at h
      exact ih hf.2 h

/-- A value read out of a stringify-fixed value is itself stringify-fixed. -/
theorem stringify_fixed_of_jget {d v : MJson} {k : String}
    (hd : stringify d = d) (h : d.jget k = some v) : stringify v = v := by
  cases d with
  | jobj fs =>
    rw [stringify_jobj] at hd
    simp only [jobj.injEq] at hd
    exact getKV_map_fixed hd (by simpa [jget] using h)
  | jarr el pr =>
    rw [stringify_jarr] at hd
    simp only [jarr.injEq] at hd
    simp only [jget, ← hd.2] at h
    simp [getKV] at h
  | jnull => simp [jget] at h
  | jbool b => simp [jget] at h
  | jnum n => simp [jget] at h
  | jstr s => simp [jget] at h

/-- A stringify-fixed array has no named props. -/
theorem props_eq_nil_of_fixed {el : List MJson} {pr : List (String × MJson)}
    (h : stringify (jarr el pr) = jarr el pr) : pr = [] := by
  rw [stringify_jarr] at h
  exact ((jarr.injEq _ _ _ _).mp h).2.symm

theorem truthy_stringify (v : MJson) : (stringify v).truthy = v.truthy := by
  cases v <;>
    simp [stringify_jnull, stringify_jbool, stringify_jnum, stringify_jstr,
      stringify_jarr, stringify_jobj, truthy]

theorem jset_of_isPrim {u : MJson} (h : u.isPrim = true) (k : String) (v : MJson) :
    u.jset k v = u := by
  cases u <;> simp [isPrim] at h <;> rfl

theorem jget_of_isPrim {u : MJson} (h : u.isPrim = true) (k : String) :
    u.jget k = none := by
  cases u <;> simp [isPrim] at h <;> rfl

theorem stringify_of_isPrim {u : MJson} (h : u.isPrim = true) :
    stringify u = u := by
  cases u <;> simp [isPrim] at h <;>
    simp [stringify_jbool, stringify_jnum, stringify_jstr]

theorem ne_jnull_of_isPrim {u : MJson} (h : u.isPrim = true) : u ≠ jnull := by
  cases u <;> simp [isPrim] at h <;> simp

theorem jset2_some {c t : MJson} {a : String} (h : c.jget a = some t)
    (hn : t ≠ jnull) (b : String) (v : MJson) :
    c.jset2 a b v = some (c.jset a (t.jset b v)) := by
  unfold jset2
  rw [h]
  cases t with
  | jnull => exact absurd rfl hn
  | jbool x => rfl
  | jnum x => rfl
  | jstr x => rfl
  | jarr el pr => rfl
  | jobj fs => rfl

theorem jsetDefault2_some {c t : MJson} {a : String} (h : c.jget a = some t)
    (hn : t ≠ jnull) (b : String) :
    c.jsetDefault2 a b = some (c.jset a (t.jset b (jsOr (t.jget b) (jobj [])))) := by
  unfold jsetDefault2
  rw [h]
  cases t with
  | jnull => exact absurd rfl hn
  | jbool x => rfl
  | jnum x => rfl
  | jstr x => rfl
  | jarr el pr => rfl
  | jobj fs => rfl

theorem jset3_some {c t u : MJson} {a b : String} (h : c.jget a = some t)
    (hn : t ≠ jnull) (h2 : t.jget b = some u) (hn2 : u ≠ jnull)
    (k : String) (v : MJson) :
    c.jset3 a b k v = some (c.jset a (t.jset b (u.jset k v))) := by
  unfold jset3
  rw [h]
  have hbody : (match t.jget b with
      | none => none
      | some jnull => none
      | some u => some (c.jset a (t.jset b (u.jset k v)))) =
      some (c.jset a (t.jset b (u.jset k v))) := by
    rw [h2]
    cases u with
    | jnull => exact absurd rfl hn2
    | jbool x => rfl
    | jnum x => rfl
    | jstr x => rfl
    | jarr el pr => rfl
    | jobj fs => rfl
  cases t with
  | jnull => exact absurd rfl hn
  | jbool x => exact hbody
  | jnum x => exact hbody
  | jstr x => exact hbody
  | jarr el pr => exact hbody
  | jobj fs => exact hbody

theorem jset2_eq_some {c c' : MJson} {a b : String} {v : MJson}
    (h : c.jset2 a b v = some c') :
    ∃ t, c.jget a = some t ∧ t ≠ jnull ∧ c' = c.jset a (t.jset b v) := by
  unfold jset2 at h
  cases hg : c.jget a with
  | none => rw [hg] at h; cases h
  | some t =>
    rw [hg] at h
    cases t with
    | jnull => cases h
    | jbool x => exact ⟨_, rfl, by simp, (Option.some.injEq _ _ ▸ h).symm⟩
    | jnum x => exact ⟨_, rfl, by simp, (Option.some.injEq _ _ ▸ h).symm⟩
    | jstr x => exact ⟨_, rfl, by simp, (Option.some.injEq _ _ ▸ h).symm⟩
    | jarr el pr => exact ⟨_, rfl, by simp, (Option.some.injEq _ _ ▸ h).symm⟩
    | jobj fs => exact ⟨_, rfl, by simp, (Option.some.injEq _ _ ▸ h).symm⟩

theorem jsetDefault2_eq_some {c c' : MJson} {a b : String}
    (h : c.jsetDefault2 a b = some c') :
    ∃ t, c.jget a = some t ∧ t ≠ jnull ∧
      c' = c.jset a (t.jset b (jsOr (t.jget b) (jobj []))) := by
  unfold jsetDefault2 at h
  cases hg : c.jget a with
  | none => rw [hg] at h; cases h
  | some t =>
    rw [hg] at h
    cases t with
    | jnull => cases h
    | jbool x => exact ⟨_, rfl, by simp, (Option.some.injEq _ _ ▸ h).symm⟩
    | jnum x => exact ⟨_, rfl, by simp, (Option.some.injEq _ _ ▸ h).symm⟩
    | jstr x => exact ⟨_, rfl, by simp, (Option.some.injEq _ _ ▸ h).symm⟩
    | jarr el pr => exact ⟨_, rfl, by simp, (Option.some.injEq _ _ ▸ h).symm⟩
    | jobj fs => exact ⟨_, rfl, by simp, (Option.some.injEq _ _ ▸ h).symm⟩

theorem jset3_eq_some {c c' : MJson} {a b k : String} {v : MJson}
    (h : c.jset3 a b k v = some c') :
    ∃ t u, c.jget a = some t ∧ t ≠ jnull ∧ t.jget b = some u ∧ u ≠ jnull ∧
      c' = c.jset a (t.jset b (u.jset k v)) := by
  unfold jset3 at h
  cases hg : c.jget a with
  | none => rw [hg] at h; cases h
  | some t =>
    rw [hg] at h
    have hinner : (match t.jget b with
        | none => none
        | some jnull => none
        | some u => some (c.jset a (t.jset b (u.jset k v)))) = some c' →
        ∃ u, t.jget b = some u ∧ u ≠ jnull ∧
          c' = c.jset a (t.jset b (u.jset k v)) := by
      intro hh
      cases hg2 : t.jget b with
      | none => rw [hg2] at hh; cases hh
      | some u =>
        rw [hg2] at hh
        cases u with
        | jnull => cases hh
        | jbool x => exact ⟨_, rfl, by simp, (Option.some.injEq _ _ ▸ hh).symm⟩
        | jnum x => exact ⟨_, rfl, by simp, (Option.some.injEq _ _ ▸ hh).symm⟩
        | jstr x => exact ⟨_, rfl, by simp, (Option.some.injEq _ _ ▸ hh).symm⟩
        | jarr el pr => exact ⟨_, rfl, by simp, (Option.some.injEq _ _ ▸ hh).symm⟩
        | jobj fs => exact ⟨_, rfl, by simp, (Option.some.injEq _ _ ▸ hh).symm⟩
    cases t with
    | jnull => cases h
    | jbool x =>
      obtain ⟨u, h1, h2, h3⟩ := hinner h
      exact ⟨_, u, rfl, by simp, h1, h2, h3⟩
    | jnum x =>
      obtain ⟨u, h1, h2, h3⟩ := hinner h
      exact ⟨_, u, rfl, by simp, h1, h2, h3⟩
    | jstr x =>
      obtain ⟨u, h1, h2, h3⟩ := hinner h
      exact ⟨_, u, rfl, by simp, h1, h2, h3⟩
    | jarr el pr =>
      obtain ⟨u, h1, h2, h3⟩ := hinner h
      exact ⟨_, u, rfl, by simp, h1, h2, h3⟩
    | jobj fs =>
      obtain ⟨u, h1, h2, h3⟩ := hinner h
      exact ⟨_, u, rfl, by simp, h1, h2, h3⟩

theorem stringify_authValue (e : PatchEnv) :
    stringify (authValue e) = authValue e := by
  simp [authValue, stringify_jobj, stringify_jstr]

theorem stringify_providerValue (e : PatchEnv) :
    stringify (providerValue e) = providerValue e := by
  simp [providerValue, providerBlock, stringify_jobj, stringify_jstr,
    stringify_jarr, stringify_jnum]

theorem stringify_modelValue (e : PatchEnv) :
    stringify (modelValue e) = modelValue e := by
  simp [modelValue, stringify_jobj, stringify_jstr]

theorem stringify_telegramBase (e : PatchEnv) :
    stringify (telegramBase e) = telegramBase e := by
  simp [telegramBase, stringify_jobj, stringify_jstr, stringify_jbool]

theorem stringify_telegramValue (e : PatchEnv) :
    stringify (telegramValue e) = telegramValue e := by
  unfold telegramValue
  cases telegramAllowFrom e with
  | none => exact stringify_telegramBase e
  | some ids =>
    simp [telegramBase, jset, setKV, stringify_jobj, stringify_jstr,
      stringify_jbool, stringify_jarr, List.map_map, Function.comp]

theorem stringify_discordValue (e : PatchEnv) :
    stringify (discordValue e) = discordValue e := by
  unfold discordValue
  by_cases h : envOr e.DISCORD_DM_POLICY "pairing" = "open" <;>
    simp [h, stringify_jobj, stringify_jstr, stringify_jbool, stringify_jarr]

theorem stringify_slackValue (e : PatchEnv) :
    stringify (slackValue e) = slackValue e := by
  simp [slackValue, stringify_jobj, stringify_jstr, stringify_jbool]

/-- Writing a value into an object state whose stringify is the patched
document `d` keeps its stringify equal to `d`, as long as the written value
stringifies to what `d` already holds at that key. -/
theorem stringify_jset_to_fixed {r : MJson} {fsr : List (String × MJson)}
    (hr : r = jobj fsr) {d X X₀ : MJson} {k : String}
    (hsr : stringify r = d) (h0 : d.jget k = some X₀) (hX : stringify X = X₀) :
    stringify (r.jset k X) = d := by
  subst hr
  rw [stringify_jset_jobj, hsr, hX]
  exact jset_jget_self h0

theorem truthy_ne_jnull {v : MJson} (h : v.truthy = true) : v ≠ jnull := by
  cases v <;> simp [truthy] at h ⊢

theorem jsOr_truthy {v : MJson} (h : v.truthy = true) (w : MJson) :
    jsOr (some v) w = v := by
  simp [jsOr, h]

theorem jsOr_none (w : MJson) : jsOr none w = w := rfl

theorem agentsOps_patched (e : PatchEnv) {d : MJson} {fs : List (String × MJson)}
    (hd : d = jobj fs) (hfix : stringify d = d) (ha : PAgents e d) :
    ∃ s av, agentsOps d = some s ∧ stringify s = d ∧
      (∃ fs₁, s = jobj fs₁) ∧
      (∀ k, k ≠ "agents" → s.jget k = d.jget k) ∧
      s.jget "agents" = some av ∧ AgSt e d av := by
  obtain ⟨av₀, hav, hcase⟩ := ha
  have hav₀fix : stringify av₀ = av₀ := stringify_fixed_of_jget hfix hav
  rcases hcase with ⟨el, rfl⟩ | ⟨⟨afs, havobj⟩, df, hdf, hdfcase⟩
  · -- agents is a clean array: the two ops attach hidden props only
    have helclean : el.map stringify = el := by
      rw [stringify_jarr] at hav₀fix
      exact ((jarr.injEq _ _ _ _).mp hav₀fix).1
    have h1 := jsetDefault2_some hav (by simp) "defaults"
    have hX : (jarr el []).jset "defaults"
        (jsOr ((jarr el []).jget "defaults") (jobj [])) =
        jarr el [("defaults", jobj [])] := rfl
    rw [hX] at h1
    refine ⟨d.jset "agents"
      (jarr el [("defaults", jobj [("workspace", jstr "/root/clawd")])]),
      jarr el [("defaults", jobj [("workspace", jstr "/root/clawd")])],
      ?_, ?_, ?_, ?_, ?_, ?_⟩
    · show agentsOps d = _
      rw [agentsOps, h1]
      show (d.jset "agents" (jarr el [("defaults", jobj [])])).jset3
          "agents" "defaults" "workspace" (jstr "/root/clawd") = _
      have hg1 : (d.jset "agents" (jarr el [("defaults", jobj [])])).jget
          "agents" = some (jarr el [("defaults", jobj [])]) := by
        subst hd; exact jget_jset_same_jobj _ _ _
      rw [jset3_some hg1 (by simp) (show (jarr el [("defaults", jobj [])]).jget
        "defaults" = some (jobj []) from rfl) (by simp) "workspace"
        (jstr "/root/clawd")]
      subst hd
      show some ((jobj _).jset _ _) = some ((jobj _).jset _ _)
      simp only [jset, Option.some.injEq, jobj.injEq, setKV_setKV_self]
      rfl
    · refine stringify_jset_to_fixed hd hfix hav ?_
      rw [stringify_jarr]
      simp [helclean]
    · subst hd; exact ⟨_, rfl⟩
    · intro k hk; subst hd; exact jget_jset_ne _ _ (fun h => hk h.symm)
    · subst hd; exact jget_jset_same_jobj _ _ _
    · -- AgSt
      refine ⟨rfl, jobj [("workspace", jstr "/root/clawd")], rfl, by simp,
        rfl, ?_⟩
      intro _hma r fsr hr hrag hrs
      right
      refine stringify_jset_to_fixed hr hrs hav ?_
      show stringify (jarr el _) = _
      rw [stringify_jarr]
      simp [helclean]
  · -- agents is an object
    have havt : av₀.truthy = true := by rw [havobj]; rfl
    have hdffix : stringify df = df := stringify_fixed_of_jget hav₀fix hdf
    rcases hdfcase with ⟨hdfp, hdft⟩ | ⟨el, rfl⟩ | ⟨⟨dfs, hdfobj⟩, hws, hmodel⟩
    · -- defaults is a truthy primitive: both ops are identities
      have h1 := jsetDefault2_some hav (truthy_ne_jnull havt) "defaults"
      rw [hdf, jsOr_truthy hdft, jset_jget_self hdf, jset_jget_self hav] at h1
      have h2 := jset3_some hav (truthy_ne_jnull havt) hdf
        (truthy_ne_jnull hdft) "workspace" (jstr "/root/clawd")
      rw [jset_of_isPrim hdfp, jset_jget_self hdf, jset_jget_self hav] at h2
      refine ⟨d, av₀, ?_, hfix, ⟨fs, hd⟩, fun k _ => rfl, hav, havt,
        df, hdf, truthy_ne_jnull hdft, hdft, ?_⟩
      · rw [agentsOps, h1]
        show d.jset3 "agents" "defaults" "workspace" (jstr "/root/clawd") = _
        rw [h2]
      · intro _hma r fsr hr hrag hrs
        left
        rw [jset_of_isPrim hdfp, jset_jget_self hdf, jset_jget_self hrag]
    · -- defaults is a clean array: workspace becomes a hidden prop
      have helclean : el.map stringify = el := by
        rw [stringify_jarr] at hdffix
        exact ((jarr.injEq _ _ _ _).mp hdffix).1
      have h1 := jsetDefault2_some hav (truthy_ne_jnull havt) "defaults"
      rw [hdf, jsOr_truthy (show (jarr el []).truthy = true from rfl),
        jset_jget_self hdf, jset_jget_self hav] at h1
      have h2 := jset3_some hav (truthy_ne_jnull havt) hdf (by simp)
        "workspace" (jstr "/root/clawd")
      have hXdf : (jarr el []).jset "workspace" (jstr "/root/clawd") =
          jarr el [("workspace", jstr "/root/clawd")] := rfl
      rw [hXdf] at h2
      have hAVfix : ∀ P : List (String × MJson),
          stringify (av₀.jset "defaults" (jarr el P)) = av₀ := by
        intro P
        rw [havobj, stringify_jset_jobj, ← havobj, hav₀fix, stringify_jarr]
        simp only [helclean]
        exact jset_jget_self (havobj ▸ hdf)
      refine ⟨d.jset "agents"
        (av₀.jset "defaults" (jarr el [("workspace", jstr "/root/clawd")])),
        av₀.jset "defaults" (jarr el [("workspace", jstr "/root/clawd")]),
        ?_, ?_, ?_, ?_, ?_, ?_⟩
      · rw [agentsOps, h1]
        show d.jset3 "agents" "defaults" "workspace" (jstr "/root/clawd") = _
        rw [h2]
      · exact stringify_jset_to_fixed hd hfix hav (hAVfix _)
      · subst hd; exact ⟨_, rfl⟩
      · intro k hk; subst hd; exact jget_jset_ne _ _ (fun h => hk h.symm)
      · subst hd; exact jget_jset_same_jobj _ _ _
      · -- AgSt with the hidden-propped defaults array
        refine ⟨by rw [havobj]; rfl,
          jarr el [("workspace", jstr "/root/clawd")], ?_, by simp, rfl, ?_⟩
        · rw [havobj]; exact jget_jset_same_jobj _ _ _
        · intro _hma r fsr hr hrag hrs
          right
          have hcollapse : (av₀.jset "defaults"
              (jarr el [("workspace", jstr "/root/clawd")])).jset "defaults"
              ((jarr el [("workspace", jstr "/root/clawd")]).jset "model"
                (modelValue e)) =
              av₀.jset "defaults"
                ((jarr el [("workspace", jstr "/root/clawd")]).jset "model"
                  (modelValue e)) := jset_jset_same _ _ _ _
          rw [hcollapse]
          refine stringify_jset_to_fixed hr hrs hav ?_
          show stringify (av₀.jset "defaults" (jarr el _)) = _
          exact hAVfix _
    · -- defaults is an object carrying the workspace (and model) fields
      have h1 := jsetDefault2_some hav (truthy_ne_jnull havt) "defaults"
      rw [hdf, jsOr_truthy (show df.truthy = true by rw [hdfobj]; rfl),
        jset_jget_self hdf, jset_jget_self hav] at h1
      have h2 := jset3_some hav (truthy_ne_jnull havt) hdf
        (by rw [hdfobj]; simp) "workspace" (jstr "/root/clawd")
      rw [jset_jget_self hws, jset_jget_self hdf, jset_jget_self hav] at h2
      refine ⟨d, av₀, ?_, hfix, ⟨fs, hd⟩, fun k _ => rfl, hav, havt,
        df, hdf, by rw [hdfobj]; simp, by rw [hdfobj]; rfl, ?_⟩
      · rw [agentsOps, h1]
        show d.jset3 "agents" "defaults" "workspace" (jstr "/root/clawd") = _
        rw [h2]
      · intro hma r fsr hr hrag hrs
        left
        rw [jset_jget_self (hmodel hma), jset_jget_self hdf,
          jset_jget_self hrag]

theorem gwOps_patched (e : PatchEnv) {d s₁ : MJson}
    {fs₁ : List (String × MJson)} (hs₁ : s₁ = jobj fs₁)
    {fs : List (String × MJson)} (_hd : d = jobj fs)
    (hstr : stringify s₁ = d) (hfix : stringify d = d)
    (hframe : s₁.jget "gateway" = d.jget "gateway") (hg : PGate e d) :
    ∃ s₂, gwOps e s₁ = some s₂ ∧ stringify s₂ = d ∧
      (∃ fs₂, s₂ = jobj fs₂) ∧
      (∀ k, k ≠ "gateway" → s₂.jget k = s₁.jget k) := by
  obtain ⟨gv, hgvd, hgcase⟩ := hg
  have hgv : s₁.jget "gateway" = some gv := hframe.trans hgvd
  have hgvfix : stringify gv = gv := stringify_fixed_of_jget hfix hgvd
  rcases hgcase with ⟨el, rfl⟩ | ⟨⟨gfs, hgobj⟩, hport, hmode, htp, hauth, cu,
    hcu, hcucase⟩
  · -- gateway is a clean array: the seven ops attach hidden props only
    have helclean : el.map stringify = el := by
      rw [stringify_jarr] at hgvfix
      exact ((jarr.injEq _ _ _ _).mp hgvfix).1
    have hW : ∀ P : List (String × MJson),
        stringify (s₁.jset "gateway" (jarr el P)) = d := by
      intro P
      refine stringify_jset_to_fixed hs₁ hstr hgvd ?_
      rw [stringify_jarr]
      simp [helclean]
    have hget : ∀ X : MJson,
        (s₁.jset "gateway" X).jget "gateway" = some X := by
      intro X
      subst hs₁
      exact jget_jset_same_jobj _ _ _
    have hcollapse : ∀ X Y : MJson,
        (s₁.jset "gateway" X).jset "gateway" Y = s₁.jset "gateway" Y :=
      fun X Y => jset_jset_same _ _ _ _
    refine ⟨s₁.jset "gateway" (jarr el
      [("port", jnum 18789), ("mode", jstr "local"),
       ("trustedProxies", jarr [jstr "10.1.0.0"] []), ("auth", authValue e),
       ("controlUi", jobj [("allowInsecureAuth", jbool true),
         ("dangerouslyDisableDeviceAuth", jbool true)])]), ?_, hW _, ?_, ?_⟩
    · rw [gwOps, jset2_some hgv (by simp) "port" (jnum 18789)]
      show ((s₁.jset "gateway" _).jset2 "gateway" "mode" (jstr "local")) >>=
        _ = _
      rw [jset2_some (hget _) (by simp [jset]) "mode" (jstr "local"),
        hcollapse]
      show ((s₁.jset "gateway" _).jset2 "gateway" "trustedProxies" _) >>= _ = _
      rw [jset2_some (hget _) (by simp [jset]) "trustedProxies"
        (jarr [jstr "10.1.0.0"] []), hcollapse]
      show ((s₁.jset "gateway" _).jset2 "gateway" "auth" _) >>= _ = _
      rw [jset2_some (hget _) (by simp [jset]) "auth" (authValue e),
        hcollapse]
      show ((s₁.jset "gateway" _).jsetDefault2 "gateway" "controlUi") >>= _ = _
      rw [jsetDefault2_some (hget _) (by simp [jset]) "controlUi", hcollapse]
      show ((s₁.jset "gateway" _).jset3 "gateway" "controlUi"
        "allowInsecureAuth" _) >>= _ = _
      rw [jset3_some (hget _) (by simp [jset]) (by rfl)
        (by simp [jset, jget, jsOr, getKV, setKV])
        "allowInsecureAuth" (jbool true), hcollapse]
      show ((s₁.jset "gateway" _).jset3 "gateway" "controlUi"
        "dangerouslyDisableDeviceAuth" _) = _
      rw [jset3_some (hget _) (by simp [jset]) (by rfl)
        (by simp [jset, jget, jsOr, getKV, setKV])
        "dangerouslyDisableDeviceAuth" (jbool true), hcollapse]
      rfl
    · subst hs₁; exact ⟨_, rfl⟩
    · intro k hk; subst hs₁; exact jget_jset_ne _ _ (fun h => hk h.symm)
  · -- gateway is an object with the patched fields
    have hcufix : stringify cu = cu := stringify_fixed_of_jget hgvfix hcu
    have hgvt : gv ≠ jnull := by rw [hgobj]; simp
    have h1 := jset2_some hgv hgvt "port" (jnum 18789)
    rw [jset_jget_self hport, jset_jget_self hgv] at h1
    have h2 := jset2_some hgv hgvt "mode" (jstr "local")
    rw [jset_jget_self hmode, jset_jget_self hgv] at h2
    have h3 := jset2_some hgv hgvt "trustedProxies" (jarr [jstr "10.1.0.0"] [])
    rw [jset_jget_self htp, jset_jget_self hgv] at h3
    have h4 := jset2_some hgv hgvt "auth" (authValue e)
    rw [jset_jget_self hauth, jset_jget_self hgv] at h4
    have hcut : cu.truthy = true := by
      rcases hcucase with ⟨_, ht⟩ | ⟨elc, rfl⟩ | ⟨⟨cfs, hcuobj⟩, _, _⟩
      · exact ht
      · rfl
      · rw [hcuobj]; rfl
    have h5 := jsetDefault2_some hgv hgvt "controlUi"
    rw [hcu, jsOr_truthy hcut, jset_jget_self hcu, jset_jget_self hgv] at h5
    rcases hcucase with ⟨hcup, _⟩ | ⟨elc, rfl⟩ | ⟨⟨cfs, hcuobj⟩, hcu1, hcu2⟩
    · -- controlUi is a truthy primitive: writes ignored
      have h6 := jset3_some hgv hgvt hcu (truthy_ne_jnull hcut)
        "allowInsecureAuth" (jbool true)
      rw [jset_of_isPrim hcup, jset_jget_self hcu, jset_jget_self hgv] at h6
      have h7 := jset3_some hgv hgvt hcu (truthy_ne_jnull hcut)
        "dangerouslyDisableDeviceAuth" (jbool true)
      rw [jset_of_isPrim hcup, jset_jget_self hcu, jset_jget_self hgv] at h7
      refine ⟨s₁, ?_, hstr, ⟨fs₁, hs₁⟩, fun k _ => rfl⟩
      rw [gwOps, h1]
      show (s₁.jset2 "gateway" "mode" (jstr "local")) >>= _ = _
      rw [h2]
      show (s₁.jset2 "gateway" "trustedProxies" _) >>= _ = _
      rw [h3]
      show (s₁.jset2 "gateway" "auth" _) >>= _ = _
      rw [h4]
      show (s₁.jsetDefault2 "gateway" "controlUi") >>= _ = _
      rw [h5]
      show (s₁.jset3 "gateway" "controlUi" "allowInsecureAuth" _) >>= _ = _
      rw [h6]
      show s₁.jset3 "gateway" "controlUi" "dangerouslyDisableDeviceAuth" _ = _
      rw [h7]
    · -- controlUi is a clean array: hidden props only
      have helclean : elc.map stringify = elc := by
        rw [stringify_jarr] at hcufix
        exact ((jarr.injEq _ _ _ _).mp hcufix).1
      have h6 := jset3_some hgv hgvt hcu (by simp) "allowInsecureAuth"
        (jbool true)
      have hgv' : (s₁.jset "gateway" (gv.jset "controlUi"
          (jarr elc [("allowInsecureAuth", jbool true)]))).jget "gateway" =
          some (gv.jset "controlUi" (jarr elc [("allowInsecureAuth", jbool true)])) := by
        subst hs₁; exact jget_jset_same_jobj _ _ _
      have hcuget : (gv.jset "controlUi"
          (jarr elc [("allowInsecureAuth", jbool true)])).jget "controlUi" =
          some (jarr elc [("allowInsecureAuth", jbool true)]) := by
        rw [hgobj]; exact jget_jset_same_jobj _ _ _
      have h7 := jset3_some hgv' (by
          rw [hgobj]; simp [jset]) hcuget (by simp)
        "dangerouslyDisableDeviceAuth" (jbool true)
      have hcuW : ∀ P : List (String × MJson),
          stringify (s₁.jset "gateway" (gv.jset "controlUi" (jarr elc P))) =
            d := by
        intro P
        refine stringify_jset_to_fixed hs₁ hstr hgvd ?_
        rw [hgobj, stringify_jset_jobj, ← hgobj, hgvfix, stringify_jarr]
        simp only [helclean]
        exact jset_jget_self (hgobj ▸ hcu)
      refine ⟨s₁.jset "gateway" (gv.jset "controlUi"
        (jarr elc [("allowInsecureAuth", jbool true),
          ("dangerouslyDisableDeviceAuth", jbool true)])), ?_, hcuW _, ?_, ?_⟩
      · rw [gwOps, h1]
        show (s₁.jset2 "gateway" "mode" (jstr "local")) >>= _ = _
        rw [h2]
        show (s₁.jset2 "gateway" "trustedProxies" _) >>= _ = _
        rw [h3]
        show (s₁.jset2 "gateway" "auth" _) >>= _ = _
        rw [h4]
        show (s₁.jsetDefault2 "gateway" "controlUi") >>= _ = _
        rw [h5]
        show (s₁.jset3 "gateway" "controlUi" "allowInsecureAuth" _) >>= _ = _
        rw [h6]
        show ((s₁.jset "gateway" (gv.jset "controlUi"
          ((jarr elc []).jset "allowInsecureAuth" (jbool true)))).jset3
          "gateway" "controlUi" "dangerouslyDisableDeviceAuth" (jbool true)) = _
        rw [show (jarr elc []).jset "allowInsecureAuth" (jbool true) =
          jarr elc [("allowInsecureAuth", jbool true)] from rfl, h7,
          jset_jset_same]
        rw [show (jarr elc [("allowInsecureAuth", jbool true)]).jset
          "dangerouslyDisableDeviceAuth" (jbool true) =
          jarr elc [("allowInsecureAuth", jbool true),
            ("dangerouslyDisableDeviceAuth", jbool true)] from rfl]
        rw [show ∀ Y, (gv.jset "controlUi" (jarr elc
            [("allowInsecureAuth", jbool true)])).jset "controlUi" Y =
            gv.jset "controlUi" Y from fun Y => jset_jset_same _ _ _ _]
      · subst hs₁; exact ⟨_, rfl⟩
      · intro k hk; subst hs₁; exact jget_jset_ne _ _ (fun h => hk h.symm)
    · -- controlUi is an object with both flags set: identities
      have h6 := jset3_some hgv hgvt hcu (by rw [hcuobj]; simp)
        "allowInsecureAuth" (jbool true)
      rw [jset_jget_self hcu1, jset_jget_self hcu, jset_jget_self hgv] at h6
      have h7 := jset3_some hgv hgvt hcu (by rw [hcuobj]; simp)
        "dangerouslyDisableDeviceAuth" (jbool true)
      rw [jset_jget_self hcu2, jset_jget_self hcu, jset_jget_self hgv] at h7
      refine ⟨s₁, ?_, hstr, ⟨fs₁, hs₁⟩, fun k _ => rfl⟩
      rw [gwOps, h1]
      show (s₁.jset2 "gateway" "mode" (jstr "local")) >>= _ = _
      rw [h2]
      show (s₁.jset2 "gateway" "trustedProxies" _) >>= _ = _
      rw [h3]
      show (s₁.jset2 "gateway" "auth" _) >>= _ = _
      rw [h4]
      show (s₁.jsetDefault2 "gateway" "controlUi") >>= _ = _
      rw [h5]
      show (s₁.jset3 "gateway" "controlUi" "allowInsecureAuth" _) >>= _ = _
      rw [h6]
      show s₁.jset3 "gateway" "controlUi" "dangerouslyDisableDeviceAuth" _ = _
      rw [h7]

theorem baseSteps_patched (e : PatchEnv) {d : MJson}
    {fs : List (String × MJson)} (hd : d = jobj fs)
    (hfix : stringify d = d) (hg : PGate e d) (ha : PAgents e d)
    (hc : PChannels e d) :
    ∃ s₂ av, baseSteps e d = some s₂ ∧ stringify s₂ = d ∧
      (∃ fs₂, s₂ = jobj fs₂) ∧
      (∀ k, k ≠ "agents" → k ≠ "gateway" → s₂.jget k = d.jget k) ∧
      s₂.jget "agents" = some av ∧ AgSt e d av := by
  obtain ⟨gv, hgv, hgcase⟩ := hg
  have hgt : gv.truthy = true := by
    rcases hgcase with ⟨el, rfl⟩ | ⟨⟨gfs, hgo⟩, _⟩
    · rfl
    · rw [hgo]; rfl
  obtain ⟨cv, hcv, hccase⟩ := hc
  have hct : cv.truthy = true := by
    rcases hccase with ⟨_, ht, _⟩ | ⟨el, rfl⟩ | ⟨⟨cfs, hco⟩, _⟩
    · exact ht
    · rfl
    · rw [hco]; rfl
  obtain ⟨av₀, hav, hacase⟩ := ha
  have hat : av₀.truthy = true := by
    rcases hacase with ⟨el, rfl⟩ | ⟨⟨afs, hao⟩, _⟩
    · rfl
    · rw [hao]; rfl
  have h1 : d.jset "gateway" (jsOr (d.jget "gateway") (jobj [])) = d := by
    rw [hgv, jsOr_truthy hgt]; exact jset_jget_self hgv
  have h2 : d.jset "channels" (jsOr (d.jget "channels") (jobj [])) = d := by
    rw [hcv, jsOr_truthy hct]; exact jset_jget_self hcv
  have h3 : d.jset "agents" (jsOr (d.jget "agents") (jobj [])) = d := by
    rw [hav, jsOr_truthy hat]; exact jset_jget_self hav
  obtain ⟨s₁, av, hops, hstr₁, ⟨fs₁, hs₁obj⟩, hframe₁, hagv, hagst⟩ :=
    agentsOps_patched e hd hfix ⟨av₀, hav, hacase⟩
  obtain ⟨s₂, hops₂, hstr₂, hobj₂, hframe₂⟩ :=
    gwOps_patched e hs₁obj hd hstr₁ hfix (hframe₁ _ (by decide))
      ⟨gv, hgv, hgcase⟩
  refine ⟨s₂, av, ?_, hstr₂, hobj₂, ?_, ?_, hagst⟩
  · show baseSteps e d = some s₂
    rw [baseSteps]
    rw [h1, h2, h3, hops]
    show gwOps e s₁ = some s₂
    exact hops₂
  · intro k hk1 hk2
    exact (hframe₂ k hk2).trans (hframe₁ k hk1)
  · exact (hframe₂ "agents" (by decide)).trans hagv

theorem jset_jsOr_self {c v : MJson} {k : String} (h : c.jget k = some v)
    (ht : v.truthy = true) :
    c.jset k (jsOr (c.jget k) (jobj [])) = c := by
  rw [h, jsOr_truthy ht]
  exact jset_jget_self h

theorem modelOverrideStep_patched (e : PatchEnv) {d s : MJson}
    {fss : List (String × MJson)} (hs : s = jobj fss)
    {fs : List (String × MJson)} (_hd : d = jobj fs)
    (hstr : stringify s = d) (hfix : stringify d = d)
    (hframeM : s.jget "models" = d.jget "models")
    (hframeC : s.jget "channels" = d.jget "channels")
    {av : MJson} (hagv : s.jget "agents" = some av) (hagst : AgSt e d av)
    (hm : PModels e d) :
    ∃ s', modelOverrideStep e s = some s' ∧ stringify s' = d ∧
      (∃ fs', s' = jobj fs') ∧ s'.jget "channels" = d.jget "channels" := by
  by_cases h1 : envTruthy e.CF_AI_GATEWAY_MODEL = true
  case neg =>
    refine ⟨s, ?_, hstr, ⟨fss, hs⟩, hframeC⟩
    simp [modelOverrideStep, h1]
  case pos =>
  cases hbu : modelOverrideBaseUrl e (gwProviderOf (modelRaw e)) with
  | none =>
    refine ⟨s, ?_, hstr, ⟨fss, hs⟩, hframeC⟩
    simp [modelOverrideStep, h1, hbu]
  | some bu =>
  by_cases h3 : envTruthy e.CLOUDFLARE_AI_GATEWAY_API_KEY = true
  case neg =>
    refine ⟨s, ?_, hstr, ⟨fss, hs⟩, hframeC⟩
    have h3f : envTruthy e.CLOUDFLARE_AI_GATEWAY_API_KEY = false := by
      simpa using h3
    simp [modelOverrideStep, h1, hbu, h3f]
  case pos =>
  have hma : ModelActive e := ⟨h1, by rw [hbu]; rfl, h3⟩
  have hPB : providerBlock bu (e.CLOUDFLARE_AI_GATEWAY_API_KEY.getD "")
      (apiOf e) (modelIdOf (modelRaw e)) = providerValue e := by
    rw [providerValue, hbu]
    rfl
  obtain ⟨mv, hmv, hmcase⟩ := hm hma
  have hsmv : s.jget "models" = some mv := hframeM.trans hmv
  have hmvfix : stringify mv = mv := stringify_fixed_of_jget hfix hmv
  have hmvt : mv.truthy = true := by
    rcases hmcase with ⟨el, rfl⟩ | ⟨⟨mfs, hmo⟩, _⟩
    · rfl
    · rw [hmo]; rfl
  have hop0 : s.jset "models" (jsOr (s.jget "models") (jobj [])) = s :=
    jset_jsOr_self hsmv hmvt
  -- first, the models half
  have hmodels : ∃ s₂, modelModelsOps e bu s = some s₂ ∧ stringify s₂ = d ∧
      (∃ fs₂, s₂ = jobj fs₂) ∧
      s₂.jget "channels" = s.jget "channels" ∧
      s₂.jget "agents" = s.jget "agents" := by
    rcases hmcase with ⟨elm, rfl⟩ | ⟨⟨mfs, hmo⟩, pv, hpv, hpcase⟩
    · -- models is a clean array
      have helclean : elm.map stringify = elm := by
        rw [stringify_jarr] at hmvfix
        exact ((jarr.injEq _ _ _ _).mp hmvfix).1
      have hW : ∀ P : List (String × MJson),
          stringify (s.jset "models" (jarr elm P)) = d := by
        intro P
        refine stringify_jset_to_fixed hs hstr hmv ?_
        rw [stringify_jarr]
        simp [helclean]
      have hgets : ∀ X : MJson,
          (s.jset "models" X).jget "models" = some X := by
        intro X; subst hs; exact jget_jset_same_jobj _ _ _
      refine ⟨s.jset "models" (jarr elm [("providers",
        jobj [(providerNameOf e, providerValue e)])]), ?_, hW _, ?_, ?_, ?_⟩
      · rw [modelModelsOps, hop0,
          jsetDefault2_some hsmv (by simp) "providers"]
        show ((s.jset "models" _).jset3 "models" "providers" _ _) = _
        rw [jset3_some (hgets _) (by simp [jset]) (by rfl)
          (by simp [jsOr, jget, getKV])
          (providerNameOf e) (providerBlock bu
            (e.CLOUDFLARE_AI_GATEWAY_API_KEY.getD "") (apiOf e)
            (modelIdOf (modelRaw e))), jset_jset_same, hPB]
        rfl
      · subst hs; exact ⟨_, rfl⟩
      · subst hs; exact jget_jset_ne _ _ (by decide)
      · subst hs; exact jget_jset_ne _ _ (by decide)
    · -- models is an object
      have hpvfix : stringify pv = pv := stringify_fixed_of_jget hmvfix hpv
      have hpvt : pv.truthy = true := by
        rcases hpcase with ⟨_, ht⟩ | ⟨el, rfl⟩ | ⟨⟨pfs, hpo⟩, _⟩
        · exact ht
        · rfl
        · rw [hpo]; rfl
      have hop1 := jsetDefault2_some hsmv (truthy_ne_jnull hmvt) "providers"
      rw [hpv, jsOr_truthy hpvt, jset_jget_self hpv, jset_jget_self hsmv]
        at hop1
      rcases hpcase with ⟨hpp, _⟩ | ⟨elp, rfl⟩ | ⟨⟨pfs, hpo⟩, hpn⟩
      · -- providers is a truthy primitive: write ignored
        have hop2 := jset3_some hsmv (truthy_ne_jnull hmvt) hpv
          (truthy_ne_jnull hpvt) (providerNameOf e)
          (providerBlock bu (e.CLOUDFLARE_AI_GATEWAY_API_KEY.getD "")
            (apiOf e) (modelIdOf (modelRaw e)))
        rw [jset_of_isPrim hpp, jset_jget_self hpv, jset_jget_self hsmv]
          at hop2
        refine ⟨s, ?_, hstr, ⟨fss, hs⟩, rfl, rfl⟩
        rw [modelModelsOps, hop0, hop1]
        show s.jset3 "models" "providers" _ _ = _
        rw [hop2]
      · -- providers is a clean array: hidden prop only
        have helclean : elp.map stringify = elp := by
          rw [stringify_jarr] at hpvfix
          exact ((jarr.injEq _ _ _ _).mp hpvfix).1
        have hop2 := jset3_some hsmv (truthy_ne_jnull hmvt) hpv (by simp)
          (providerNameOf e)
          (providerBlock bu (e.CLOUDFLARE_AI_GATEWAY_API_KEY.getD "")
            (apiOf e) (modelIdOf (modelRaw e)))
        refine ⟨s.jset "models" (mv.jset "providers"
          (jarr elp [(providerNameOf e, providerValue e)])), ?_, ?_, ?_, ?_, ?_⟩
        · rw [modelModelsOps, hop0, hop1]
          show s.jset3 "models" "providers" _ _ = _
          rw [hop2, hPB]
          rfl
        · refine stringify_jset_to_fixed hs hstr hmv ?_
          rw [hmo, stringify_jset_jobj, ← hmo, hmvfix, stringify_jarr]
          simp only [helclean]
          exact jset_jget_self (hmo ▸ hpv)
        · subst hs; exact ⟨_, rfl⟩
        · subst hs; exact jget_jset_ne _ _ (by decide)
        · subst hs; exact jget_jset_ne _ _ (by decide)
      · -- providers is an object already carrying the provider entry
        have hop2 := jset3_some hsmv (truthy_ne_jnull hmvt) hpv
          (by rw [hpo]; simp) (providerNameOf e)
          (providerBlock bu (e.CLOUDFLARE_AI_GATEWAY_API_KEY.getD "")
            (apiOf e) (modelIdOf (modelRaw e)))
        rw [hPB, jset_jget_self hpn, jset_jget_self hpv,
          jset_jget_self hsmv] at hop2
        refine ⟨s, ?_, hstr, ⟨fss, hs⟩, rfl, rfl⟩
        rw [modelModelsOps, hop0, hop1]
        show s.jset3 "models" "providers" _ _ = _
        rw [hPB, hop2]
  obtain ⟨s₂, hmops, hstr₂, ⟨fs₂, hs₂⟩, hch₂, hag₂⟩ := hmodels
  -- then, the agents half
  obtain ⟨hat, df, hdf, hdfn, hdft, hclo⟩ := hagst
  have hagv₂ : s₂.jget "agents" = some av := hag₂.trans hagv
  have hopa0 : s₂.jset "agents" (jsOr (s₂.jget "agents") (jobj [])) = s₂ :=
    jset_jsOr_self hagv₂ hat
  have hopa1 := jsetDefault2_some hagv₂ (truthy_ne_jnull hat) "defaults"
  rw [hdf, jsOr_truthy hdft, jset_jget_self hdf, jset_jget_self hagv₂]
    at hopa1
  have hopa2 := jset3_some hagv₂ (truthy_ne_jnull hat) hdf hdfn "model"
    (modelValue e)
  have hfinal := hclo hma s₂ fs₂ hs₂ hagv₂ hstr₂
  refine ⟨s₂.jset "agents" (av.jset "defaults"
    (df.jset "model" (modelValue e))), ?_, ?_, ?_, ?_⟩
  · simp only [modelOverrideStep, h1, if_true, hbu, h3]
    show modelModelsOps e bu s >>= modelAgentsOps e = _
    rw [hmops]
    show modelAgentsOps e s₂ = _
    rw [modelAgentsOps, hopa0, hopa1]
    show s₂.jset3 "agents" "defaults" "model" _ = _
    rw [hopa2]
  · rcases hfinal with heq | hstrq
    · rw [heq]; exact hstr₂
    · exact hstrq
  · subst hs₂; exact ⟨_, rfl⟩
  · rw [jget_jset_ne _ _ (by decide)]
    exact hch₂.trans hframeC

theorem telegramStep_patched (e : PatchEnv) {d s : MJson}
    {fss : List (String × MJson)} (hs : s = jobj fss)
    {fs : List (String × MJson)} (_hd : d = jobj fs)
    (hstr : stringify s = d) (hfix : stringify d = d)
    (hframeC : s.jget "channels" = d.jget "channels")
    (hc : PChannels e d) :
    ∃ s', telegramStep e s = some s' ∧ ChSt e d s' := by
  obtain ⟨cv, hcvd, hccase⟩ := hc
  have hcv : s.jget "channels" = some cv := hframeC.trans hcvd
  have hcvfix : stringify cv = cv := stringify_fixed_of_jget hfix hcvd
  have hct : cv.truthy = true := by
    rcases hccase with ⟨_, ht, _⟩ | ⟨el, rfl⟩ | ⟨⟨cfs, hco⟩, _⟩
    · exact ht
    · rfl
    · rw [hco]; rfl
  have harrW : ∀ el, d.jget "channels" = some (jarr el []) →
      ∀ P' : List (String × MJson),
        stringify (s.jset "channels" (jarr el P')) = d := by
    intro el hget P'
    have hclean : el.map stringify = el := by
      have := stringify_fixed_of_jget hfix hget
      rw [stringify_jarr] at this
      exact ((jarr.injEq _ _ _ _).mp this).1
    refine stringify_jset_to_fixed hs hstr hget ?_
    rw [stringify_jarr]
    simp [hclean]
  by_cases htg : TgOn e
  case neg =>
    have htg' : envTruthy e.TELEGRAM_BOT_TOKEN = false := by
      simpa [TgOn] using htg
    refine ⟨s, by simp [telegramStep, htg'], ⟨fss, hs⟩, hstr, cv, hcv,
      truthy_ne_jnull hct, ?_⟩
    rcases hccase with ⟨hp, _, _⟩ | ⟨el, rfl⟩ | ⟨⟨cfs, hco⟩, _, hdc, hsl⟩
    · exact Or.inl hp
    · exact Or.inr (Or.inl ⟨el, ⟨[], rfl⟩, harrW el hcvd⟩)
    · exact Or.inr (Or.inr ⟨⟨cfs, hco⟩, hdc, hsl⟩)
  case pos =>
  have htg' : envTruthy e.TELEGRAM_BOT_TOKEN = true := htg
  rcases hccase with ⟨hp, _, hnaf⟩ | ⟨el, rfl⟩ | ⟨⟨cfs, hco⟩, htel, hdc, hsl⟩
  · -- channels is a truthy primitive and the allow-list path is inactive
    have haf : telegramAllowFrom e = none := by
      cases haf : telegramAllowFrom e with
      | none => rfl
      | some ids => exact absurd ⟨htg, by rw [haf]; rfl⟩ hnaf
    have hop := jset2_some hcv (truthy_ne_jnull hct) "telegram"
      (telegramBase e)
    rw [jset_of_isPrim hp, jset_jget_self hcv] at hop
    refine ⟨s, ?_, ⟨fss, hs⟩, hstr, cv, hcv, truthy_ne_jnull hct, Or.inl hp⟩
    rw [telegramStep, if_pos htg', hop]
    show (match telegramAllowFrom e with
      | some ids => s.jset3 "channels" "telegram" "allowFrom"
          (jarr (ids.map jstr) [])
      | none => pure s) = some s
    rw [haf]
    rfl
  · -- channels is a clean array
    have hop := jset2_some hcv (by simp) "telegram" (telegramBase e)
    have hgets : ∀ X : MJson,
        (s.jset "channels" X).jget "channels" = some X := by
      intro X; subst hs; exact jget_jset_same_jobj _ _ _
    cases haf : telegramAllowFrom e with
    | none =>
      refine ⟨s.jset "channels" (jarr el [("telegram", telegramBase e)]),
        ?_, ?_, harrW el hcvd _, jarr el [("telegram", telegramBase e)],
        hgets _, by simp, Or.inr (Or.inl ⟨el, ⟨_, rfl⟩, ?_⟩)⟩
      · rw [telegramStep, if_pos htg', hop]
        show (match telegramAllowFrom e with
          | some ids => (s.jset "channels"
              ((jarr el []).jset "telegram" (telegramBase e))).jset3
              "channels" "telegram" "allowFrom" (jarr (ids.map jstr) [])
          | none => pure (s.jset "channels"
              ((jarr el []).jset "telegram" (telegramBase e)))) = _
        rw [haf]
        rfl
      · subst hs; exact ⟨_, rfl⟩
      · intro P'
        rw [jset_jset_same]
        exact harrW el hcvd P'
    | some ids =>
      have hop2 := jset3_some (hgets ((jarr el []).jset "telegram"
          (telegramBase e)))
        (by simp [jset])
        (show ((jarr el []).jset "telegram" (telegramBase e)).jget "telegram" =
          some (telegramBase e) by rfl)
        (by simp [telegramBase])
        "allowFrom" (jarr (ids.map jstr) [])
      refine ⟨s.jset "channels" (jarr el [("telegram",
        (telegramBase e).jset "allowFrom" (jarr (ids.map jstr) []))]),
        ?_, ?_, harrW el hcvd _, _, hgets _, by simp,
        Or.inr (Or.inl ⟨el, ⟨_, rfl⟩, ?_⟩)⟩
      · rw [telegramStep, if_pos htg', hop]
        show (match telegramAllowFrom e with
          | some ids => (s.jset "channels"
              ((jarr el []).jset "telegram" (telegramBase e))).jset3
              "channels" "telegram" "allowFrom" (jarr (ids.map jstr) [])
          | none => pure (s.jset "channels"
              ((jarr el []).jset "telegram" (telegramBase e)))) = _
        rw [haf]
        show (s.jset "channels" ((jarr el []).jset "telegram"
          (telegramBase e))).jset3 "channels" "telegram" "allowFrom"
          (jarr (ids.map jstr) []) = _
        rw [hop2, jset_jset_same]
        rfl
      · subst hs; exact ⟨_, rfl⟩
      · intro P'
        rw [jset_jset_same]
        exact harrW el hcvd P'
  · -- channels is an object with the recomputed telegram entry
    have hcvt : cv ≠ jnull := by rw [hco]; simp
    have hopen : ∀ X : MJson,
        (s.jset "channels" X).jget "channels" = some X := by
      intro X; subst hs; exact jget_jset_same_jobj _ _ _
    have hop := jset2_some hcv hcvt "telegram" (telegramBase e)
    cases haf : telegramAllowFrom e with
    | none =>
      have htv : telegramValue e = telegramBase e := by
        rw [telegramValue, haf]
      have hid : cv.jset "telegram" (telegramBase e) = cv := by
        rw [← htv]
        exact jset_jget_self (htel htg)
      rw [hid, jset_jget_self hcv] at hop
      refine ⟨s, ?_, ⟨fss, hs⟩, hstr, cv, hcv, hcvt,
        Or.inr (Or.inr ⟨⟨cfs, hco⟩, hdc, hsl⟩)⟩
      rw [telegramStep, if_pos htg', hop]
      show (match telegramAllowFrom e with
        | some ids => s.jset3 "channels" "telegram" "allowFrom"
            (jarr (ids.map jstr) [])
        | none => pure s) = some s
      rw [haf]
      rfl
    | some ids =>
      have htv : telegramValue e =
          (telegramBase e).jset "allowFrom" (jarr (ids.map jstr) []) := by
        rw [telegramValue, haf]
      have hcuget : (cv.jset "telegram" (telegramBase e)).jget "telegram" =
          some (telegramBase e) := by
        rw [hco]; exact jget_jset_same_jobj _ _ _
      have hop2 := jset3_some (hopen (cv.jset "telegram" (telegramBase e)))
        (by rw [hco]; simp [jset]) hcuget (by simp [telegramBase])
        "allowFrom" (jarr (ids.map jstr) [])
      refine ⟨s, ?_, ⟨fss, hs⟩, hstr, cv, hcv, hcvt,
        Or.inr (Or.inr ⟨⟨cfs, hco⟩, hdc, hsl⟩)⟩
      rw [telegramStep, if_pos htg', hop]
      show (match telegramAllowFrom e with
        | some ids => (s.jset "channels" (cv.jset "telegram"
            (telegramBase e))).jset3 "channels" "telegram" "allowFrom"
            (jarr (ids.map jstr) [])
        | none => pure (s.jset "channels" (cv.jset "telegram"
            (telegramBase e)))) = some s
      rw [haf]
      show (s.jset "channels" (cv.jset "telegram"
        (telegramBase e))).jset3 "channels" "telegram" "allowFrom"
        (jarr (ids.map jstr) []) = _
      rw [hop2, jset_jset_same]
      rw [show (cv.jset "telegram" (telegramBase e)).jset "telegram"
          ((telegramBase e).jset "allowFrom" (jarr (ids.map jstr) [])) =
          cv.jset "telegram" ((telegramBase e).jset "allowFrom"
            (jarr (ids.map jstr) [])) from jset_jset_same _ _ _ _]
      rw [← htv, jset_jget_self (htel htg), jset_jget_self hcv]

theorem discordStep_patched (e : PatchEnv) {d s : MJson}
    (hch : ChSt e d s) :
    ∃ s', discordStep e s = some s' ∧ ChSt e d s' := by
  obtain ⟨⟨fss, hs⟩, hstr, cv, hcv, hcvn, hcase⟩ := hch
  by_cases hdc : DcOn e
  case neg =>
    have hdc' : envTruthy e.DISCORD_BOT_TOKEN = false := by
      simpa [DcOn] using hdc
    exact ⟨s, by simp [discordStep, hdc'], ⟨fss, hs⟩, hstr, cv, hcv, hcvn,
      hcase⟩
  case pos =>
  have hdc' : envTruthy e.DISCORD_BOT_TOKEN = true := hdc
  have hop := jset2_some hcv hcvn "discord" (discordValue e)
  rcases hcase with hp | ⟨el, ⟨P, rfl⟩, hW⟩ | ⟨⟨cfs, hco⟩, hdval, hsl⟩
  · rw [jset_of_isPrim hp, jset_jget_self hcv] at hop
    refine ⟨s, ?_, ⟨fss, hs⟩, hstr, cv, hcv, hcvn, Or.inl hp⟩
    rw [discordStep, if_pos hdc', hop]
  · have harr : (jarr el P).jset "discord" (discordValue e)
        = jarr el (setKV P "discord" (discordValue e)) := rfl
    rw [harr] at hop
    refine ⟨s.jset "channels" (jarr el (setKV P "discord" (discordValue e))),
      ?_, ?_, hW _, jarr el (setKV P "discord" (discordValue e)), ?_,
      by simp, Or.inr (Or.inl ⟨el, ⟨_, rfl⟩, ?_⟩)⟩
    · rw [discordStep, if_pos hdc', hop]
    · subst hs; exact ⟨_, rfl⟩
    · subst hs; exact jget_jset_same_jobj _ _ _
    · intro P'
      show stringify ((s.jset "channels" _).jset "channels" (jarr el P')) = d
      rw [jset_jset_same]
      exact hW P'
  · rw [jset_jget_self (hdval hdc), jset_jget_self hcv] at hop
    refine ⟨s, ?_, ⟨fss, hs⟩, hstr, cv, hcv, hcvn,
      Or.inr (Or.inr ⟨⟨cfs, hco⟩, hdval, hsl⟩)⟩
    rw [discordStep, if_pos hdc', hop]

theorem slackStep_patched (e : PatchEnv) {d s : MJson}
    (hch : ChSt e d s) :
    ∃ s', slackStep e s = some s' ∧ stringify s' = d := by
  obtain ⟨⟨fss, hs⟩, hstr, cv, hcv, hcvn, hcase⟩ := hch
  by_cases hsl : SlOn e
  case neg =>
    have hsl' : (envTruthy e.SLACK_BOT_TOKEN &&
        envTruthy e.SLACK_APP_TOKEN) = false := by
      simpa [SlOn] using hsl
    exact ⟨s, by simp [slackStep, hsl'], hstr⟩
  case pos =>
  have hsl' : (envTruthy e.SLACK_BOT_TOKEN &&
      envTruthy e.SLACK_APP_TOKEN) = true := hsl
  have hop := jset2_some hcv hcvn "slack" (slackValue e)
  rcases hcase with hp | ⟨el, ⟨P, rfl⟩, hW⟩ | ⟨⟨cfs, hco⟩, _, hsval⟩
  · rw [jset_of_isPrim hp, jset_jget_self hcv] at hop
    refine ⟨s, ?_, hstr⟩
    rw [slackStep, if_pos hsl', hop]
  · refine ⟨s.jset "channels" ((jarr el P).jset "slack" (slackValue e)),
      ?_, ?_⟩
    · rw [slackStep, if_pos hsl', hop]
    · show stringify (s.jset "channels" (jarr el _)) = d
      exact hW _
  · rw [jset_jget_self (hsval hsl), jset_jget_self hcv] at hop
    refine ⟨s, ?_, hstr⟩
    rw [slackStep, if_pos hsl', hop]

/-- Re-running the whole patch body on a patched object document succeeds and
leaves its stringify image unchanged. -/
theorem patchScript_patched_obj (e : PatchEnv) {d : MJson}
    {fs : List (String × MJson)} (hd : d = jobj fs)
    (hfix : stringify d = d) (hg : PGate e d) (ha : PAgents e d)
    (hc : PChannels e d) (hm : PModels e d) :
    ∃ c, patchScript e d = some c ∧ stringify c = d := by
  obtain ⟨s₂, av, hbase, hstr₂, ⟨fs₂, hs₂⟩, hframe₂, hagv₂, hagst⟩ :=
    baseSteps_patched e hd hfix hg ha hc
  obtain ⟨s₃, hmodel, hstr₃, ⟨fs₃, hs₃⟩, hch₃⟩ :=
    modelOverrideStep_patched e hs₂ hd hstr₂ hfix
      (hframe₂ "models" (by decide) (by decide))
      (hframe₂ "channels" (by decide) (by decide)) hagv₂ hagst hm
  obtain ⟨s₄, htel, hchst⟩ :=
    telegramStep_patched e hs₃ hd hstr₃ hfix hch₃ hc
  obtain ⟨s₅, hdisc, hchst₅⟩ := discordStep_patched e hchst
  obtain ⟨s₆, hslack, hstr₆⟩ := slackStep_patched e hchst₅
  refine ⟨s₆, ?_, hstr₆⟩
  rw [patchScript, hbase]
  show modelOverrideStep e s₂ >>= _ = _
  rw [hmodel]
  show telegramStep e s₃ >>= _ = _
  rw [htel]
  show discordStep e s₄ >>= _ = _
  rw [hdisc]
  show slackStep e s₅ = _
  exact hslack

theorem arrSim_jset2 (a b : String) (v : MJson) :
    ArrSim (fun c => c.jset2 a b v) := by
  intro el P
  show MJson.jset2 (jarr el P) a b v = _
  unfold MJson.jset2
  simp only [jget]
  cases getKV P a with
  | none => rfl
  | some t => cases t <;> rfl

theorem arrSim_jsetDefault2 (a b : String) :
    ArrSim (fun c => c.jsetDefault2 a b) := by
  intro el P
  show MJson.jsetDefault2 (jarr el P) a b = _
  unfold MJson.jsetDefault2
  simp only [jget]
  cases getKV P a with
  | none => rfl
  | some t => cases t <;> rfl

theorem arrSim_jset3 (a b k : String) (v : MJson) :
    ArrSim (fun c => c.jset3 a b k v) := by
  intro el P
  show MJson.jset3 (jarr el P) a b k v = _
  unfold MJson.jset3
  simp only [jget]
  cases getKV P a with
  | none => rfl
  | some t =>
    cases t with
    | jnull => rfl
    | jbool x => rfl
    | jnum x => rfl
    | jstr x => rfl
    | jarr el2 pr =>
      simp only [jget]
      cases getKV pr b with
      | none => rfl
      | some u => cases u <;> rfl
    | jobj fs =>
      simp only [jget]
      cases getKV fs b with
      | none => rfl
      | some u => cases u <;> rfl

theorem arrSim_pure : ArrSim (fun c => pure c) := by
  intro el P
  rfl

theorem objShape_jset2 (a b : String) (v : MJson) :
    ObjShape (fun c => c.jset2 a b v) := by
  intro P c h
  obtain ⟨t, -, -, rfl⟩ := jset2_eq_some h
  exact ⟨_, rfl⟩

theorem objShape_jsetDefault2 (a b : String) :
    ObjShape (fun c => c.jsetDefault2 a b) := by
  intro P c h
  obtain ⟨t, -, -, rfl⟩ := jsetDefault2_eq_some h
  exact ⟨_, rfl⟩

theorem objShape_jset3 (a b k : String) (v : MJson) :
    ObjShape (fun c => c.jset3 a b k v) := by
  intro P c h
  obtain ⟨t, u, -, -, -, -, rfl⟩ := jset3_eq_some h
  exact ⟨_, rfl⟩

theorem objShape_pure : ObjShape (fun c => pure c) := by
  intro P c h
  exact ⟨P, (Option.some.injEq _ _ ▸ h).symm⟩

theorem arrSim_bind (F G : MJson → Option MJson) (hF : ArrSim F)
    (hFo : ObjShape F) (hG : ArrSim G) : ArrSim (fun c => F c >>= G) := by
  intro el P
  show F (jarr el P) >>= G = Option.map (arrOf el) (F (jobj P) >>= G)
  rw [hF]
  cases h : F (jobj P) with
  | none => rfl
  | some c =>
    obtain ⟨Q, rfl⟩ := hFo P c h
    show G (jarr el Q) = Option.map (arrOf el) (G (jobj Q))
    exact hG el Q

theorem objShape_bind (F G : MJson → Option MJson) (hFo : ObjShape F)
    (hGo : ObjShape G) : ObjShape (fun c => F c >>= G) := by
  intro P c h
  have hb : F (jobj P) >>= G = some c := h
  cases hf : F (jobj P) with
  | none => rw [hf] at hb; cases hb
  | some c₁ =>
    rw [hf] at hb
    obtain ⟨Q, rfl⟩ := hFo P c₁ hf
    exact hGo Q c hb

theorem arrSim_rootDefault (k : String) (F : MJson → Option MJson)
    (hF : ArrSim F) :
    ArrSim (fun c => F (c.jset k (jsOr (c.jget k) (jobj [])))) := by
  intro el P
  show F (jarr el (setKV P k (jsOr (getKV P k) (jobj [])))) =
    Option.map (arrOf el) (F (jobj (setKV P k (jsOr (getKV P k) (jobj [])))))
  exact hF el _

theorem objShape_rootDefault (k : String) (F : MJson → Option MJson)
    (hF : ObjShape F) :
    ObjShape (fun c => F (c.jset k (jsOr (c.jget k) (jobj [])))) := by
  intro P c h
  exact hF (setKV P k (jsOr (getKV P k) (jobj []))) c h

theorem arrSim_agentsOps : ArrSim agentsOps := by
  intro el P
  exact arrSim_bind (fun c => c.jsetDefault2 "agents" "defaults")
    (fun c => c.jset3 "agents" "defaults" "workspace" (jstr "/root/clawd"))
    (arrSim_jsetDefault2 _ _) (objShape_jsetDefault2 _ _)
    (arrSim_jset3 _ _ _ _) el P

theorem objShape_agentsOps : ObjShape agentsOps := by
  intro P c h
  exact objShape_bind (fun c => c.jsetDefault2 "agents" "defaults")
    (fun c => c.jset3 "agents" "defaults" "workspace" (jstr "/root/clawd"))
    (objShape_jsetDefault2 _ _) (objShape_jset3 _ _ _ _) P c h

theorem arrSim_gwOps (e : PatchEnv) : ArrSim (gwOps e) := by
  intro el P
  exact arrSim_bind _ _ (arrSim_jset2 _ _ _) (objShape_jset2 _ _ _)
    (arrSim_bind _ _ (arrSim_jset2 _ _ _) (objShape_jset2 _ _ _)
      (arrSim_bind _ _ (arrSim_jset2 _ _ _) (objShape_jset2 _ _ _)
        (arrSim_bind _ _ (arrSim_jset2 _ _ _) (objShape_jset2 _ _ _)
          (arrSim_bind _ _ (arrSim_jsetDefault2 _ _) (objShape_jsetDefault2 _ _)
            (arrSim_bind _ _ (arrSim_jset3 _ _ _ _) (objShape_jset3 _ _ _ _)
              (arrSim_jset3 _ _ _ _)))))) el P

theorem objShape_gwOps (e : PatchEnv) : ObjShape (gwOps e) := by
  intro P c h
  exact objShape_bind _ _ (objShape_jset2 _ _ _)
    (objShape_bind _ _ (objShape_jset2 _ _ _)
      (objShape_bind _ _ (objShape_jset2 _ _ _)
        (objShape_bind _ _ (objShape_jset2 _ _ _)
          (objShape_bind _ _ (objShape_jsetDefault2 _ _)
            (objShape_bind _ _ (objShape_jset3 _ _ _ _)
              (objShape_jset3 _ _ _ _)))))) P c h

theorem arrSim_baseSteps (e : PatchEnv) : ArrSim (baseSteps e) := by
  intro el P
  exact arrSim_rootDefault "gateway" _
    (arrSim_rootDefault "channels" _
      (arrSim_rootDefault "agents" _
        (arrSim_bind _ _ arrSim_agentsOps objShape_agentsOps
          (arrSim_gwOps e)))) el P

theorem objShape_baseSteps (e : PatchEnv) : ObjShape (baseSteps e) := by
  intro P c h
  exact objShape_rootDefault "gateway" _
    (objShape_rootDefault "channels" _
      (objShape_rootDefault "agents" _
        (objShape_bind _ _ objShape_agentsOps (objShape_gwOps e)))) P c h

theorem arrSim_modelModelsOps (e : PatchEnv) (bu : String) :
    ArrSim (modelModelsOps e bu) := by
  intro el P
  exact arrSim_rootDefault "models" _
    (arrSim_bind _ _ (arrSim_jsetDefault2 _ _) (objShape_jsetDefault2 _ _)
      (arrSim_jset3 _ _ _ _)) el P

theorem objShape_modelModelsOps (e : PatchEnv) (bu : String) :
    ObjShape (modelModelsOps e bu) := by
  intro P c h
  exact objShape_rootDefault "models" _
    (objShape_bind _ _ (objShape_jsetDefault2 _ _)
      (objShape_jset3 _ _ _ _)) P c h

theorem arrSim_modelAgentsOps (e : PatchEnv) : ArrSim (modelAgentsOps e) := by
  intro el P
  exact arrSim_rootDefault "agents" _
    (arrSim_bind _ _ (arrSim_jsetDefault2 _ _) (objShape_jsetDefault2 _ _)
      (arrSim_jset3 _ _ _ _)) el P

theorem objShape_modelAgentsOps (e : PatchEnv) : ObjShape (modelAgentsOps e) := by
  intro P c h
  exact objShape_rootDefault "agents" _
    (objShape_bind _ _ (objShape_jsetDefault2 _ _)
      (objShape_jset3 _ _ _ _)) P c h

theorem arrSim_modelOverrideStep (e : PatchEnv) :
    ArrSim (modelOverrideStep e) := by
  intro el P
  unfold modelOverrideStep
  cases h : envTruthy e.CF_AI_GATEWAY_MODEL with
  | false => simp [h, arrOf]
  | true =>
    simp only [h, if_true]
    cases hbu : modelOverrideBaseUrl e (gwProviderOf (modelRaw e)) with
    | none => rfl
    | some bu =>
      cases hkey : envTruthy e.CLOUDFLARE_AI_GATEWAY_API_KEY with
      | false => rfl
      | true =>
        exact arrSim_bind _ _ (arrSim_modelModelsOps e bu)
          (objShape_modelModelsOps e bu) (arrSim_modelAgentsOps e) el P

theorem objShape_modelOverrideStep (e : PatchEnv) :
    ObjShape (modelOverrideStep e) := by
  intro P c h
  unfold modelOverrideStep at h
  cases hcf : envTruthy e.CF_AI_GATEWAY_MODEL with
  | false =>
    rw [hcf] at h
    simp at h
    exact ⟨P, h.symm⟩
  | true =>
    rw [hcf] at h
    simp only [if_true] at h
    cases hbu : modelOverrideBaseUrl e (gwProviderOf (modelRaw e)) with
    | none =>
      rw [hbu] at h
      exact ⟨P, (Option.some.injEq _ _ ▸ h).symm⟩
    | some bu =>
      rw [hbu] at h
      cases hkey : envTruthy e.CLOUDFLARE_AI_GATEWAY_API_KEY with
      | false =>
        rw [hkey] at h
        exact ⟨P, (Option.some.injEq _ _ ▸ h).symm⟩
      | true =>
        rw [hkey] at h
        exact objShape_bind _ _ (objShape_modelModelsOps e bu)
          (objShape_modelAgentsOps e) P c h

theorem arrSim_telegramStep (e : PatchEnv) : ArrSim (telegramStep e) := by
  intro el P
  unfold telegramStep
  cases h : envTruthy e.TELEGRAM_BOT_TOKEN with
  | false => simp [h, arrOf]
  | true =>
    simp only [h, if_true]
    cases haf : telegramAllowFrom e with
    | none =>
      simp only [haf]
      exact arrSim_bind _ _ (arrSim_jset2 _ _ _) (objShape_jset2 _ _ _)
        arrSim_pure el P
    | some ids =>
      simp only [haf]
      exact arrSim_bind _ _ (arrSim_jset2 _ _ _) (objShape_jset2 _ _ _)
        (arrSim_jset3 _ _ _ _) el P

theorem objShape_telegramStep (e : PatchEnv) : ObjShape (telegramStep e) := by
  intro P c h
  unfold telegramStep at h
  cases htg : envTruthy e.TELEGRAM_BOT_TOKEN with
  | false =>
    rw [htg] at h
    simp at h
    exact ⟨P, h.symm⟩
  | true =>
    rw [htg] at h
    simp only [if_true] at h
    cases haf : telegramAllowFrom e with
    | none =>
      simp only [haf] at h
      exact objShape_bind _ _ (objShape_jset2 _ _ _) objShape_pure P c h
    | some ids =>
      simp only [haf] at h
      exact objShape_bind _ _ (objShape_jset2 _ _ _) (objShape_jset3 _ _ _ _)
        P c h

theorem arrSim_discordStep (e : PatchEnv) : ArrSim (discordStep e) := by
  intro el P
  unfold discordStep
  cases h : envTruthy e.DISCORD_BOT_TOKEN with
  | false => simp [h, arrOf]
  | true =>
    simp only [h, if_true]
    exact arrSim_jset2 _ _ _ el P

theorem objShape_discordStep (e : PatchEnv) : ObjShape (discordStep e) := by
  intro P c h
  unfold discordStep at h
  cases hdc : envTruthy e.DISCORD_BOT_TOKEN with
  | false =>
    rw [hdc] at h
    simp at h
    exact ⟨P, h.symm⟩
  | true =>
    rw [hdc] at h
    simp only [if_true] at h
    exact objShape_jset2 _ _ _ P c h

theorem arrSim_slackStep (e : PatchEnv) : ArrSim (slackStep e) := by
  intro el P
  unfold slackStep
  cases h : envTruthy e.SLACK_BOT_TOKEN && envTruthy e.SLACK_APP_TOKEN with
  | false => simp [h, arrOf]
  | true =>
    simp only [h, if_true]
    exact arrSim_jset2 _ _ _ el P

theorem objShape_slackStep (e : PatchEnv) : ObjShape (slackStep e) := by
  intro P c h
  unfold slackStep at h
  cases hsl : envTruthy e.SLACK_BOT_TOKEN && envTruthy e.SLACK_APP_TOKEN with
  | false =>
    rw [hsl] at h
    simp at h
    exact ⟨P, h.symm⟩
  | true =>
    rw [hsl] at h
    simp only [if_true] at h
    exact objShape_jset2 _ _ _ P c h

theorem arrSim_patchScript (e : PatchEnv) : ArrSim (patchScript e) := by
  intro el P
  exact arrSim_bind _ _ (arrSim_baseSteps e) (objShape_baseSteps e)
    (arrSim_bind _ _ (arrSim_modelOverrideStep e) (objShape_modelOverrideStep e)
      (arrSim_bind _ _ (arrSim_telegramStep e) (objShape_telegramStep e)
        (arrSim_bind _ _ (arrSim_discordStep e) (objShape_discordStep e)
          (arrSim_slackStep e)))) el P

theorem objShape_patchScript (e : PatchEnv) : ObjShape (patchScript e) := by
  intro P c h
  exact objShape_bind _ _ (objShape_baseSteps e)
    (objShape_bind _ _ (objShape_modelOverrideStep e)
      (objShape_bind _ _ (objShape_telegramStep e)
        (objShape_bind _ _ (objShape_discordStep e)
          (objShape_slackStep e)))) P c h

theorem baseSteps_empty (e : PatchEnv) :
    baseSteps e (jobj []) = some (emptyBase e) := rfl

/-- The model override succeeds on any object state whose `agents.defaults`
is an object and that has no `models` entry yet. -/
theorem modelOverrideStep_fresh (e : PatchEnv) {s : MJson}
    {fs afs dfs : List (String × MJson)} (hs : s = jobj fs)
    (hag : s.jget "agents" = some (jobj afs))
    (hdf : (jobj afs).jget "defaults" = some (jobj dfs))
    (hmo : s.jget "models" = none) :
    ∃ s', modelOverrideStep e s = some s' ∧ (∃ fs', s' = jobj fs') ∧
      s'.jget "channels" = s.jget "channels" := by
  by_cases h1 : envTruthy e.CF_AI_GATEWAY_MODEL = true
  case neg => exact ⟨s, by simp [modelOverrideStep, h1], ⟨fs, hs⟩, rfl⟩
  case pos =>
  cases hbu : modelOverrideBaseUrl e (gwProviderOf (modelRaw e)) with
  | none => exact ⟨s, by simp [modelOverrideStep, h1, hbu], ⟨fs, hs⟩, rfl⟩
  | some bu =>
  by_cases h3 : envTruthy e.CLOUDFLARE_AI_GATEWAY_API_KEY = true
  case neg =>
    have h3f : envTruthy e.CLOUDFLARE_AI_GATEWAY_API_KEY = false := by
      simpa using h3
    exact ⟨s, by simp [modelOverrideStep, h1, hbu, h3f], ⟨fs, hs⟩, rfl⟩
  case pos =>
  have hc1get : (s.jset "models" (jobj [])).jget "models"
      = some (jobj []) := by
    subst hs; exact jget_jset_same_jobj _ _ _
  have hmodels : modelModelsOps e bu s = some (s.jset "models"
      (jobj [("providers", jobj [(providerNameOf e, providerBlock bu
        (e.CLOUDFLARE_AI_GATEWAY_API_KEY.getD "") (apiOf e)
        (modelIdOf (modelRaw e)))])])) := by
    rw [modelModelsOps, hmo, jsOr_none,
      jsetDefault2_some hc1get (by simp) "providers"]
    show ((s.jset "models" (jobj [])).jset "models"
      (jobj [("providers", jobj [])])).jset3 "models" "providers" _ _ = _
    rw [jset3_some
      (show ((s.jset "models" (jobj [])).jset "models"
          (jobj [("providers", jobj [])])).jget "models"
          = some (jobj [("providers", jobj [])]) by
        subst hs; exact jget_jset_same_jobj _ _ _)
      (by simp) (by rfl) (by simp)
      (providerNameOf e) (providerBlock bu
        (e.CLOUDFLARE_AI_GATEWAY_API_KEY.getD "") (apiOf e)
        (modelIdOf (modelRaw e))), jset_jset_same, jset_jset_same]
    rfl
  set M₃ : MJson := jobj [("providers", jobj [(providerNameOf e,
    providerBlock bu (e.CLOUDFLARE_AI_GATEWAY_API_KEY.getD "") (apiOf e)
      (modelIdOf (modelRaw e)))])] with hM₃
  have hc3ag : (s.jset "models" M₃).jget "agents" = some (jobj afs) := by
    rw [jget_jset_ne _ _ (by decide)]
    exact hag
  have hagents : modelAgentsOps e (s.jset "models" M₃)
      = some (((s.jset "models" M₃).jset "agents"
          ((jobj afs).jset "defaults" (jobj dfs))).jset "agents"
        (((jobj afs).jset "defaults" (jobj dfs)).jset "defaults"
          ((jobj dfs).jset "model" (modelValue e)))) := by
    rw [modelAgentsOps, hc3ag, jsOr_truthy (show (jobj afs).truthy = true
      from rfl)]
    have hc4ag : ((s.jset "models" M₃).jset "agents" (jobj afs)).jget "agents"
        = some (jobj afs) := by
      subst hs; exact jget_jset_same_jobj _ _ _
    rw [jsetDefault2_some hc4ag (by simp) "defaults", hdf,
      jsOr_truthy (show (jobj dfs).truthy = true from rfl)]
    show (((s.jset "models" M₃).jset "agents" (jobj afs)).jset "agents"
      ((jobj afs).jset "defaults" (jobj dfs))).jset3
        "agents" "defaults" "model" (modelValue e) = _
    rw [jset_jset_same]
    rw [jset3_some
      (show ((s.jset "models" M₃).jset "agents"
          ((jobj afs).jset "defaults" (jobj dfs))).jget "agents"
          = some ((jobj afs).jset "defaults" (jobj dfs)) by
        subst hs; exact jget_jset_same_jobj _ _ _)
      (by simp [jset]) (jget_jset_same_jobj afs "defaults" (jobj dfs))
      (by simp) "model" (modelValue e)]
  refine ⟨((s.jset "models" M₃).jset "agents"
      ((jobj afs).jset "defaults" (jobj dfs))).jset "agents"
    (((jobj afs).jset "defaults" (jobj dfs)).jset "defaults"
      ((jobj dfs).jset "model" (modelValue e))), ?_, ?_, ?_⟩
  · rw [modelOverrideStep]
    simp only [h1, if_true, hbu, h3]
    show modelModelsOps e bu s >>= modelAgentsOps e = _
    rw [hmodels]
    show modelAgentsOps e (s.jset "models" M₃) = _
    exact hagents
  · subst hs
    exact ⟨_, rfl⟩
  · subst hs
    rw [jget_jset_ne _ _ (by decide), jget_jset_ne _ _ (by decide),
      jget_jset_ne _ _ (by decide)]

/-- The Telegram block succeeds on any object state whose `channels` value is
an object, and keeps it an object. -/
theorem telegramStep_fresh (e : PatchEnv) {s : MJson}
    {fs cfs : List (String × MJson)} (hs : s = jobj fs)
    (hch : s.jget "channels" = some (jobj cfs)) :
    ∃ s' fs' cfs', telegramStep e s = some s' ∧ s' = jobj fs' ∧
      s'.jget "channels" = some (jobj cfs') := by
  subst hs
  cases htg : envTruthy e.TELEGRAM_BOT_TOKEN with
  | false => exact ⟨jobj fs, fs, cfs, by simp [telegramStep, htg], rfl, hch⟩
  | true =>
    have hop := jset2_some hch (by simp) "telegram" (telegramBase e)
    cases haf : telegramAllowFrom e with
    | none =>
      refine ⟨(jobj fs).jset "channels" ((jobj cfs).jset "telegram"
          (telegramBase e)),
        setKV fs "channels" ((jobj cfs).jset "telegram" (telegramBase e)),
        setKV cfs "telegram" (telegramBase e), ?_, rfl, ?_⟩
      · rw [telegramStep, if_pos htg, hop]
        show (match telegramAllowFrom e with
          | some ids => ((jobj fs).jset "channels" ((jobj cfs).jset "telegram"
              (telegramBase e))).jset3 "channels" "telegram" "allowFrom"
              (jarr (ids.map jstr) [])
          | none => pure ((jobj fs).jset "channels" ((jobj cfs).jset "telegram"
              (telegramBase e)))) = _
        rw [haf]
        rfl
      · exact jget_jset_same_jobj _ _ _
    | some ids =>
      refine ⟨(jobj fs).jset "channels" ((jobj (setKV cfs "telegram"
            (telegramBase e))).jset "telegram"
          ((telegramBase e).jset "allowFrom" (jarr (ids.map jstr) []))),
        setKV fs "channels" ((jobj (setKV cfs "telegram"
            (telegramBase e))).jset "telegram"
          ((telegramBase e).jset "allowFrom" (jarr (ids.map jstr) []))),
        setKV (setKV cfs "telegram" (telegramBase e)) "telegram"
          ((telegramBase e).jset "allowFrom" (jarr (ids.map jstr) [])),
        ?_, rfl, ?_⟩
      · rw [telegramStep, if_pos htg, hop]
        show (match telegramAllowFrom e with
          | some ids => ((jobj fs).jset "channels" ((jobj cfs).jset "telegram"
              (telegramBase e))).jset3 "channels" "telegram" "allowFrom"
              (jarr (ids.map jstr) [])
          | none => pure ((jobj fs).jset "channels" ((jobj cfs).jset "telegram"
              (telegramBase e)))) = _
        rw [haf]
        show ((jobj fs).jset "channels" ((jobj cfs).jset "telegram"
          (telegramBase e))).jset3 "channels" "telegram" "allowFrom"
          (jarr (ids.map jstr) []) = _
        rw [jset3_some
          (show ((jobj fs).jset "channels" ((jobj cfs).jset "telegram"
              (telegramBase e))).jget "channels"
              = some ((jobj cfs).jset "telegram" (telegramBase e)) from
            jget_jset_same_jobj _ _ _)
          (by simp [jset]) (jget_jset_same_jobj cfs "telegram" (telegramBase e))
          (by simp [telegramBase]) "allowFrom" (jarr (ids.map jstr) []),
          jset_jset_same]
        rfl
      · exact jget_jset_same_jobj _ _ _

/-- The Discord block succeeds on any object state whose `channels` value is
an object, and keeps it an object. -/
theorem discordStep_fresh (e : PatchEnv) {s : MJson}
    {fs cfs : List (String × MJson)} (hs : s = jobj fs)
    (hch : s.jget "channels" = some (jobj cfs)) :
    ∃ s' fs' cfs', discordStep e s = some s' ∧ s' = jobj fs' ∧
      s'.jget "channels" = some (jobj cfs') := by
  subst hs
  cases hdc : envTruthy e.DISCORD_BOT_TOKEN with
  | false => exact ⟨jobj fs, fs, cfs, by simp [discordStep, hdc], rfl, hch⟩
  | true =>
    refine ⟨(jobj fs).jset "channels" ((jobj cfs).jset "discord"
        (discordValue e)),
      setKV fs "channels" ((jobj cfs).jset "discord" (discordValue e)),
      setKV cfs "discord" (discordValue e), ?_, rfl, ?_⟩
    · rw [discordStep, if_pos hdc,
        jset2_some hch (by simp) "discord" (discordValue e)]
    · exact jget_jset_same_jobj _ _ _

/-- The Slack block succeeds on any object state whose `channels` value is an
object. -/
theorem slackStep_fresh (e : PatchEnv) {s : MJson}
    {fs cfs : List (String × MJson)} (_hs : s = jobj fs)
    (hch : s.jget "channels" = some (jobj cfs)) :
    ∃ s', slackStep e s = some s' := by
  cases hsl : envTruthy e.SLACK_BOT_TOKEN && envTruthy e.SLACK_APP_TOKEN with
  | false => exact ⟨s, by simp [slackStep, hsl]⟩
  | true =>
    exact ⟨s.jset "channels" ((jobj cfs).jset "slack" (slackValue e)),
      by rw [slackStep, if_pos hsl,
        jset2_some hch (by simp) "slack" (slackValue e)]⟩

/-- On the empty document the whole patch body succeeds, whatever the
environment: every container the script descends into was just created as an
object by the script itself. -/
theorem patchScript_empty_some (e : PatchEnv) :
    ∃ c, patchScript e (jobj []) = some c := by
  have hag : (emptyBase e).jget "agents" = some (jobj [("defaults",
      jobj [("workspace", jstr "/root/clawd")])]) := rfl
  have hdf : (jobj [("defaults", jobj [("workspace", jstr "/root/clawd")])]
      : MJson).jget "defaults"
      = some (jobj [("workspace", jstr "/root/clawd")]) := rfl
  have hmo : (emptyBase e).jget "models" = none := rfl
  obtain ⟨s₂, hmod, ⟨fs₂, hs₂⟩, hch₂⟩ :=
    modelOverrideStep_fresh e rfl hag hdf hmo
  have hmod' : modelOverrideStep e (emptyBase e) = some s₂ := hmod
  have hch₂' : s₂.jget "channels" = some (jobj ([] : List (String × MJson))) :=
    hch₂.trans rfl
  obtain ⟨s₃, fs₃, cfs₃, htel, hs₃, hch₃⟩ := telegramStep_fresh e hs₂ hch₂'
  obtain ⟨s₄, fs₄, cfs₄, hdisc, hs₄, hch₄⟩ := discordStep_fresh e hs₃ hch₃
  obtain ⟨s₅, hslk⟩ := slackStep_fresh e hs₄ hch₄
  refine ⟨s₅, ?_⟩
  rw [patchScript, baseSteps_empty]
  show modelOverrideStep e (emptyBase e) >>= _ = _
  rw [hmod']
  show telegramStep e s₂ >>= _ = _
  rw [htel]
  show discordStep e s₃ >>= _ = _
  rw [hdisc]
  show slackStep e s₄ = _
  exact hslk

theorem jsOr_truthy_out (x : Option MJson) :
    (jsOr x (jobj [])).truthy = true := by
  cases x with
  | none => rfl
  | some v =>
    by_cases h : v.truthy = true
    · simp [jsOr, h]
    · simp [jsOr, h]
      rfl

theorem jget_jset_same_container {d : MJson} (hp : d.isPrim = false)
    (hn : d ≠ jnull) (k : String) (v : MJson) :
    (d.jset k v).jget k = some v := by
  cases d with
  | jnull => exact absurd rfl hn
  | jbool b => simp [MJson.isPrim] at hp
  | jnum n => simp [MJson.isPrim] at hp
  | jstr t => simp [MJson.isPrim] at hp
  | jarr el pr => exact jget_jset_same_jarr _ _ _ _
  | jobj fs => exact jget_jset_same_jobj _ _ _

theorem jset_ne_jnull {d : MJson} (hn : d ≠ jnull) (k : String) (v : MJson) :
    d.jset k v ≠ jnull := by
  cases d <;> simp [jset] at hn ⊢

theorem isPrim_jset {d : MJson} (k : String) (v : MJson) :
    (d.jset k v).isPrim = d.isPrim := by
  cases d <;> rfl

theorem truthy_jset_of_container {d : MJson} (hp : d.isPrim = false)
    (hn : d ≠ jnull) (k : String) (v : MJson) :
    (d.jset k v).truthy = true := by
  cases d with
  | jnull => exact absurd rfl hn
  | jbool b => simp [MJson.isPrim] at hp
  | jnum n => simp [MJson.isPrim] at hp
  | jstr t => simp [MJson.isPrim] at hp
  | jarr el pr => rfl
  | jobj fs => rfl

theorem getKV_map {β γ : Type} (g : β → γ) (l : List (String × β)) (k : String) :
    getKV (l.map (fun kv => (kv.1, g kv.2))) k = Option.map g (getKV l k) := by
  induction l with
  | nil => rfl
  | cons hd tl ih =>
    obtain ⟨k₀, v₀⟩ := hd
    by_cases h : k₀ = k <;> simp [getKV, h, ih]

theorem jget_stringify (fs : List (String × MJson)) (k : String) :
    (stringify (jobj fs)).jget k = Option.map stringify ((jobj fs).jget k) := by
  rw [stringify_jobj]
  show getKV (fs.map (fun kv => (kv.1, stringify kv.2))) k
    = Option.map stringify (getKV fs k)
  exact getKV_map stringify fs k

theorem jget_stringify_some {fs : List (String × MJson)} {k : String}
    {v : MJson} (h : (jobj fs).jget k = some v) :
    (stringify (jobj fs)).jget k = some (stringify v) := by
  rw [jget_stringify, h]
  rfl

/-- The base steps throw on a primitive or null document (the `agents`
property read on line 253 is on `undefined`). -/
theorem baseSteps_notcontainer (e : PatchEnv) {d : MJson}
    (h : d.isPrim = true ∨ d = jnull) : baseSteps e d = none := by
  rcases h with h | rfl
  · cases d <;> simp [MJson.isPrim] at h <;> rfl
  · rfl

theorem jset3_none_of_prim {c t : MJson} {a : String} (h : c.jget a = some t)
    (hp : t.isPrim = true) (b k : String) (v : MJson) :
    c.jset3 a b k v = none := by
  unfold MJson.jset3
  rw [h]
  cases t <;> simp [MJson.isPrim] at hp <;> rfl

/-- The gateway block on a state whose `gateway` value is truthy: when it
succeeds it has installed all the gateway settings and left the other root
keys alone. -/
theorem gwOps_forward (e : PatchEnv) {a s₁ : MJson}
    {fsa : List (String × MJson)} (ha : a = jobj fsa)
    {G₀ : MJson} (hgw : a.jget "gateway" = some G₀) (hGt : G₀.truthy = true)
    (h : gwOps e a = some s₁) :
    (∃ fs₁, s₁ = jobj fs₁) ∧
    (∃ gv, s₁.jget "gateway" = some gv ∧ GF e gv) ∧
    s₁.jget "agents" = a.jget "agents" ∧
    s₁.jget "channels" = a.jget "channels" := by
  have hGn : G₀ ≠ jnull := truthy_ne_jnull hGt
  have hget : ∀ X : MJson, (a.jset "gateway" X).jget "gateway" = some X := by
    intro X; subst ha; exact jget_jset_same_jobj _ _ _
  by_cases hGp : G₀.isPrim = true
  case pos =>
    exfalso
    have hga : (a.jset "gateway" G₀).jget "gateway" = some G₀ := hget G₀
    have hnone : gwOps e a = none := by
      rw [gwOps, jset2_some hgw hGn "port" (jnum 18789),
        jset_of_isPrim hGp]
      show (a.jset "gateway" G₀).jset2 "gateway" "mode" (jstr "local")
        >>= _ = _
      rw [jset2_some hga hGn "mode" (jstr "local"), jset_of_isPrim hGp,
        jset_jset_same a "gateway" G₀ G₀]
      show (a.jset "gateway" G₀).jset2 "gateway" "trustedProxies" _ >>= _ = _
      rw [jset2_some hga hGn "trustedProxies" (jarr [jstr "10.1.0.0"] []),
        jset_of_isPrim hGp, jset_jset_same a "gateway" G₀ G₀]
      show (a.jset "gateway" G₀).jset2 "gateway" "auth" (authValue e)
        >>= _ = _
      rw [jset2_some hga hGn "auth" (authValue e), jset_of_isPrim hGp,
        jset_jset_same a "gateway" G₀ G₀]
      show (a.jset "gateway" G₀).jsetDefault2 "gateway" "controlUi" >>= _ = _
      rw [jsetDefault2_some hga hGn "controlUi", jset_of_isPrim hGp,
        jset_jset_same a "gateway" G₀ G₀]
      show (a.jset "gateway" G₀).jset3 "gateway" "controlUi"
        "allowInsecureAuth" (jbool true) >>= _ = _
      rw [jset3_none_of_prim hga hGp "controlUi" "allowInsecureAuth"
        (jbool true)]
      rfl
    rw [hnone] at h
    cases h
  case neg =>
  have hGp : G₀.isPrim = false := by simpa using hGp
  set G₁ := G₀.jset "port" (jnum 18789) with hG₁
  set G₂ := G₁.jset "mode" (jstr "local") with hG₂
  set G₃ := G₂.jset "trustedProxies" (jarr [jstr "10.1.0.0"] []) with hG₃
  set G₄ := G₃.jset "auth" (authValue e) with hG₄
  set CU₀ := jsOr (G₄.jget "controlUi") (jobj []) with hCU₀
  set CU₁ := CU₀.jset "allowInsecureAuth" (jbool true) with hCU₁
  set CU₂ := CU₁.jset "dangerouslyDisableDeviceAuth" (jbool true) with hCU₂
  have hG₁p : G₁.isPrim = false := by rw [hG₁, isPrim_jset]; exact hGp
  have hG₂p : G₂.isPrim = false := by rw [hG₂, isPrim_jset]; exact hG₁p
  have hG₃p : G₃.isPrim = false := by rw [hG₃, isPrim_jset]; exact hG₂p
  have hG₄p : G₄.isPrim = false := by rw [hG₄, isPrim_jset]; exact hG₃p
  have hG₁n : G₁ ≠ jnull := jset_ne_jnull hGn _ _
  have hG₂n : G₂ ≠ jnull := jset_ne_jnull hG₁n _ _
  have hG₃n : G₃ ≠ jnull := jset_ne_jnull hG₂n _ _
  have hG₄n : G₄ ≠ jnull := jset_ne_jnull hG₃n _ _
  have hCU₀t : CU₀.truthy = true := jsOr_truthy_out _
  have hCU₀n : CU₀ ≠ jnull := truthy_ne_jnull hCU₀t
  have hCU₁n : CU₁ ≠ jnull := jset_ne_jnull hCU₀n _ _
  have hrun : gwOps e a = some (a.jset "gateway" (G₄.jset "controlUi" CU₂)) := by
    rw [gwOps, jset2_some hgw hGn "port" (jnum 18789)]
    show (a.jset "gateway" G₁).jset2 "gateway" "mode" (jstr "local") >>= _ = _
    rw [jset2_some (hget G₁) hG₁n "mode" (jstr "local"),
      jset_jset_same a "gateway" G₁ G₂]
    show (a.jset "gateway" G₂).jset2 "gateway" "trustedProxies" _ >>= _ = _
    rw [jset2_some (hget G₂) hG₂n "trustedProxies" (jarr [jstr "10.1.0.0"] []),
      jset_jset_same a "gateway" G₂ G₃]
    show (a.jset "gateway" G₃).jset2 "gateway" "auth" (authValue e) >>= _ = _
    rw [jset2_some (hget G₃) hG₃n "auth" (authValue e),
      jset_jset_same a "gateway" G₃ G₄]
    show (a.jset "gateway" G₄).jsetDefault2 "gateway" "controlUi" >>= _ = _
    rw [jsetDefault2_some (hget G₄) hG₄n "controlUi",
      jset_jset_same a "gateway" G₄ (G₄.jset "controlUi" CU₀)]
    show ((a.jset "gateway" (G₄.jset "controlUi" CU₀)).jset3
      "gateway" "controlUi" "allowInsecureAuth" (jbool true)) >>= _ = _
    rw [jset3_some (hget (G₄.jset "controlUi" CU₀))
      (jset_ne_jnull hG₄n _ _)
      (jget_jset_same_container hG₄p hG₄n "controlUi" CU₀) hCU₀n
      "allowInsecureAuth" (jbool true)]
    rw [jset_jset_same G₄ "controlUi" CU₀ CU₁,
      jset_jset_same a "gateway" (G₄.jset "controlUi" CU₀)
        (G₄.jset "controlUi" CU₁)]
    show ((a.jset "gateway" (G₄.jset "controlUi" CU₁)).jset3 "gateway"
      "controlUi" "dangerouslyDisableDeviceAuth" (jbool true)) = _
    rw [jset3_some (hget (G₄.jset "controlUi" CU₁))
      (jset_ne_jnull hG₄n _ _)
      (jget_jset_same_container hG₄p hG₄n "controlUi" CU₁) hCU₁n
      "dangerouslyDisableDeviceAuth" (jbool true)]
    rw [jset_jset_same G₄ "controlUi" CU₁ CU₂,
      jset_jset_same a "gateway" (G₄.jset "controlUi" CU₁)
        (G₄.jset "controlUi" CU₂)]
  rw [hrun] at h
  have hs₁ : s₁ = a.jset "gateway" (G₄.jset "controlUi" CU₂) :=
    ((Option.some.injEq _ _).mp h).symm
  subst hs₁
  have hCuF : CuF CU₂ := by
    rcases hcu₀ : CU₀ with _ | b | n | t | ⟨el, pr⟩ | cfs
    · exact absurd hcu₀ hCU₀n
    · have h2 : CU₂ = jbool b := by rw [hCU₂, hCU₁, hcu₀]; rfl
      rw [h2]
      rw [hcu₀] at hCU₀t
      exact Or.inl ⟨rfl, hCU₀t⟩
    · have h2 : CU₂ = jnum n := by rw [hCU₂, hCU₁, hcu₀]; rfl
      rw [h2]
      rw [hcu₀] at hCU₀t
      exact Or.inl ⟨rfl, hCU₀t⟩
    · have h2 : CU₂ = jstr t := by rw [hCU₂, hCU₁, hcu₀]; rfl
      rw [h2]
      rw [hcu₀] at hCU₀t
      exact Or.inl ⟨rfl, hCU₀t⟩
    · have h2 : CU₂ = jarr el (setKV (setKV pr "allowInsecureAuth"
          (jbool true)) "dangerouslyDisableDeviceAuth" (jbool true)) := by
        rw [hCU₂, hCU₁, hcu₀]; rfl
      rw [h2]
      exact Or.inr (Or.inl ⟨el, _, rfl⟩)
    · have h2 : CU₂ = jobj (setKV (setKV cfs "allowInsecureAuth"
          (jbool true)) "dangerouslyDisableDeviceAuth" (jbool true)) := by
        rw [hCU₂, hCU₁, hcu₀]; rfl
      rw [h2]
      refine Or.inr (Or.inr ⟨⟨_, rfl⟩, ?_, ?_⟩)
      · show (((jobj cfs).jset "allowInsecureAuth" (jbool true)).jset
          "dangerouslyDisableDeviceAuth" (jbool true)).jget
          "allowInsecureAuth" = some (jbool true)
        rw [jget_jset_ne _ _ (by decide)]
        exact jget_jset_same_jobj _ _ _
      · show (((jobj cfs).jset "allowInsecureAuth" (jbool true)).jset
          "dangerouslyDisableDeviceAuth" (jbool true)).jget
          "dangerouslyDisableDeviceAuth" = some (jbool true)
        exact jget_jset_same_jobj _ _ _
  refine ⟨?_, ⟨G₄.jset "controlUi" CU₂, hget _, ?_⟩, ?_, ?_⟩
  · subst ha; exact ⟨_, rfl⟩
  · rcases hg₀ : G₀ with _ | b | n | t | ⟨el, pr⟩ | gfs
    · exact absurd hg₀ hGn
    · rw [hg₀] at hGp; simp [MJson.isPrim] at hGp
    · rw [hg₀] at hGp; simp [MJson.isPrim] at hGp
    · rw [hg₀] at hGp; simp [MJson.isPrim] at hGp
    · refine Or.inl ?_
      rw [hG₄, hG₃, hG₂, hG₁, hg₀]
      exact ⟨el, _, rfl⟩
    · refine Or.inr ⟨⟨_, by rw [hG₄, hG₃, hG₂, hG₁, hg₀]; rfl⟩,
        ?_, ?_, ?_, ?_, CU₂, ?_, hCuF⟩
      · rw [jget_jset_ne _ _ (by decide), hG₄, jget_jset_ne _ _ (by decide),
          hG₃, jget_jset_ne _ _ (by decide), hG₂,
          jget_jset_ne _ _ (by decide), hG₁]
        exact jget_jset_same_container hGp hGn _ _
      · rw [jget_jset_ne _ _ (by decide), hG₄, jget_jset_ne _ _ (by decide),
          hG₃, jget_jset_ne _ _ (by decide), hG₂]
        exact jget_jset_same_container hG₁p hG₁n _ _
      · rw [jget_jset_ne _ _ (by decide), hG₄, jget_jset_ne _ _ (by decide),
          hG₃]
        exact jget_jset_same_container hG₂p hG₂n _ _
      · rw [jget_jset_ne _ _ (by decide), hG₄]
        exact jget_jset_same_container hG₃p hG₃n _ _
      · exact jget_jset_same_container hG₄p hG₄n _ _
  · subst ha
    exact jget_jset_ne _ _ (by decide)
  · subst ha
    exact jget_jset_ne _ _ (by decide)

theorem truthy_jset {d : MJson} (hd : d.truthy = true) (k : String)
    (v : MJson) : (d.jset k v).truthy = true := by
  cases d <;> exact hd

theorem DfF0_write {D₀ : MJson} (ht : D₀.truthy = true) :
    DfF0 (D₀.jset "workspace" (jstr "/root/clawd")) := by
  cases D₀ with
  | jnull => simp [truthy] at ht
  | jbool b => exact Or.inl ⟨rfl, ht⟩
  | jnum n => exact Or.inl ⟨rfl, ht⟩
  | jstr t => exact Or.inl ⟨rfl, ht⟩
  | jarr el pr => exact Or.inr (Or.inl ⟨el, _, rfl⟩)
  | jobj dfs => exact Or.inr (Or.inr ⟨⟨_, rfl⟩, jget_jset_same_jobj _ _ _⟩)

theorem AF0_write {A₀ D₀ : MJson} (hp : A₀.isPrim = false) (hn : A₀ ≠ jnull)
    (hD : D₀.truthy = true) :
    AF0 (A₀.jset "defaults" (D₀.jset "workspace" (jstr "/root/clawd"))) := by
  cases A₀ with
  | jnull => exact absurd rfl hn
  | jbool b => simp [MJson.isPrim] at hp
  | jnum n => simp [MJson.isPrim] at hp
  | jstr t => simp [MJson.isPrim] at hp
  | jarr el pr => exact Or.inl ⟨el, _, rfl⟩
  | jobj afs =>
    exact Or.inr ⟨⟨_, rfl⟩, _, jget_jset_same_jobj _ _ _,
      truthy_jset hD _ _, DfF0_write hD⟩

/-- The agents fix followed by the gateway block, on a root state whose
`gateway`, `channels` and `agents` values are truthy. -/
theorem rootState_forward (e : PatchEnv) {r : MJson}
    {fsr : List (String × MJson)} (hr : r = jobj fsr)
    {G₀ C₀ A₀ : MJson} (hGt : G₀.truthy = true) (hCt : C₀.truthy = true)
    (hAt : A₀.truthy = true) {s₁ : MJson}
    (h : agentsOps (((r.jset "gateway" G₀).jset "channels" C₀).jset
        "agents" A₀) >>= gwOps e = some s₁) :
    (∃ fs₁, s₁ = jobj fs₁) ∧
    (∃ gv, s₁.jget "gateway" = some gv ∧ GF e gv) ∧
    (∃ av, s₁.jget "agents" = some av ∧ av.truthy = true ∧ AF0 av) ∧
    (∃ cv, s₁.jget "channels" = some cv ∧ cv.truthy = true) := by
  subst hr
  set r₃ := (((jobj fsr).jset "gateway" G₀).jset "channels" C₀).jset
    "agents" A₀ with hr₃
  have hag3 : r₃.jget "agents" = some A₀ := jget_jset_same_jobj _ _ _
  have hch3 : r₃.jget "channels" = some C₀ := by
    rw [hr₃, jget_jset_ne _ _ (by decide)]
    exact jget_jset_same_jobj _ _ _
  have hgw3 : r₃.jget "gateway" = some G₀ := by
    rw [hr₃, jget_jset_ne _ _ (by decide), jget_jset_ne _ _ (by decide)]
    exact jget_jset_same_jobj _ _ _
  cases hao : agentsOps r₃ with
  | none =>
    rw [hao] at h
    cases h
  | some a =>
  rw [hao] at h
  have hgwb : gwOps e a = some s₁ := h
  cases hjd : r₃.jsetDefault2 "agents" "defaults" with
  | none =>
    rw [agentsOps, hjd] at hao
    cases hao
  | some r₄ =>
  rw [agentsOps, hjd] at hao
  have h34 : r₄.jset3 "agents" "defaults" "workspace" (jstr "/root/clawd")
      = some a := hao
  obtain ⟨t, ht, htn, hr₄⟩ := jsetDefault2_eq_some hjd
  have htA : A₀ = t := by injection hag3.symm.trans ht
  subst htA
  set D₀ := jsOr (A₀.jget "defaults") (jobj []) with hD₀
  have hD₀t : D₀.truthy = true := jsOr_truthy_out _
  obtain ⟨t', u', ht', htn', hu', hun', ha'⟩ := jset3_eq_some h34
  have hr₄g : r₄.jget "agents" = some (A₀.jset "defaults" D₀) := by
    rw [hr₄]
    exact jget_jset_same_jobj _ _ _
  have ht'A : A₀.jset "defaults" D₀ = t' := by
    injection hr₄g.symm.trans ht'
  subst ht'A
  have hA₀p : A₀.isPrim = false := by
    by_contra hc
    have hc' : A₀.isPrim = true := by simpa using hc
    rw [jset_of_isPrim hc', jget_of_isPrim hc'] at hu'
    cases hu'
  have hA₀n : A₀ ≠ jnull := truthy_ne_jnull hAt
  have hDu : D₀ = u' := by
    injection (jget_jset_same_container hA₀p hA₀n "defaults" D₀).symm.trans hu'
  subst hDu
  rw [jset_jset_same A₀ "defaults" D₀
    (D₀.jset "workspace" (jstr "/root/clawd")), hr₄,
    jset_jset_same r₃ "agents" (A₀.jset "defaults" D₀)
      (A₀.jset "defaults" (D₀.jset "workspace" (jstr "/root/clawd")))] at ha'
  have haag : a.jget "agents" = some (A₀.jset "defaults"
      (D₀.jset "workspace" (jstr "/root/clawd"))) := by
    rw [ha']
    exact jget_jset_same_jobj _ _ _
  have hach : a.jget "channels" = some C₀ := by
    rw [ha', jget_jset_ne _ _ (by decide)]
    exact hch3
  have hagw : a.jget "gateway" = some G₀ := by
    rw [ha', jget_jset_ne _ _ (by decide)]
    exact hgw3
  have hafsa : a = jobj (setKV (setKV (setKV (setKV fsr "gateway" G₀)
      "channels" C₀) "agents" A₀) "agents" (A₀.jset "defaults"
      (D₀.jset "workspace" (jstr "/root/clawd")))) := by
    rw [ha', hr₃]
    rfl
  obtain ⟨hfs₁, hgv, hfrag, hfrch⟩ := gwOps_forward e hafsa hagw hGt hgwb
  refine ⟨hfs₁, hgv, ?_, ?_⟩
  · refine ⟨A₀.jset "defaults" (D₀.jset "workspace" (jstr "/root/clawd")),
      hfrag.trans haag, truthy_jset_of_container hA₀p hA₀n _ _,
      AF0_write hA₀p hA₀n hD₀t⟩
  · exact ⟨C₀, hfrch.trans hach, hCt⟩

/-- Forward facts established by the base steps on an object document. -/
theorem baseSteps_forward (e : PatchEnv) {fs : List (String × MJson)}
    {s₁ : MJson} (h : baseSteps e (jobj fs) = some s₁) :
    (∃ fs₁, s₁ = jobj fs₁) ∧
    (∃ gv, s₁.jget "gateway" = some gv ∧ GF e gv) ∧
    (∃ av, s₁.jget "agents" = some av ∧ av.truthy = true ∧ AF0 av) ∧
    (∃ cv, s₁.jget "channels" = some cv ∧ cv.truthy = true) :=
  rootState_forward e rfl (jsOr_truthy_out _) (jsOr_truthy_out _)
    (jsOr_truthy_out _) h

theorem AF1_of_AF0 (e : PatchEnv) {av : MJson} (hAF : AF0 av)
    (hna : ¬ModelActive e) : AF1 e av := by
  rcases hAF with harr | ⟨hobj, df, hdf, hdft, hdfF⟩
  · exact Or.inl harr
  · refine Or.inr ⟨hobj, df, hdf, hdft, ?_⟩
    rcases hdfF with hp | harr | ⟨hobj', hws⟩
    · exact Or.inl hp
    · exact Or.inr (Or.inl harr)
    · exact Or.inr (Or.inr ⟨hobj', hws, fun hact => absurd hact hna⟩)

theorem MF_write (e : PatchEnv) {M₀ P₀ : MJson} (hp : M₀.isPrim = false)
    (hn : M₀ ≠ jnull) (hPt : P₀.truthy = true) :
    MF e (M₀.jset "providers" (P₀.jset (providerNameOf e)
      (providerValue e))) := by
  cases M₀ with
  | jnull => exact absurd rfl hn
  | jbool b => simp [MJson.isPrim] at hp
  | jnum n => simp [MJson.isPrim] at hp
  | jstr t => simp [MJson.isPrim] at hp
  | jarr el pr => exact Or.inl ⟨el, _, rfl⟩
  | jobj mfs =>
    refine Or.inr ⟨⟨_, rfl⟩, P₀.jset (providerNameOf e) (providerValue e),
      jget_jset_same_jobj _ _ _, ?_⟩
    cases P₀ with
    | jnull => simp [truthy] at hPt
    | jbool b => exact Or.inl ⟨rfl, hPt⟩
    | jnum n => exact Or.inl ⟨rfl, hPt⟩
    | jstr t => exact Or.inl ⟨rfl, hPt⟩
    | jarr el pr => exact Or.inr (Or.inl ⟨el, _, rfl⟩)
    | jobj pfs => exact Or.inr (Or.inr ⟨⟨_, rfl⟩, jget_jset_same_jobj _ _ _⟩)

theorem DfF1_write (e : PatchEnv) {df : MJson} (ht : df.truthy = true)
    (h0 : DfF0 df) : DfF1 e (df.jset "model" (modelValue e)) := by
  rcases h0 with ⟨hp, -⟩ | ⟨el, pr, rfl⟩ | ⟨⟨dfs, rfl⟩, hws⟩
  · rw [jset_of_isPrim hp]
    exact Or.inl ⟨hp, ht⟩
  · exact Or.inr (Or.inl ⟨el, _, rfl⟩)
  · refine Or.inr (Or.inr ⟨⟨_, rfl⟩, ?_, fun _ => jget_jset_same_jobj _ _ _⟩)
    rw [jget_jset_ne _ _ (by decide)]
    exact hws

/-- The model override block: forward facts. -/
theorem modelOverrideStep_forward (e : PatchEnv) {s s₂ : MJson}
    {fs₁ : List (String × MJson)} (hs : s = jobj fs₁)
    {av : MJson} (hag : s.jget "agents" = some av) (havt : av.truthy = true)
    (hAF : AF0 av)
    (h : modelOverrideStep e s = some s₂) :
    (∃ fs₂, s₂ = jobj fs₂) ∧
    s₂.jget "gateway" = s.jget "gateway" ∧
    s₂.jget "channels" = s.jget "channels" ∧
    (∃ av₂, s₂.jget "agents" = some av₂ ∧ av₂.truthy = true ∧ AF1 e av₂) ∧
    (ModelActive e → ∃ mv, s₂.jget "models" = some mv ∧ MF e mv) := by
  rw [modelOverrideStep] at h
  cases hcf : envTruthy e.CF_AI_GATEWAY_MODEL with
  | false =>
    rw [hcf] at h
    simp at h
    have hna : ¬ModelActive e := fun hact => by
      rw [hact.1] at hcf
      cases hcf
    subst h
    exact ⟨⟨fs₁, hs⟩, rfl, rfl,
      ⟨av, hag, havt, AF1_of_AF0 e hAF hna⟩, fun hact => absurd hact hna⟩
  | true =>
  rw [hcf] at h
  simp only [if_true] at h
  cases hbu : modelOverrideBaseUrl e (gwProviderOf (modelRaw e)) with
  | none =>
    rw [hbu] at h
    have hna : ¬ModelActive e := fun hact => by
      have h21 := hact.2.1
      rw [hbu] at h21
      simp at h21
    have h2 : s = s₂ := (Option.some.injEq _ _).mp h
    subst h2
    exact ⟨⟨fs₁, hs⟩, rfl, rfl,
      ⟨av, hag, havt, AF1_of_AF0 e hAF hna⟩, fun hact => absurd hact hna⟩
  | some bu =>
  rw [hbu] at h
  cases hkey : envTruthy e.CLOUDFLARE_AI_GATEWAY_API_KEY with
  | false =>
    rw [hkey] at h
    have hna : ¬ModelActive e := fun hact => by
      rw [hact.2.2] at hkey
      cases hkey
    have h2 : s = s₂ := (Option.some.injEq _ _).mp h
    subst h2
    exact ⟨⟨fs₁, hs⟩, rfl, rfl,
      ⟨av, hag, havt, AF1_of_AF0 e hAF hna⟩, fun hact => absurd hact hna⟩
  | true =>
  rw [hkey] at h
  have hact : ModelActive e := ⟨hcf, by rw [hbu]; rfl, hkey⟩
  have hPB : providerBlock bu (e.CLOUDFLARE_AI_GATEWAY_API_KEY.getD "")
      (apiOf e) (modelIdOf (modelRaw e)) = providerValue e := by
    rw [providerValue, hbu]
    rfl
  have hb : modelModelsOps e bu s >>= modelAgentsOps e = some s₂ := h
  cases hmm : modelModelsOps e bu s with
  | none =>
    rw [hmm] at hb
    cases hb
  | some m =>
  rw [hmm] at hb
  have hma : modelAgentsOps e m = some s₂ := hb
  -- invert the models half
  set M₀ := jsOr (s.jget "models") (jobj []) with hM₀
  have hM₀t : M₀.truthy = true := jsOr_truthy_out _
  have hM₀n : M₀ ≠ jnull := truthy_ne_jnull hM₀t
  have hmm' : ((s.jset "models" M₀).jsetDefault2 "models" "providers" >>=
      fun c => c.jset3 "models" "providers" (providerNameOf e)
        (providerBlock bu (e.CLOUDFLARE_AI_GATEWAY_API_KEY.getD "")
          (apiOf e) (modelIdOf (modelRaw e)))) = some m := hmm
  cases hjd : (s.jset "models" M₀).jsetDefault2 "models" "providers" with
  | none =>
    rw [hjd] at hmm'
    cases hmm'
  | some m₄ =>
  rw [hjd] at hmm'
  have h34 : m₄.jset3 "models" "providers" (providerNameOf e)
      (providerBlock bu (e.CLOUDFLARE_AI_GATEWAY_API_KEY.getD "")
        (apiOf e) (modelIdOf (modelRaw e))) = some m := hmm'
  obtain ⟨t, ht, htn, hm₄⟩ := jsetDefault2_eq_some hjd
  have hgetM : (s.jset "models" M₀).jget "models" = some M₀ := by
    subst hs; exact jget_jset_same_jobj _ _ _
  have htM : M₀ = t := by injection hgetM.symm.trans ht
  subst htM
  set P₀ := jsOr (M₀.jget "providers") (jobj []) with hP₀
  have hP₀t : P₀.truthy = true := jsOr_truthy_out _
  rw [jset_jset_same s "models" M₀ (M₀.jset "providers" P₀)] at hm₄
  obtain ⟨t', u', ht', htn', hu', hun', hm'⟩ := jset3_eq_some h34
  have hgetM1 : m₄.jget "models" = some (M₀.jset "providers" P₀) := by
    rw [hm₄]
    subst hs; exact jget_jset_same_jobj _ _ _
  have ht'M : M₀.jset "providers" P₀ = t' := by
    injection hgetM1.symm.trans ht'
  subst ht'M
  have hM₀p : M₀.isPrim = false := by
    by_contra hc
    have hc' : M₀.isPrim = true := by simpa using hc
    rw [jset_of_isPrim hc', jget_of_isPrim hc'] at hu'
    cases hu'
  have hPu : P₀ = u' := by
    injection (jget_jset_same_container hM₀p hM₀n "providers" P₀).symm.trans hu'
  subst hPu
  rw [hm₄, jset_jset_same M₀ "providers" P₀ (P₀.jset (providerNameOf e) _),
    jset_jset_same s "models" (M₀.jset "providers" P₀)
      (M₀.jset "providers" (P₀.jset (providerNameOf e) _)), hPB] at hm'
  -- facts about the state after the models half
  have hmobj : m = jobj (setKV fs₁ "models" (M₀.jset "providers"
      (P₀.jset (providerNameOf e) (providerValue e)))) := by
    rw [hm', hs]
    rfl
  have hmag : m.jget "agents" = some av := by
    rw [hm', jget_jset_ne _ _ (by decide)]
    exact hag
  have hmMF : m.jget "models" = some (M₀.jset "providers"
      (P₀.jset (providerNameOf e) (providerValue e))) := by
    rw [hm']
    subst hs; exact jget_jset_same_jobj _ _ _
  -- invert the agents half
  have hma' : ((m.jset "agents" (jsOr (m.jget "agents") (jobj []))).jsetDefault2
      "agents" "defaults" >>= fun c => c.jset3 "agents" "defaults" "model"
        (modelValue e)) = some s₂ := hma
  rw [hmag, jsOr_truthy havt] at hma'
  cases hjd₂ : (m.jset "agents" av).jsetDefault2 "agents" "defaults" with
  | none =>
    rw [hjd₂] at hma'
    cases hma'
  | some r₅ =>
  rw [hjd₂] at hma'
  have h34₂ : r₅.jset3 "agents" "defaults" "model" (modelValue e)
      = some s₂ := hma'
  obtain ⟨t₂, ht₂, htn₂, hr₅⟩ := jsetDefault2_eq_some hjd₂
  have hgetA : (m.jset "agents" av).jget "agents" = some av := by
    rw [hmobj]; exact jget_jset_same_jobj _ _ _
  have ht₂A : av = t₂ := by injection hgetA.symm.trans ht₂
  subst ht₂A
  set D₁ := jsOr (av.jget "defaults") (jobj []) with hD₁
  rw [jset_jset_same m "agents" av (av.jset "defaults" D₁)] at hr₅
  obtain ⟨t₃, u₃, ht₃, htn₃, hu₃, hun₃, hs₂'⟩ := jset3_eq_some h34₂
  have hgetA1 : r₅.jget "agents" = some (av.jset "defaults" D₁) := by
    rw [hr₅, hmobj]
    exact jget_jset_same_jobj _ _ _
  have ht₃A : av.jset "defaults" D₁ = t₃ := by
    injection hgetA1.symm.trans ht₃
  subst ht₃A
  have havp : av.isPrim = false := by
    rcases hAF with ⟨el, pr, rfl⟩ | ⟨⟨afs, rfl⟩, -⟩ <;> rfl
  have havn : av ≠ jnull := truthy_ne_jnull havt
  have hDu : D₁ = u₃ := by
    injection (jget_jset_same_container havp havn "defaults" D₁).symm.trans hu₃
  subst hDu
  rw [hr₅, jset_jset_same av "defaults" D₁ (D₁.jset "model" (modelValue e)),
    jset_jset_same m "agents" (av.jset "defaults" D₁)
      (av.jset "defaults" (D₁.jset "model" (modelValue e)))] at hs₂'
  -- final facts
  refine ⟨?_, ?_, ?_, ?_, ?_⟩
  · rw [hs₂', hmobj]
    exact ⟨_, rfl⟩
  · rw [hs₂', jget_jset_ne _ _ (by decide), hm',
      jget_jset_ne _ _ (by decide)]
  · rw [hs₂', jget_jset_ne _ _ (by decide), hm',
      jget_jset_ne _ _ (by decide)]
  · refine ⟨av.jset "defaults" (D₁.jset "model" (modelValue e)), ?_,
      truthy_jset_of_container havp havn _ _, ?_⟩
    · rw [hs₂', hmobj]
      exact jget_jset_same_jobj _ _ _
    · rcases hAF with ⟨el, pr, rfl⟩ | ⟨⟨afs, havo⟩, df, hdf, hdft, hdfF⟩
      · exact Or.inl ⟨el, _, rfl⟩
      · have hD₁df : D₁ = df := by rw [hD₁, hdf, jsOr_truthy hdft]
        subst hD₁df
        refine Or.inr ⟨⟨_, by rw [havo]; rfl⟩, D₁.jset "model" (modelValue e),
          ?_, truthy_jset hdft _ _, DfF1_write e hdft hdfF⟩
        rw [havo]
        exact jget_jset_same_jobj _ _ _
  · intro _
    refine ⟨M₀.jset "providers" (P₀.jset (providerNameOf e)
      (providerValue e)), ?_, MF_write e hM₀p hM₀n hP₀t⟩
    rw [hs₂', jget_jset_ne _ _ (by decide)]
    exact hmMF

theorem CF1_of_inactive (e : PatchEnv) {cv : MJson} (ht : cv.truthy = true)
    (hn : ¬TgOn e) : CF1 e cv := by
  cases cv with
  | jnull => simp [truthy] at ht
  | jbool b => exact Or.inl ⟨rfl, ht, fun hc => hn hc.1⟩
  | jnum n => exact Or.inl ⟨rfl, ht, fun hc => hn hc.1⟩
  | jstr t => exact Or.inl ⟨rfl, ht, fun hc => hn hc.1⟩
  | jarr el pr => exact Or.inr (Or.inl ⟨el, _, rfl⟩)
  | jobj cfs =>
    exact Or.inr (Or.inr ⟨⟨_, rfl⟩, fun h1 => absurd h1 hn⟩)

/-- The Telegram block: forward facts. -/
theorem telegramStep_forward (e : PatchEnv) {s s₃ : MJson}
    {fs₂ : List (String × MJson)} (hs : s = jobj fs₂)
    {cv : MJson} (hch : s.jget "channels" = some cv) (hcvt : cv.truthy = true)
    (h : telegramStep e s = some s₃) :
    (∃ fs₃, s₃ = jobj fs₃) ∧
    s₃.jget "gateway" = s.jget "gateway" ∧
    s₃.jget "agents" = s.jget "agents" ∧
    s₃.jget "models" = s.jget "models" ∧
    (∃ cv₃, s₃.jget "channels" = some cv₃ ∧ cv₃.truthy = true ∧
      CF1 e cv₃) := by
  have hcvn : cv ≠ jnull := truthy_ne_jnull hcvt
  rw [telegramStep] at h
  cases htg : envTruthy e.TELEGRAM_BOT_TOKEN with
  | false =>
    rw [htg] at h
    simp at h
    subst h
    have hntg : ¬TgOn e := fun h1 => by rw [h1] at htg; cases htg
    exact ⟨⟨fs₂, hs⟩, rfl, rfl, rfl, cv, hch, hcvt,
      CF1_of_inactive e hcvt hntg⟩
  | true =>
  rw [htg] at h
  simp only [if_true] at h
  cases hj2 : s.jset2 "channels" "telegram" (telegramBase e) with
  | none =>
    rw [hj2] at h
    cases h
  | some c₁ =>
  rw [hj2] at h
  obtain ⟨t, ht, htn, hc₁⟩ := jset2_eq_some hj2
  have htcv : cv = t := by injection hch.symm.trans ht
  subst htcv
  have h' : (match telegramAllowFrom e with
    | some ids => c₁.jset3 "channels" "telegram" "allowFrom"
        (jarr (ids.map jstr) [])
    | none => pure c₁) = some s₃ := h
  have hgetc : c₁.jget "channels" = some (cv.jset "telegram"
      (telegramBase e)) := by
    rw [hc₁]
    subst hs; exact jget_jset_same_jobj _ _ _
  cases haf : telegramAllowFrom e with
  | none =>
    rw [haf] at h'
    have hs₃ : s₃ = c₁ := ((Option.some.injEq _ _).mp h').symm
    subst hs₃
    have hTV : telegramValue e = telegramBase e := by
      rw [telegramValue, haf]
    refine ⟨⟨_, by rw [hc₁, hs]; rfl⟩, ?_, ?_, ?_,
      cv.jset "telegram" (telegramBase e), hgetc, truthy_jset hcvt _ _, ?_⟩
    · rw [hc₁, jget_jset_ne _ _ (by decide)]
    · rw [hc₁, jget_jset_ne _ _ (by decide)]
    · rw [hc₁, jget_jset_ne _ _ (by decide)]
    · cases cv with
      | jnull => exact absurd rfl hcvn
      | jbool b => exact Or.inl ⟨rfl, hcvt, fun hc => by
          rw [haf] at hc; cases hc.2⟩
      | jnum n => exact Or.inl ⟨rfl, hcvt, fun hc => by
          rw [haf] at hc; cases hc.2⟩
      | jstr t0 => exact Or.inl ⟨rfl, hcvt, fun hc => by
          rw [haf] at hc; cases hc.2⟩
      | jarr el pr => exact Or.inr (Or.inl ⟨el, _, rfl⟩)
      | jobj cfs =>
        refine Or.inr (Or.inr ⟨⟨_, rfl⟩, fun _ => ?_⟩)
        rw [hTV]
        exact jget_jset_same_jobj _ _ _
  | some ids =>
    rw [haf] at h'
    have h'' : c₁.jset3 "channels" "telegram" "allowFrom"
        (jarr (ids.map jstr) []) = some s₃ := h'
    obtain ⟨t', u', ht', htn', hu', hun', hs₃'⟩ := jset3_eq_some h''
    have ht'c : cv.jset "telegram" (telegramBase e) = t' := by
      injection hgetc.symm.trans ht'
    subst ht'c
    have hcvp : cv.isPrim = false := by
      by_contra hc
      have hc' : cv.isPrim = true := by simpa using hc
      rw [jset_of_isPrim hc', jget_of_isPrim hc'] at hu'
      cases hu'
    have hu'' : telegramBase e = u' := by
      injection (jget_jset_same_container hcvp hcvn "telegram"
        (telegramBase e)).symm.trans hu'
    subst hu''
    have hTV : telegramValue e = (telegramBase e).jset "allowFrom"
        (jarr (ids.map jstr) []) := by
      rw [telegramValue, haf]
    rw [jset_jset_same cv "telegram" (telegramBase e)
        ((telegramBase e).jset "allowFrom" (jarr (ids.map jstr) [])), hc₁,
      jset_jset_same s "channels" (cv.jset "telegram" (telegramBase e))
        (cv.jset "telegram" ((telegramBase e).jset "allowFrom"
          (jarr (ids.map jstr) [])))] at hs₃'
    rw [← hTV] at hs₃'
    refine ⟨⟨_, by rw [hs₃', hs]; rfl⟩, ?_, ?_, ?_,
      cv.jset "telegram" (telegramValue e), ?_, truthy_jset hcvt _ _, ?_⟩
    · rw [hs₃', jget_jset_ne _ _ (by decide)]
    · rw [hs₃', jget_jset_ne _ _ (by decide)]
    · rw [hs₃', jget_jset_ne _ _ (by decide)]
    · rw [hs₃']
      subst hs; exact jget_jset_same_jobj _ _ _
    · cases cv with
      | jnull => exact absurd rfl hcvn
      | jbool b => simp [MJson.isPrim] at hcvp
      | jnum n => simp [MJson.isPrim] at hcvp
      | jstr t0 => simp [MJson.isPrim] at hcvp
      | jarr el pr => exact Or.inr (Or.inl ⟨el, _, rfl⟩)
      | jobj cfs =>
        exact Or.inr (Or.inr ⟨⟨_, rfl⟩,
          fun _ => jget_jset_same_jobj _ _ _⟩)

/-- The Discord block: forward facts. -/
theorem discordStep_forward (e : PatchEnv) {s s₄ : MJson}
    {fs₃ : List (String × MJson)} (hs : s = jobj fs₃)
    {cv : MJson} (hch : s.jget "channels" = some cv) (hcvt : cv.truthy = true)
    (hcf : CF1 e cv)
    (h : discordStep e s = some s₄) :
    (∃ fs₄, s₄ = jobj fs₄) ∧
    s₄.jget "gateway" = s.jget "gateway" ∧
    s₄.jget "agents" = s.jget "agents" ∧
    s₄.jget "models" = s.jget "models" ∧
    (∃ cv₄, s₄.jget "channels" = some cv₄ ∧ cv₄.truthy = true ∧
      CF2 e cv₄) := by
  have hcvn : cv ≠ jnull := truthy_ne_jnull hcvt
  rw [discordStep] at h
  cases hdc : envTruthy e.DISCORD_BOT_TOKEN with
  | false =>
    rw [hdc] at h
    simp at h
    subst h
    have hndc : ¬DcOn e := fun h1 => by rw [h1] at hdc; cases hdc
    refine ⟨⟨fs₃, hs⟩, rfl, rfl, rfl, cv, hch, hcvt, ?_⟩
    rcases hcf with hp | harr | ⟨hobj, htg'⟩
    · exact Or.inl hp
    · exact Or.inr (Or.inl harr)
    · exact Or.inr (Or.inr ⟨hobj, htg', fun h1 => absurd h1 hndc⟩)
  | true =>
  rw [hdc] at h
  simp only [if_true] at h
  obtain ⟨t, ht, htn, hs₄⟩ := jset2_eq_some h
  have htcv : cv = t := by injection hch.symm.trans ht
  subst htcv
  refine ⟨⟨_, by rw [hs₄, hs]; rfl⟩, ?_, ?_, ?_,
    cv.jset "discord" (discordValue e), ?_, truthy_jset hcvt _ _, ?_⟩
  · rw [hs₄, jget_jset_ne _ _ (by decide)]
  · rw [hs₄, jget_jset_ne _ _ (by decide)]
  · rw [hs₄, jget_jset_ne _ _ (by decide)]
  · rw [hs₄]
    subst hs; exact jget_jset_same_jobj _ _ _
  · rcases hcf with ⟨hp, hpt, hcond⟩ | ⟨el, pr, rfl⟩ | ⟨⟨cfs, rfl⟩, htg'⟩
    · rw [jset_of_isPrim hp]
      exact Or.inl ⟨hp, hpt, hcond⟩
    · exact Or.inr (Or.inl ⟨el, _, rfl⟩)
    · refine Or.inr (Or.inr ⟨⟨_, rfl⟩, ?_, fun _ =>
        jget_jset_same_jobj _ _ _⟩)
      intro h1
      rw [jget_jset_ne _ _ (by decide)]
      exact htg' h1

/-- The Slack block: forward facts. -/
theorem slackStep_forward (e : PatchEnv) {s s₅ : MJson}
    {fs₄ : List (String × MJson)} (hs : s = jobj fs₄)
    {cv : MJson} (hch : s.jget "channels" = some cv) (hcvt : cv.truthy = true)
    (hcf : CF2 e cv)
    (h : slackStep e s = some s₅) :
    (∃ fs₅, s₅ = jobj fs₅) ∧
    s₅.jget "gateway" = s.jget "gateway" ∧
    s₅.jget "agents" = s.jget "agents" ∧
    s₅.jget "models" = s.jget "models" ∧
    (∃ cv₅, s₅.jget "channels" = some cv₅ ∧ cv₅.truthy = true ∧
      CF3 e cv₅) := by
  have hcvn : cv ≠ jnull := truthy_ne_jnull hcvt
  rw [slackStep] at h
  cases hsl : envTruthy e.SLACK_BOT_TOKEN && envTruthy e.SLACK_APP_TOKEN with
  | false =>
    rw [hsl] at h
    simp at h
    subst h
    have hnsl : ¬SlOn e := fun h1 => by rw [h1] at hsl; cases hsl
    refine ⟨⟨fs₄, hs⟩, rfl, rfl, rfl, cv, hch, hcvt, ?_⟩
    rcases hcf with hp | harr | ⟨hobj, htg', hdc'⟩
    · exact Or.inl hp
    · exact Or.inr (Or.inl harr)
    · exact Or.inr (Or.inr ⟨hobj, htg', hdc', fun h1 => absurd h1 hnsl⟩)
  | true =>
  rw [hsl] at h
  simp only [if_true] at h
  obtain ⟨t, ht, htn, hs₅⟩ := jset2_eq_some h
  have htcv : cv = t := by injection hch.symm.trans ht
  subst htcv
  refine ⟨⟨_, by rw [hs₅, hs]; rfl⟩, ?_, ?_, ?_,
    cv.jset "slack" (slackValue e), ?_, truthy_jset hcvt _ _, ?_⟩
  · rw [hs₅, jget_jset_ne _ _ (by decide)]
  · rw [hs₅, jget_jset_ne _ _ (by decide)]
  · rw [hs₅, jget_jset_ne _ _ (by decide)]
  · rw [hs₅]
    subst hs; exact jget_jset_same_jobj _ _ _
  · rcases hcf with ⟨hp, hpt, hcond⟩ | ⟨el, pr, rfl⟩ | ⟨⟨cfs, rfl⟩, htg', hdc'⟩
    · rw [jset_of_isPrim hp]
      exact Or.inl ⟨hp, hpt, hcond⟩
    · exact Or.inr (Or.inl ⟨el, _, rfl⟩)
    · refine Or.inr (Or.inr ⟨⟨_, rfl⟩, ?_, ?_, fun _ =>
        jget_jset_same_jobj _ _ _⟩)
      · intro h1
        rw [jget_jset_ne _ _ (by decide)]
        exact htg' h1
      · intro h1
        rw [jget_jset_ne _ _ (by decide)]
        exact hdc' h1

/-- The running-state facts at the end of the script body transfer to the
`Patched` invariant of the written-out (stringified) document. -/
theorem patched_of_forward (e : PatchEnv) {s : MJson}
    {fs : List (String × MJson)} (hs : s = jobj fs)
    (hg : ∃ gv, s.jget "gateway" = some gv ∧ GF e gv)
    (ha : ∃ av, s.jget "agents" = some av ∧ av.truthy = true ∧ AF1 e av)
    (hm : ModelActive e → ∃ mv, s.jget "models" = some mv ∧ MF e mv)
    (hc : ∃ cv, s.jget "channels" = some cv ∧ cv.truthy = true ∧ CF3 e cv) :
    Patched e (stringify s) := by
  subst hs
  obtain ⟨gv, hgv, hGF⟩ := hg
  obtain ⟨av, hav, havt, hAF⟩ := ha
  obtain ⟨cv, hcv, hcvt, hCF⟩ := hc
  refine ⟨stringify_stringify _, Or.inr ⟨⟨_, stringify_jobj fs⟩,
    ?_, ?_, ?_, ?_⟩⟩
  · refine ⟨stringify gv, jget_stringify_some hgv, ?_⟩
    rcases hGF with ⟨el, pr, rfl⟩ |
      ⟨⟨gfs, hgo⟩, hport, hmode, htp, hauth, cu, hcu, hCuF⟩
    · rw [stringify_jarr]
      exact Or.inl ⟨_, rfl⟩
    · subst hgo
      refine Or.inr ⟨⟨_, stringify_jobj gfs⟩,
        (jget_stringify_some hport).trans (by rw [stringify_jnum]),
        (jget_stringify_some hmode).trans (by rw [stringify_jstr]),
        (jget_stringify_some htp).trans
          (by rw [stringify_jarr]; simp [stringify_jstr]),
        (jget_stringify_some hauth).trans (by rw [stringify_authValue]),
        stringify cu, jget_stringify_some hcu, ?_⟩
      rcases hCuF with ⟨hp, ht⟩ | ⟨el, pr, rfl⟩ | ⟨⟨cfs, hco⟩, hal, hdg⟩
      · rw [stringify_of_isPrim hp]
        exact Or.inl ⟨hp, ht⟩
      · rw [stringify_jarr]
        exact Or.inr (Or.inl ⟨_, rfl⟩)
      · subst hco
        exact Or.inr (Or.inr ⟨⟨_, stringify_jobj cfs⟩,
          (jget_stringify_some hal).trans (by rw [stringify_jbool]),
          (jget_stringify_some hdg).trans (by rw [stringify_jbool])⟩)
  · refine ⟨stringify av, jget_stringify_some hav, ?_⟩
    rcases hAF with ⟨el, pr, rfl⟩ | ⟨⟨afs, hao⟩, df, hdf, hdft, hDfF⟩
    · rw [stringify_jarr]
      exact Or.inl ⟨_, rfl⟩
    · subst hao
      refine Or.inr ⟨⟨_, stringify_jobj afs⟩, stringify df,
        jget_stringify_some hdf, ?_⟩
      rcases hDfF with ⟨hp, ht⟩ | ⟨el, pr, rfl⟩ | ⟨⟨dfs, hdo⟩, hws, hmd⟩
      · rw [stringify_of_isPrim hp]
        exact Or.inl ⟨hp, ht⟩
      · rw [stringify_jarr]
        exact Or.inr (Or.inl ⟨_, rfl⟩)
      · subst hdo
        refine Or.inr (Or.inr ⟨⟨_, stringify_jobj dfs⟩,
          (jget_stringify_some hws).trans (by rw [stringify_jstr]),
          fun hact => (jget_stringify_some (hmd hact)).trans
            (by rw [stringify_modelValue])⟩)
  · refine ⟨stringify cv, jget_stringify_some hcv, ?_⟩
    rcases hCF with ⟨hp, ht, hcond⟩ | ⟨el, pr, rfl⟩ |
      ⟨⟨cfs, hco⟩, htg, hdc, hsl⟩
    · rw [stringify_of_isPrim hp]
      exact Or.inl ⟨hp, ht, hcond⟩
    · rw [stringify_jarr]
      exact Or.inr (Or.inl ⟨_, rfl⟩)
    · subst hco
      exact Or.inr (Or.inr ⟨⟨_, stringify_jobj cfs⟩,
        fun h1 => (jget_stringify_some (htg h1)).trans
          (by rw [stringify_telegramValue]),
        fun h1 => (jget_stringify_some (hdc h1)).trans
          (by rw [stringify_discordValue]),
        fun h1 => (jget_stringify_some (hsl h1)).trans
          (by rw [stringify_slackValue])⟩)
  · intro hact
    obtain ⟨mv, hmv, hMF⟩ := hm hact
    refine ⟨stringify mv, jget_stringify_some hmv, ?_⟩
    rcases hMF with ⟨el, pr, rfl⟩ | ⟨⟨mfs, hmo⟩, pv, hpv, hPF⟩
    · rw [stringify_jarr]
      exact Or.inl ⟨_, rfl⟩
    · subst hmo
      refine Or.inr ⟨⟨_, stringify_jobj mfs⟩, stringify pv,
        jget_stringify_some hpv, ?_⟩
      rcases hPF with ⟨hp, ht⟩ | ⟨el, pr, rfl⟩ | ⟨⟨pfs, hpo⟩, hpn⟩
      · rw [stringify_of_isPrim hp]
        exact Or.inl ⟨hp, ht⟩
      · rw [stringify_jarr]
        exact Or.inr (Or.inl ⟨_, rfl⟩)
      · subst hpo
        exact Or.inr (Or.inr ⟨⟨_, stringify_jobj pfs⟩,
          (jget_stringify_some hpn).trans (by rw [stringify_providerValue])⟩)

/-- Success of the script body on any document yields a `Patched` written
document: the forward direction of idempotence. -/
theorem patchScript_forward (e : PatchEnv) {d c : MJson}
    (h : patchScript e d = some c) : Patched e (stringify c) := by
  cases d with
  | jnull =>
    have hn : patchScript e jnull = none := rfl
    rw [hn] at h
    cases h
  | jbool b =>
    have hn : patchScript e (jbool b) = none := rfl
    rw [hn] at h
    cases h
  | jnum n =>
    have hn : patchScript e (jnum n) = none := rfl
    rw [hn] at h
    cases h
  | jstr t =>
    have hn : patchScript e (jstr t) = none := rfl
    rw [hn] at h
    cases h
  | jarr el P =>
    rw [arrSim_patchScript e el P] at h
    cases h0 : patchScript e (jobj P) with
    | none =>
      rw [h0] at h
      cases h
    | some c₀ =>
      rw [h0] at h
      obtain ⟨Q, hQ⟩ := objShape_patchScript e P c₀ h0
      subst hQ
      have h' : some (jarr el Q) = some c := h
      have hc : c = jarr el Q := ((Option.some.injEq _ _).mp h').symm
      subst hc
      exact ⟨stringify_stringify _, Or.inl ⟨_, stringify_jarr _ _⟩⟩
  | jobj fs =>
    have hb : (baseSteps e (jobj fs) >>= fun c => modelOverrideStep e c >>=
        fun c => telegramStep e c >>= fun c => discordStep e c >>=
        slackStep e) = some c := h
    cases h1 : baseSteps e (jobj fs) with
    | none =>
      rw [h1] at hb
      cases hb
    | some s₁ =>
    rw [h1] at hb
    obtain ⟨⟨fs₁, hs₁⟩, ⟨gv, hgv, hGF⟩, ⟨av, hav, havt, hAF⟩,
      ⟨cv, hcv, hcvt⟩⟩ := baseSteps_forward e h1
    have hb2 : (modelOverrideStep e s₁ >>= fun c => telegramStep e c >>=
        fun c => discordStep e c >>= slackStep e) = some c := hb
    cases h2 : modelOverrideStep e s₁ with
    | none =>
      rw [h2] at hb2
      cases hb2
    | some s₂ =>
    rw [h2] at hb2
    obtain ⟨⟨fs₂, hs₂⟩, hfg₂, hfc₂, ⟨av₂, hav₂, hav₂t, hAF₂⟩, hmod₂⟩ :=
      modelOverrideStep_forward e hs₁ hav havt hAF h2
    have hb3 : (telegramStep e s₂ >>= fun c => discordStep e c >>=
        slackStep e) = some c := hb2
    cases h3 : telegramStep e s₂ with
    | none =>
      rw [h3] at hb3
      cases hb3
    | some s₃ =>
    rw [h3] at hb3
    obtain ⟨⟨fs₃, hs₃⟩, hfg₃, hfa₃, hfm₃, ⟨cv₃, hcv₃, hcv₃t, hCF₁⟩⟩ :=
      telegramStep_forward e hs₂ (hfc₂.trans hcv) hcvt h3
    have hb4 : (discordStep e s₃ >>= slackStep e) = some c := hb3
    cases h4 : discordStep e s₃ with
    | none =>
      rw [h4] at hb4
      cases hb4
    | some s₄ =>
    rw [h4] at hb4
    obtain ⟨⟨fs₄, hs₄⟩, hfg₄, hfa₄, hfm₄, ⟨cv₄, hcv₄, hcv₄t, hCF₂⟩⟩ :=
      discordStep_forward e hs₃ hcv₃ hcv₃t hCF₁ h4
    have h5 : slackStep e s₄ = some c := hb4
    obtain ⟨⟨fs₅, hs₅⟩, hfg₅, hfa₅, hfm₅, ⟨cv₅, hcv₅, hcv₅t, hCF₃⟩⟩ :=
      slackStep_forward e hs₄ hcv₄ hcv₄t hCF₂ h5
    refine patched_of_forward e hs₅ ⟨gv, ?_, hGF⟩ ⟨av₂, ?_, hav₂t, hAF₂⟩
      ?_ ⟨cv₅, hcv₅, hcv₅t, hCF₃⟩
    · rw [hfg₅, hfg₄, hfg₃, hfg₂]
      exact hgv
    · rw [hfa₅, hfa₄, hfa₃]
      exact hav₂
    · intro hact
      obtain ⟨mv, hmv, hMF⟩ := hmod₂ hact
      exact ⟨mv, by rw [hfm₅, hfm₄, hfm₃]; exact hmv, hMF⟩

/-- The whole patch succeeds on a clean (stringify-fixed) array document,
writing back the same array. -/
theorem patchScript_patched_arr (e : PatchEnv) (el : List MJson)
    (hfix : stringify (jarr el []) = jarr el []) :
    ∃ c, patchScript e (jarr el []) = some c ∧
      stringify c = jarr el [] := by
  obtain ⟨c₀, h0⟩ := patchScript_empty_some e
  obtain ⟨Q, hQ⟩ := objShape_patchScript e [] c₀ h0
  subst hQ
  refine ⟨jarr el Q, ?_, ?_⟩
  · rw [arrSim_patchScript e el [], h0]
    rfl
  · have h1 : stringify (jarr el Q) = stringify (jarr el []) := by
      rw [stringify_jarr, stringify_jarr]
    rw [h1, hfix]

/-- The file-level patch transform is idempotent. -/
theorem patchConfigDoc_idem (e : PatchEnv) (d : MJson) :
    patchConfigDoc e (patchConfigDoc e d) = patchConfigDoc e d := by
  cases h : patchScript e d with
  | none =>
    have hd : patchConfigDoc e d = d := by rw [patchConfigDoc, h]
    rw [hd]
    exact hd
  | some c =>
    have hd : patchConfigDoc e d = stringify c := by rw [patchConfigDoc, h]
    rw [hd]
    have hP : Patched e (stringify c) := patchScript_forward e h
    obtain ⟨hfix, hcase⟩ := hP
    rcases hcase with ⟨el, harr⟩ | ⟨⟨fsd, hobj⟩, hg, ha, hc2, hm⟩
    · rw [harr] at hfix ⊢
      obtain ⟨c', hc', hstr⟩ := patchScript_patched_arr e el hfix
      rw [patchConfigDoc, hc']
      exact hstr
    · obtain ⟨c', hc', hstr⟩ := patchScript_patched_obj e hobj hfix hg ha
        hc2 hm
      rw [patchConfigDoc, hc']
      exact hstr

/-- C5: the config-patch transform is idempotent — for every input document
and every fixed environment, applying the patch twice yields a document equal
to applying it once (the recomputed model-override, channel and auth-token
fields depend only on the environment, so the second run rewrites the same
values); and a config file that fails to parse is treated as the empty
document, on which the patch body then succeeds rather than raising a fatal
error. -/
theorem claim_C5_patch_idempotent (e : PatchEnv) (d : MJson) :
    patchConfigDoc e (patchConfigDoc e d) = patchConfigDoc e d ∧
    loadedConfig none = jobj [] ∧
    (patchScript e (loadedConfig none)).isSome = true := by
  refine ⟨patchConfigDoc_idem e d, rfl, ?_⟩
  obtain ⟨c, hc⟩ := patchScript_empty_some e
  show (patchScript e (jobj [])).isSome = true
  rw [hc]
  rfl

end Moltworker

